import Mathlib

/-!
# quickView: view-state machine of the terminal file browser

Shallow embedding of `src/core/quickview.cpp` (class `QuickView`): the layout
computed by `setupWindows`, the list navigation operations
(`navigateUp` .. `navigateEnd`), directory loading, the resize handler, the
file-view scroll operations (`scrollFileViewUp` .. `scrollFileViewEnd`),
`viewFile` and `enterDirectory`; of the key dispatch of `src/ui/input.cpp`
(`Input::processKey`, `Input::processFileViewKey`); of
`ImageHandler::isImageFile` and the command line built by
`ImageHandler::launchImageViewer` (`src/filesystem/image_handler.cpp`); of
`FileOperations::loadDirectory` and its sort comparator
(`src/filesystem/file_operations.cpp`), together with the `std::sort` of
libstdc++ that it calls; of the renderers
`Display::drawFileBrowser` and `Display::drawStatusBar` and the outcome of the
redraw `QuickView::drawInterface` (`src/ui/display.cpp`); and of the window operations and key translation of the two backends
(`src/ui/ncurses/ncurses_terminal.cpp`, `src/ui/windows/windows_terminal.cpp`).

Machine model.  A C++ `int` is embedded as a Lean `Int`; the program never
leaves the `int` range for lists and screens that fit in memory, and signed
overflow is not modelled.  The one place where the width of a machine word is
observable is the implicit `int -> size_t` conversion in comparisons against
`directory_entries.size()`; it is modelled by `toSizeT`, and subtraction of
`size_t` values by `sizeSub`.  C++ integer division truncates toward zero and
is embedded as `Int.tdiv`.  A thrown exception or a null-pointer dereference is
the value `none`; a controller method is embedded by the state of the object
when control leaves it.
-/

namespace QuickView

/-- Display mode enumeration (`QuickView::DisplayMode` in `quickview.h`). -/
inductive DisplayMode where
  | NORMAL
  | HELP
  | ABOUT
  | FILE_VIEW
  deriving DecidableEq, Repr

/-- A region of the screen as requested from the backend by
`createWindow(height, width, start_y, start_x)`. -/
structure Window where
  height : Int
  width : Int
  start_y : Int
  start_x : Int
  deriving DecidableEq, Repr

/-- Snapshot of a `std::filesystem::directory_entry`: its path and the answers
of the status queries the browser asks of it. -/
structure DirectoryEntry where
  path : String
  is_directory : Bool
  is_regular_file : Bool
  /-- When the status query of the entry fails: the message of the error code
  it reports.  `is_directory(ec)` and `is_regular_file(ec)` then return false
  and set `ec`. -/
  status_error : Option String := none
  deriving DecidableEq, Repr

/-- The data members of class `QuickView` (`quickview.h`).  A window handle is
`none` for `nullptr`. -/
structure State where
  status_window_ : Option Window
  content_window_ : Option Window
  info_window_ : Option Window
  file_browser_window_ : Option Window
  running : Bool
  debug_enabled : Bool
  needs_redraw : Bool
  screen_height : Int
  screen_width : Int
  status_message : String
  current_display_mode : DisplayMode
  current_directory : String
  directory_entries : List DirectoryEntry
  selected_file_index : Int
  file_scroll_offset : Int
  file_content_lines : List String
  file_view_scroll_offset : Int
  deriving DecidableEq, Repr

/-- Implicit conversion of an `int` to the 64-bit unsigned `size_t`, applied by
C++ when an `int` is compared with `directory_entries.size()`: a non-negative
value is unchanged, a negative value wraps to `x + 2^64`. -/
def toSizeT (x : Int) : Int :=
  if x < 0 then x + 2 ^ 64 else x

/-- The backend call `createWindow(height, width, start_y, start_x)`: the
handle names a region with the requested geometry. -/
def createWindow (height width start_y start_x : Int) : Option Window :=
  some { height := height, width := width, start_y := start_y, start_x := start_x }

/-- The backend call `getWindowSize(window, width, height)`, returning
`(width, height)`; a null handle reports `0 x 0`. -/
def getWindowSize : Option Window → Int × Int
  | some w => (w.width, w.height)
  | none => (0, 0)

/-- `QuickView::setStatusMessage`. -/
def setStatusMessage (q : State) (message : String) : State :=
  { q with status_message := message, needs_redraw := true }

/-- `QuickView::setupWindows`: the four regions computed from the stored screen
size. -/
def setupWindows (q : State) : State :=
  let file_browser_width := Int.tdiv q.screen_width 4
  let right_side_width := q.screen_width - file_browser_width
  let available_height := q.screen_height - 1
  let info_window_height := Int.tdiv (available_height * 10) 100
  let content_window_height := available_height - info_window_height
  { q with
    status_window_ := createWindow 1 q.screen_width (q.screen_height - 1) 0
    file_browser_window_ := createWindow available_height file_browser_width 0 0
    content_window_ :=
      createWindow content_window_height right_side_width 0 file_browser_width
    info_window_ :=
      createWindow info_window_height right_side_width content_window_height
        file_browser_width }

/-! ## The redraw made by `loadDirectory`

`QuickView::drawInterface` calls the renderers of `src/ui/display.cpp` in turn.
For the controller only one thing about the redraw matters: whether it
completes or is left by an exception.  The operations of the renderers that can
throw are the two `substr(pos)` calls that start at `length() - (max_x - 7)`
outside a `try` block, in `Display::drawFileBrowser` and in
`Display::drawFileInfo`; every other `substr` call starts at position 0 or
inside the string, the filesystem queries use error codes or are enclosed in
`try` blocks (`Display::drawDirectoryInfo`, `FileOperations::loadDirectoryPreview`,
the `file_size` queries), and the loops index their vectors below `size()`. -/

/-- `std::filesystem::path::filename` of a generic-format path: the component
after the last directory separator. -/
def filename (path : String) : String :=
  String.mk (path.data.reverse.takeWhile (fun c => c != '/')).reverse

/-- Subtraction of two `size_t` values: the difference modulo 2^64. -/
def sizeSub (a b : Int) : Int :=
  (a - b) % 2 ^ 64

/-- `std::string::substr(pos)`: the characters from position `pos` on; `none`
stands for the `std::out_of_range` exception thrown when `pos > size()`. -/
def substrFrom (s : String) (pos : Int) : Option String :=
  if pos > (s.length : Int) then none else some (String.mk (s.data.drop pos.toNat))

/-- The directory title that `Display::drawFileBrowser` draws on row 1 for a
window `max_x` columns wide; `none` when the `substr` call throws. -/
def Display.fileBrowserTitle (max_x : Int) (current_directory : String) : Option String :=
  let dir_path0 := filename current_directory
  let dir_path := if dir_path0.isEmpty then current_directory else dir_path0
  if (dir_path.length : Int) > toSizeT (max_x - 4) then
    (substrFrom dir_path (sizeSub dir_path.length (toSizeT (max_x - 7)))).map
      (fun tail => "..." ++ tail)
  else some dir_path

/-- The path line that `Display::drawFileInfo` draws on row `max_y - 2` of a
window `max_x` columns wide; `none` when the `substr` call throws. -/
def Display.fileInfoPath (max_x : Int) (path : String) : Option String :=
  if (path.length : Int) > toSizeT (max_x - 4) then
    (substrFrom path (sizeSub path.length (toSizeT (max_x - 7)))).map
      (fun tail => "..." ++ tail)
  else some path

/-- Outcome of `Display::drawFileInfo`: `some ()` when it completes, `none`
when it throws.  The path line is drawn, and can throw, only when the window
is more than 4 rows high. -/
def Display.drawFileInfo (window : Option Window) (file_entry : DirectoryEntry) :
    Option Unit :=
  let max_x := (getWindowSize window).1
  let max_y := (getWindowSize window).2
  if max_y > 4 then (Display.fileInfoPath max_x file_entry.path).map (fun _ => ())
  else some ()

/-- Outcome of `Display::drawInfoWindow`: a selected directory is handled by
`Display::drawDirectoryInfo`, which catches what it throws; every other
selected entry by `Display::drawFileInfo`. -/
def Display.drawInfoWindow (window : Option Window) (entries : List DirectoryEntry)
    (selected_index : Int) : Option Unit :=
  if ¬ entries.isEmpty ∧ toSizeT selected_index < (entries.length : Int) then
    match entries[selected_index.toNat]? with
    | none => some ()
    | some selected_entry =>
      if selected_entry.is_directory ∧ selected_entry.status_error.isNone then some ()
      else Display.drawFileInfo window selected_entry
  else some ()

/-- Outcome of `QuickView::drawInterface`: `some ()` when the redraw completes,
`none` when it does not: `Display::drawFileBrowser` throws in its title
truncation, or the FileView branch indexes a non-empty entry list with a
selected index outside it, or `Display::drawInfoWindow` throws.  The content
renderers and `Display::drawStatusBar` always complete. -/
def drawInterface (q : State) : Option Unit :=
  match Display.fileBrowserTitle (getWindowSize q.file_browser_window_).1
      q.current_directory with
  | none => none
  | some _ =>
    if q.current_display_mode = DisplayMode.FILE_VIEW ∧ ¬ q.directory_entries.isEmpty
        ∧ ¬ toSizeT q.selected_file_index < (q.directory_entries.length : Int) then none
    else Display.drawInfoWindow q.info_window_ q.directory_entries q.selected_file_index

/-- `QuickView::loadDirectory`.  `loaded` is what the collaborator
`FileOperations::loadDirectory(path, directory_entries, debug_enabled)` leaves
in `directory_entries` together with the status string it returns.  The result
is the state of the object when control leaves the method: when it returns, or,
when the `drawInterface()` call it starts with is left by an exception
(`drawInterface` is `none`), at that point, before anything is loaded or
reset. -/
def loadDirectory (q : State) (path : String)
    (loaded : List DirectoryEntry × String) : State :=
  let q1 := setStatusMessage q "Loading directory..."
  let q2 := { q1 with needs_redraw := true }
  match drawInterface q2 with
  | none => q2
  | some _ =>
    let q3 := { q2 with directory_entries := loaded.1 }
    let q4 := { q3 with
      current_directory := path
      selected_file_index := 0
      file_scroll_offset := 0
      needs_redraw := true }
    setStatusMessage q4 loaded.2

/-- `QuickView::navigateUp`. -/
def navigateUp (q : State) : State :=
  if q.directory_entries.isEmpty then q
  else if q.selected_file_index > 0 then
    let q1 := { q with selected_file_index := q.selected_file_index - 1 }
    let q2 :=
      if q1.selected_file_index < q1.file_scroll_offset then
        { q1 with file_scroll_offset := q1.selected_file_index }
      else q1
    { q2 with needs_redraw := true }
  else q

/-- `QuickView::navigateDown`.  The guard compares the `int` index with the
`size_t` value `directory_entries.size() - 1`. -/
def navigateDown (q : State) : State :=
  if q.directory_entries.isEmpty then q
  else if toSizeT q.selected_file_index < (q.directory_entries.length : Int) - 1 then
    let q1 := { q with selected_file_index := q.selected_file_index + 1 }
    let max_y := (getWindowSize q1.file_browser_window_).2
    let display_height := max_y - 4
    let q2 :=
      if q1.selected_file_index ≥ q1.file_scroll_offset + display_height then
        { q1 with file_scroll_offset := q1.selected_file_index - display_height + 1 }
      else q1
    { q2 with needs_redraw := true }
  else q

/-- `QuickView::navigatePageUp`. -/
def navigatePageUp (q : State) : State :=
  if q.directory_entries.isEmpty then q
  else
    let max_y := (getWindowSize q.file_browser_window_).2
    let page_size := max_y - 4
    let q1 := { q with selected_file_index := q.selected_file_index - page_size }
    let q2 := if q1.selected_file_index < 0 then { q1 with selected_file_index := 0 } else q1
    let q3 := { q2 with file_scroll_offset := q2.selected_file_index }
    let q4 := if q3.file_scroll_offset < 0 then { q3 with file_scroll_offset := 0 } else q3
    let q5 := { q4 with needs_redraw := true }
    setStatusMessage q5 "Page up in file list"

/-- `QuickView::navigatePageDown`.  The clamp of the selection compares the
`int` index with the `size_t` value `directory_entries.size()`. -/
def navigatePageDown (q : State) : State :=
  if q.directory_entries.isEmpty then q
  else
    let max_y := (getWindowSize q.file_browser_window_).2
    let page_size := max_y - 4
    let q1 := { q with selected_file_index := q.selected_file_index + page_size }
    let q2 :=
      if toSizeT q1.selected_file_index ≥ (q1.directory_entries.length : Int) then
        { q1 with selected_file_index := (q1.directory_entries.length : Int) - 1 }
      else q1
    let display_height := max_y - 4
    let q3 := { q2 with file_scroll_offset := q2.selected_file_index - display_height + 1 }
    let q4 := if q3.file_scroll_offset < 0 then { q3 with file_scroll_offset := 0 } else q3
    let max_scroll0 := (q4.directory_entries.length : Int) - display_height
    let max_scroll := if max_scroll0 < 0 then 0 else max_scroll0
    let q5 :=
      if q4.file_scroll_offset > max_scroll then { q4 with file_scroll_offset := max_scroll }
      else q4
    let q6 := { q5 with needs_redraw := true }
    setStatusMessage q6 "Page down in file list"

/-- `QuickView::navigateHome`. -/
def navigateHome (q : State) : State :=
  if q.directory_entries.isEmpty then q
  else
    let q1 := { q with selected_file_index := 0, file_scroll_offset := 0, needs_redraw := true }
    setStatusMessage q1 "Top of file list"

/-- `QuickView::navigateEnd`. -/
def navigateEnd (q : State) : State :=
  if q.directory_entries.isEmpty then q
  else
    let q1 := { q with selected_file_index := (q.directory_entries.length : Int) - 1 }
    let max_y := (getWindowSize q1.file_browser_window_).2
    let display_height := max_y - 4
    let q2 := { q1 with file_scroll_offset := (q1.directory_entries.length : Int) - display_height }
    let q3 := if q2.file_scroll_offset < 0 then { q2 with file_scroll_offset := 0 } else q2
    let q4 := { q3 with needs_redraw := true }
    setStatusMessage q4 "Bottom of file list"

/-- `QuickView::resizeHandler`.  `new_width` and `new_height` are what the
backend call `getScreenSize` reports; the old windows are destroyed and
`setupWindows` overwrites all four handles. -/
def resizeHandler (q : State) (new_width new_height : Int) : State :=
  let q1 := { q with screen_width := new_width, screen_height := new_height }
  let q2 := setupWindows q1
  let q3 := { q2 with needs_redraw := true }
  setStatusMessage q3 "Terminal resized"

/-- `QuickView::scrollFileViewUp`. -/
def scrollFileViewUp (q : State) : State :=
  if q.file_view_scroll_offset > 0 then
    let q1 := { q with
      file_view_scroll_offset := q.file_view_scroll_offset - 1
      needs_redraw := true }
    setStatusMessage q1 "Scrolled up"
  else setStatusMessage q "Already at top of file"

/-- `QuickView::scrollFileViewDown`. -/
def scrollFileViewDown (q : State) : State :=
  let max_y := (getWindowSize q.content_window_).2
  let display_height := max_y - 5
  let max_scroll0 := (q.file_content_lines.length : Int) - display_height
  let max_scroll := if max_scroll0 < 0 then 0 else max_scroll0
  if q.file_view_scroll_offset < max_scroll then
    let q1 := { q with
      file_view_scroll_offset := q.file_view_scroll_offset + 1
      needs_redraw := true }
    setStatusMessage q1 "Scrolled down"
  else setStatusMessage q "Already at end of file"

/-- `QuickView::scrollFileViewPageUp`. -/
def scrollFileViewPageUp (q : State) : State :=
  let max_y := (getWindowSize q.content_window_).2
  let page_size := max_y - 5
  let q1 := { q with file_view_scroll_offset := q.file_view_scroll_offset - page_size }
  let q2 := if q1.file_view_scroll_offset < 0 then { q1 with file_view_scroll_offset := 0 } else q1
  let q3 := { q2 with needs_redraw := true }
  setStatusMessage q3 "Page up"

/-- `QuickView::scrollFileViewPageDown`. -/
def scrollFileViewPageDown (q : State) : State :=
  let max_y := (getWindowSize q.content_window_).2
  let page_size := max_y - 5
  let display_height := page_size
  let max_scroll0 := (q.file_content_lines.length : Int) - display_height
  let max_scroll := if max_scroll0 < 0 then 0 else max_scroll0
  let q1 := { q with file_view_scroll_offset := q.file_view_scroll_offset + page_size }
  let q2 :=
    if q1.file_view_scroll_offset > max_scroll then
      { q1 with file_view_scroll_offset := max_scroll }
    else q1
  let q3 := { q2 with needs_redraw := true }
  setStatusMessage q3 "Page down"

/-- `QuickView::scrollFileViewHome`. -/
def scrollFileViewHome (q : State) : State :=
  let q1 := { q with file_view_scroll_offset := 0, needs_redraw := true }
  setStatusMessage q1 "Top of file"

/-- `QuickView::scrollFileViewEnd`. -/
def scrollFileViewEnd (q : State) : State :=
  let max_y := (getWindowSize q.content_window_).2
  let display_height := max_y - 5
  let max_scroll0 := (q.file_content_lines.length : Int) - display_height
  let max_scroll := if max_scroll0 < 0 then 0 else max_scroll0
  let q1 := { q with file_view_scroll_offset := max_scroll, needs_redraw := true }
  setStatusMessage q1 "End of file"

/-- Viewport height of the directory list, the `display_height` / `page_size`
of the navigation methods: height of the file-browser window minus 4. -/
def listViewportHeight (q : State) : Int :=
  (getWindowSize q.file_browser_window_).2 - 4

/-- Viewport height of the file view, the `display_height` / `page_size` of the
`scrollFileView*` methods: height of the content window minus 5. -/
def fileViewportHeight (q : State) : Int :=
  (getWindowSize q.content_window_).2 - 5

/-- The six key codes of `ITerminal::KeyCode` that both `Input::processKey`
(normal mode) and `Input::processFileViewKey` route to a movement method. -/
inductive MoveKey where
  | KEY_UP_ARROW
  | KEY_DOWN_ARROW
  | KEY_PAGE_UP
  | KEY_PAGE_DOWN
  | KEY_HOME_KEY
  | KEY_END_KEY
  deriving DecidableEq, Repr

/-- The movement cases of the normal-mode `switch` in `Input::processKey`. -/
def navigate : MoveKey → State → State
  | .KEY_UP_ARROW => navigateUp
  | .KEY_DOWN_ARROW => navigateDown
  | .KEY_PAGE_UP => navigatePageUp
  | .KEY_PAGE_DOWN => navigatePageDown
  | .KEY_HOME_KEY => navigateHome
  | .KEY_END_KEY => navigateEnd

/-- The `switch` of `Input::processFileViewKey`. -/
def scrollFileView : MoveKey → State → State
  | .KEY_UP_ARROW => scrollFileViewUp
  | .KEY_DOWN_ARROW => scrollFileViewDown
  | .KEY_PAGE_UP => scrollFileViewPageUp
  | .KEY_PAGE_DOWN => scrollFileViewPageDown
  | .KEY_HOME_KEY => scrollFileViewHome
  | .KEY_END_KEY => scrollFileViewEnd

/-- State after a finite sequence of list navigation operations. -/
def navigateAll (keys : List MoveKey) (q : State) : State :=
  keys.foldl (fun s k => navigate k s) q

/-- State after a finite sequence of file-view scroll operations. -/
def scrollFileViewAll (keys : List MoveKey) (q : State) : State :=
  keys.foldl (fun s k => scrollFileView k s) q

/-- State of a freshly constructed `QuickView` (the constructor's initializer
list), with the current directory left empty. -/
def initial : State where
  status_window_ := none
  content_window_ := none
  info_window_ := none
  file_browser_window_ := none
  running := false
  debug_enabled := false
  needs_redraw := true
  screen_height := 0
  screen_width := 0
  status_message := "Ready"
  current_display_mode := DisplayMode.NORMAL
  current_directory := ""
  directory_entries := []
  selected_file_index := 0
  file_scroll_offset := 0
  file_content_lines := []
  file_view_scroll_offset := 0

/-- A regular file entry named `name`. -/
def fileEntry (name : String) : DirectoryEntry :=
  { path := name, is_directory := false, is_regular_file := true }

/-- Example session: an 80 x 25 screen showing a directory of 30 files. -/
def session30 : State :=
  loadDirectory (setupWindows { initial with screen_width := 80, screen_height := 25 })
    "/data" (List.replicate 30 (fileEntry "f"), "Loaded 30 entries")

/-- The list-view invariant for a state with a non-empty entry list and a
viewport of at least one row. -/
structure NavInv (q : State) : Prop where
  nonempty : q.directory_entries ≠ []
  height_pos : 1 ≤ listViewportHeight q
  off_nonneg : 0 ≤ q.file_scroll_offset
  off_le_sel : q.file_scroll_offset ≤ q.selected_file_index
  sel_lt_bottom : q.selected_file_index < q.file_scroll_offset + listViewportHeight q
  sel_lt_len : q.selected_file_index < (q.directory_entries.length : Int)
  off_le_max :
    q.file_scroll_offset ≤ max 0 ((q.directory_entries.length : Int) - listViewportHeight q)

/-- Example session after ten presses of the down key followed by a resize of
the terminal to 80 x 8: the directory window is 7 rows high, the viewport 3. -/
def session30Shrunk : State :=
  resizeHandler (navigateAll (List.replicate 10 MoveKey.KEY_DOWN_ARROW) session30) 80 8

/-- Example file view: an 80 x 28 screen (content window 25 rows, viewport 20)
showing a buffer of 200 lines. -/
def fileView200 : State :=
  { setupWindows { initial with screen_width := 80, screen_height := 28 } with
    file_content_lines := List.replicate 200 "line"
    current_display_mode := DisplayMode.FILE_VIEW }

/-- The scroll rule of the step operations as the specification words it, for a
step from `q` to `q'` under viewport height `h`. -/
def StepScrollRule (q q' : State) (h : Int) : Prop :=
  q'.file_scroll_offset =
    if q'.selected_file_index < q.file_scroll_offset then q'.selected_file_index
    else if q'.selected_file_index ≥ q.file_scroll_offset + h then
      q'.selected_file_index - h + 1
    else q.file_scroll_offset

instance (q q' : State) (h : Int) : Decidable (StepScrollRule q q' h) := by
  unfold StepScrollRule
  infer_instance

/-! ## Paths, image detection and line sanitisation

A `std::string` is embedded as a `String` whose characters stand for its bytes
(code points below 256); `std::string::operator<` is the lexicographic order on
bytes, which is the order of `String`. -/

/-- `std::transform(s.begin(), s.end(), s.begin(), ::tolower)` in the "C"
locale: the letters `A`..`Z` are mapped to `a`..`z`, every other character is
unchanged. -/
def toLowerStr (s : String) : String :=
  String.mk (s.data.map Char.toLower)

/-- `std::filesystem::path::parent_path` of a generic-format path: the path
without its last component; the root directory is its own parent. -/
def parent_path (path : String) : String :=
  let upto := path.data.reverse.dropWhile (fun c => c != '/')
  let stripped := upto.dropWhile (fun c => c == '/')
  if stripped.isEmpty then (if upto.isEmpty then "" else "/")
  else String.mk stripped.reverse

/-- `std::filesystem::path::extension`: the substring of the file name that
begins at its rightmost period, and the empty string when the file name has no
period, is `.` or `..`, or has its only period as first character. -/
def extension (path : String) : String :=
  let name := (filename path).data
  let suffix := (name.reverse.takeWhile (fun c => c != '.')).reverse
  if name = ['.'] ∨ name = ['.', '.'] then ""
  else if name.all (fun c => c != '.') then ""
  else if suffix.length + 1 = name.length then ""
  else String.mk ('.' :: suffix)

/-- `ImageHandler::isImageFile`. -/
def ImageHandler.isImageFile (file_path : String) : Bool :=
  let ext := toLowerStr (extension file_path)
  ext == ".jpg" || ext == ".jpeg" ||
  ext == ".png" || ext == ".gif" ||
  ext == ".bmp" || ext == ".tiff" ||
  ext == ".tif" || ext == ".webp" ||
  ext == ".svg" || ext == ".ico" ||
  ext == ".ppm" || ext == ".pgm" ||
  ext == ".pbm" || ext == ".xpm" ||
  ext == ".pcx" || ext == ".tga"

/-- Value of a byte as a C++ `char` on the platforms where `char` is signed
(x86-64): bytes 128..255 are the negative values -128..-1. -/
def charValue (c : Char) : Int :=
  if c.toNat < 128 then (c.toNat : Int) else (c.toNat : Int) - 256

/-- The body of the `for (char c : line)` loop of `QuickView::viewFile`: what
one character of the line appends to `display_line`. -/
def displayChar (c : Char) : List Char :=
  if c = '\t' then [' ', ' ', ' ', ' ']
  else if charValue c ≥ 32 ∨ c = '\n' then [c]
  else ['.']

/-- The characters of `display_line` after the loop over `line`. -/
def displayChars : List Char → List Char
  | [] => []
  | c :: rest => displayChar c ++ displayChars rest

/-- The `display_line` that `QuickView::viewFile` stores for `line`. -/
def displayLine (line : String) : String :=
  String.mk (displayChars line.data)

/-! ## File viewing, directory entry and key dispatch -/

/-- What the filesystem answers when `QuickView::viewFile` opens and reads the
file at a path. -/
structure FileAccess where
  /-- Whether `std::ifstream file(path)` is open. -/
  is_open : Bool
  /-- Outcome of `std::filesystem::file_size(path)`: the size in bytes, or the
  `what()` of the exception it throws. -/
  file_size : Except String Nat
  /-- The lines that successive `std::getline` calls deliver. -/
  lines : List String
  /-- The `what()` of a `std::exception` thrown while the lines are read, if
  any; `lines` are then the lines delivered before it. -/
  read_error : Option String := none

/-- The collaborators outside the controller: the terminal's current screen
size and the filesystem. -/
structure World where
  /-- What `terminal_->getScreenSize(width, height)` reports, as `(width, height)`. -/
  screen_size : Int × Int
  /-- Outcome of `FileOperations::loadDirectory(path, directory_entries, debug_enabled)`:
  the entries it leaves and the status string it returns. -/
  load : String → List DirectoryEntry × String
  /-- Opening and reading the file at a path. -/
  access : String → FileAccess

/-- `const size_t MAX_FILE_SIZE = 10 * 1024 * 1024` in `QuickView::viewFile`. -/
def MAX_FILE_SIZE : Nat := 10 * 1024 * 1024

/-- `const int MAX_LINES = 10000` in `QuickView::viewFile`. -/
def MAX_LINES : Nat := 10000

/-- The read loop of `QuickView::viewFile`,
`while (std::getline(file, line) && line_count < MAX_LINES)`, started with
`line_count` lines already stored in `content`: the final `file_content_lines`
and `line_count`. -/
def readLines : List String → Nat → List String → List String × Nat
  | [], line_count, content => (content, line_count)
  | line :: rest, line_count, content =>
    if line_count < MAX_LINES then
      readLines rest (line_count + 1) (content ++ [displayLine line])
    else (content, line_count)

/-- The entry `directory_entries[selected_file_index]`. -/
def selectedEntry (q : State) : Option DirectoryEntry :=
  q.directory_entries[q.selected_file_index.toNat]?

/-- `QuickView::viewFile`.  Launching the external viewer, forcing the complete
redraw and drawing only act on the terminal. -/
def viewFile (w : World) (q : State) : State :=
  if q.directory_entries.isEmpty
      ∨ toSizeT q.selected_file_index ≥ (q.directory_entries.length : Int) then
    setStatusMessage q "No file selected"
  else
    match selectedEntry q with
    | none => setStatusMessage q "No file selected"
    | some selected_entry =>
      if !selected_entry.is_regular_file ∨ selected_entry.status_error.isSome then
        setStatusMessage q "Cannot view: not a regular file"
      else if ImageHandler.isImageFile selected_entry.path then
        let q1 := setStatusMessage q "Image opened in default viewer"
        setupWindows q1
      else
        let q1 := { q with file_content_lines := [], file_view_scroll_offset := 0 }
        let file := w.access selected_entry.path
        if !file.is_open then setStatusMessage q1 "Error: Cannot open file"
        else
          match file.file_size with
          | .error what => setStatusMessage q1 ("Error reading file: " ++ what)
          | .ok file_size =>
            if file_size > MAX_FILE_SIZE then
              setStatusMessage q1 "Error: File too large to view (>10MB)"
            else
              let read := readLines file.lines 0 q1.file_content_lines
              let q2 := { q1 with file_content_lines := read.1 }
              match file.read_error with
              | some what => setStatusMessage q2 ("Error reading file: " ++ what)
              | none =>
                let q3 :=
                  if read.2 ≥ MAX_LINES then
                    { q2 with file_content_lines :=
                        q2.file_content_lines ++
                          ["... (file truncated at " ++ toString MAX_LINES ++ " lines)"] }
                  else q2
                let q4 := { q3 with
                  current_display_mode := DisplayMode.FILE_VIEW
                  needs_redraw := true }
                setStatusMessage q4 "File view - Press any key to return"

/-- `QuickView::enterDirectory`. -/
def enterDirectory (w : World) (q : State) : State :=
  if q.directory_entries.isEmpty
      ∨ toSizeT q.selected_file_index ≥ (q.directory_entries.length : Int) then q
  else
    match selectedEntry q with
    | none => q
    | some selected_entry =>
      if selected_entry.is_directory ∧ selected_entry.status_error.isNone then
        let new_path :=
          if filename selected_entry.path = ".." then parent_path q.current_directory
          else selected_entry.path
        let dir_name := if (filename new_path).isEmpty then new_path else filename new_path
        let q1 := setStatusMessage q ("Entering " ++ dir_name ++ "...")
        let q2 := { q1 with needs_redraw := true }
        loadDirectory q2 new_path (w.load new_path)
      else
        match selected_entry.status_error with
        | some message => setStatusMessage q ("Cannot access: " ++ message)
        | none => q

/-- The named key codes of `ITerminal::KeyCode`. -/
def ITerminal.KEY_UNKNOWN : Int := -1
def ITerminal.KEY_UP_ARROW : Int := 1000
def ITerminal.KEY_DOWN_ARROW : Int := 1001
def ITerminal.KEY_LEFT_ARROW : Int := 1002
def ITerminal.KEY_RIGHT_ARROW : Int := 1003
def ITerminal.KEY_PAGE_UP : Int := 1004
def ITerminal.KEY_PAGE_DOWN : Int := 1005
def ITerminal.KEY_HOME_KEY : Int := 1006
def ITerminal.KEY_END_KEY : Int := 1007
def ITerminal.KEY_ENTER_KEY : Int := 1008
def ITerminal.KEY_ESCAPE_KEY : Int := 1009
def ITerminal.KEY_RESIZE_EVENT : Int := 1010

/-- The status line that `Input::processKey` shows when it returns to or stays
in normal browsing. -/
def Input.usageMessage : String :=
  "Use arrows to navigate, Enter to select, 'v' to view files, 'h' for help, 'q' to quit"

/-- `Input::processFileViewKey`: the state after the key and whether the key
was handled. -/
def Input.processFileViewKey (q : State) (key : Int) : State × Bool :=
  if key = ITerminal.KEY_UP_ARROW then (scrollFileViewUp q, true)
  else if key = ITerminal.KEY_DOWN_ARROW then (scrollFileViewDown q, true)
  else if key = ITerminal.KEY_PAGE_UP then (scrollFileViewPageUp q, true)
  else if key = ITerminal.KEY_PAGE_DOWN then (scrollFileViewPageDown q, true)
  else if key = ITerminal.KEY_HOME_KEY then (scrollFileViewHome q, true)
  else if key = ITerminal.KEY_END_KEY then (scrollFileViewEnd q, true)
  else (q, false)

/-- `Input::processKey`.  Character keys are given by their codes
(`q` 113, `Q` 81, `h` 104, `H` 72, `a` 97, `A` 65, `v` 118, `V` 86,
newline 10, carriage return 13). -/
def Input.processKey (w : World) (q : State) (key : Int) : State :=
  if q.current_display_mode = DisplayMode.FILE_VIEW then
    if (Input.processFileViewKey q key).2 then (Input.processFileViewKey q key).1
    else
      let q1 := { q with current_display_mode := DisplayMode.NORMAL }
      let q2 := { q1 with needs_redraw := true }
      setStatusMessage q2 Input.usageMessage
  else if q.current_display_mode = DisplayMode.HELP
      ∨ q.current_display_mode = DisplayMode.ABOUT then
    let q1 := { q with current_display_mode := DisplayMode.NORMAL }
    let q2 := { q1 with needs_redraw := true }
    setStatusMessage q2 Input.usageMessage
  else if key = 113 ∨ key = 81 ∨ key = ITerminal.KEY_ESCAPE_KEY then
    setStatusMessage { q with running := false } "Goodbye!"
  else if key = 104 ∨ key = 72 then
    let q1 := { q with current_display_mode := DisplayMode.HELP }
    let q2 := { q1 with needs_redraw := true }
    setStatusMessage q2 "Help screen - Press any key to return"
  else if key = 97 ∨ key = 65 then
    let q1 := { q with current_display_mode := DisplayMode.ABOUT }
    let q2 := { q1 with needs_redraw := true }
    setStatusMessage q2 "About screen - Press any key to return"
  else if key = 118 ∨ key = 86 then viewFile w q
  else if key = ITerminal.KEY_UP_ARROW then navigateUp q
  else if key = ITerminal.KEY_DOWN_ARROW then navigateDown q
  else if key = ITerminal.KEY_PAGE_UP then navigatePageUp q
  else if key = ITerminal.KEY_PAGE_DOWN then navigatePageDown q
  else if key = ITerminal.KEY_HOME_KEY then navigateHome q
  else if key = ITerminal.KEY_END_KEY then navigateEnd q
  else if key = ITerminal.KEY_ENTER_KEY ∨ key = 10 ∨ key = 13 then enterDirectory w q
  else if key = ITerminal.KEY_RESIZE_EVENT then
    resizeHandler q w.screen_size.1 w.screen_size.2
  else setStatusMessage q Input.usageMessage

/-! ## Sorting of the entry list -/

/-- `std::string::operator<`: lexicographic comparison of the bytes. -/
def stringLess (a b : String) : Bool :=
  decide (a.data < b.data)

/-- The comparator lambda passed to `std::sort` in
`FileOperations::loadDirectory`: whether `a` is ordered before `b`. -/
def FileOperations.loadDirectoryComparator (a b : DirectoryEntry) : Bool :=
  let ec_a := a.status_error.isSome
  let ec_b := b.status_error.isSome
  let a_is_dir := a.is_directory && !ec_a
  let b_is_dir := b.is_directory && !ec_b
  if ec_a ∨ ec_b then stringLess (filename a.path) (filename b.path)
  else if a_is_dir ∧ !b_is_dir then true
  else if !a_is_dir ∧ b_is_dir then false
  else stringLess (toLowerStr (filename a.path)) (toLowerStr (filename b.path))

/-- The contract of `std::sort(first, last, comp)`: the range afterwards is a
permutation of the range before and is sorted with respect to `comp`, that is,
no element is `comp`-less than an element before it.  The relative order of
equivalent elements is not specified. -/
def StdSortResult {α : Type} (comp : α → α → Bool) (input output : List α) : Prop :=
  output.Perm input ∧ output.Pairwise (fun x y => comp y x = false)

instance {α : Type} [DecidableEq α] (comp : α → α → Bool) (input output : List α) :
    Decidable (StdSortResult comp input output) := by
  unfold StdSortResult
  infer_instance

/-- An executable sort that meets the contract of `std::sort` for the
comparator of `FileOperations::loadDirectory`: insertion sort. -/
def FileOperations.sortEntries (entries : List DirectoryEntry) : List DirectoryEntry :=
  entries.insertionSort (fun x y => FileOperations.loadDirectoryComparator y x = false)

/-- A directory entry named `name`. -/
def dirEntry (name : String) : DirectoryEntry :=
  { path := name, is_directory := true, is_regular_file := false }

/-- Whether the cell at row `r`, column `c` of the screen belongs to the
rectangle of the window. -/
def Window.contains (win : Window) (r c : Int) : Prop :=
  win.start_y ≤ r ∧ r < win.start_y + win.height ∧
    win.start_x ≤ c ∧ c < win.start_x + win.width

instance (win : Window) (r c : Int) : Decidable (win.contains r c) := by
  unfold Window.contains
  infer_instance

/-- The key code of a movement key. -/
def MoveKey.code : MoveKey → Int
  | .KEY_UP_ARROW => ITerminal.KEY_UP_ARROW
  | .KEY_DOWN_ARROW => ITerminal.KEY_DOWN_ARROW
  | .KEY_PAGE_UP => ITerminal.KEY_PAGE_UP
  | .KEY_PAGE_DOWN => ITerminal.KEY_PAGE_DOWN
  | .KEY_HOME_KEY => ITerminal.KEY_HOME_KEY
  | .KEY_END_KEY => ITerminal.KEY_END_KEY

/-! ## Example worlds and sessions for the display-mode machine -/

/-- Example world: the terminal now reports a 40 x 10 screen; every directory
lists as empty and every file opens as one short line. -/
def world40x10 : World where
  screen_size := (40, 10)
  load := fun _ => ([], "Loaded 0 entries")
  access := fun _ => { is_open := true, file_size := Except.ok 12, lines := ["hello\tworld"] }

/-- Example session in Help mode: the 30-entry session right after start-up. -/
def helpSession : State :=
  { session30 with running := true, current_display_mode := DisplayMode.HELP }

/-- Example session in FileView mode on an 80 x 24 screen, showing a buffer of
three lines scrolled to line 1. -/
def fileViewSession : State :=
  { setupWindows { initial with screen_width := 80, screen_height := 24 } with
    running := true
    current_display_mode := DisplayMode.FILE_VIEW
    directory_entries := [fileEntry "/data/a.txt"]
    file_content_lines := ["one", "two", "three"]
    file_view_scroll_offset := 1 }

/-- The condition under which, in the words of the specification, viewing the
selection succeeds: there is a selected entry, it is a regular file, it is not
classified as an image, it can be opened, its size is at most 10 MiB and it is
read without error. -/
def ViewFileSucceeds (w : World) (q : State) : Prop :=
  ¬ (q.directory_entries.isEmpty
      ∨ toSizeT q.selected_file_index ≥ (q.directory_entries.length : Int)) ∧
    ∃ e, selectedEntry q = some e ∧
      e.is_regular_file = true ∧ e.status_error = none ∧
      ImageHandler.isImageFile e.path = false ∧
      (w.access e.path).is_open = true ∧
      (∃ size, (w.access e.path).file_size = Except.ok size ∧ size ≤ 10 * 1024 * 1024) ∧
      (w.access e.path).read_error = none

/-- Example world whose files cannot be opened. -/
def worldUnreadable : World where
  screen_size := (80, 24)
  load := fun _ => ([], "Loaded 0 entries")
  access := fun _ => { is_open := false, file_size := Except.ok 0, lines := [] }

/-- Example session in Normal mode on an 80 x 24 screen: a text file, an image
and a directory are listed, the text file is selected, and the TextBuffer and
file-view scroll offset of an earlier file view are still in place. -/
def viewSession : State :=
  { setupWindows { initial with screen_width := 80, screen_height := 24 } with
    running := true
    current_display_mode := DisplayMode.NORMAL
    current_directory := "/data"
    directory_entries :=
      [fileEntry "/data/a.txt", fileEntry "/data/pic.PNG", dirEntry "/data/sub"]
    file_content_lines := ["old line 1", "old line 2"]
    file_view_scroll_offset := 5 }

/-- The example session after the view key `v`: the selected text file is
loaded and the display mode is FileView. -/
def viewedSession : State :=
  Input.processKey world40x10 viewSession 118

/-- The viewed session after a further key that the scroll engine does not
handle (`q`): back in Normal mode, the TextBuffer of the viewed file still in
place. -/
def afterViewSession : State :=
  Input.processKey world40x10 viewedSession 113

/-- The allow-list of image extensions as the specification gives it. -/
def imageExtensions : List String :=
  [".jpg", ".jpeg", ".png", ".gif", ".bmp", ".tiff", ".tif", ".webp",
   ".svg", ".ico", ".ppm", ".pgm", ".pbm", ".xpm", ".pcx", ".tga"]

/-! ## Enumeration of a directory -/

/-- `std::filesystem::path::root_path` of a generic-format path: `/` for an
absolute path, empty for a relative one. -/
def root_path (path : String) : String :=
  if path.data.head? = some '/' then "/" else ""

/-- `std::filesystem::path::has_parent_path`: whether `parent_path()` is
non-empty. -/
def has_parent_path (path : String) : Bool :=
  !(parent_path path).isEmpty

/-- `std::filesystem::operator/` for a non-empty left operand and a relative
right operand: the two joined by one directory separator. -/
def joinPath (dir name : String) : String :=
  if dir.data.getLast? = some '/' then dir ++ name else dir ++ "/" ++ name

/-- What the filesystem answers while `FileOperations::loadDirectory`
enumerates a directory. -/
structure DirectoryRead where
  /-- Status of the entry constructed for `path.parent_path() / ".."`. -/
  parent : DirectoryEntry
  /-- The message of the error code that `directory_iterator(path, ec)` sets
  when the directory cannot be opened; the iterator then equals the end
  iterator and nothing is thrown. -/
  open_error : Option String := none
  /-- The entries that the iterator delivers, each with the outcome of
  `entry.exists(entry_ec) && !entry_ec`. -/
  delivered : List (DirectoryEntry × Bool) := []
  /-- The `what()` of the exception thrown by an increment of the iterator
  after the delivered entries, if any. -/
  increment_error : Option String := none

/-- `FileOperations::loadDirectory`: the entries it leaves in `entries` and the
status string it returns.  `sort` is the `std::sort` call with the comparator.
The test `if (ec)` inside the loop reads the error code of the construction of
the iterator, which is clear whenever the loop body runs. -/
def FileOperations.loadDirectory (sort : List DirectoryEntry → List DirectoryEntry)
    (fs : DirectoryRead) (path : String) : List DirectoryEntry × String :=
  let entries1 : List DirectoryEntry :=
    if has_parent_path path ∧ path ≠ root_path path then
      [{ fs.parent with path := joinPath (parent_path path) ".." }]
    else []
  let entries2 :=
    if fs.open_error.isSome then entries1
    else entries1 ++ (fs.delivered.filter (fun d => d.2)).map (fun d => d.1)
  match (if fs.open_error.isSome then none else fs.increment_error) with
  | some what => (entries2, "Error loading directory: " ++ what)
  | none =>
    let entries3 := sort entries2
    (entries3, "Loaded " ++ toString entries3.length ++ " entries")

/-- Example enumeration: the directory does not exist, so the iterator cannot
be opened. -/
def missingDirectory : DirectoryRead where
  parent := dirEntry ""
  open_error := some "No such file or directory"

/-- Example world for the line ceiling: every file opens and has exactly
10000 lines. -/
def world10000Lines : World where
  screen_size := (80, 24)
  load := fun _ => ([], "Loaded 0 entries")
  access := fun _ =>
    { is_open := true, file_size := Except.ok 20000, lines := List.replicate 10000 "x" }

/-- Example session on an 80 x 4 screen (directory window 3 rows, viewport
height -1) with three entries, the last one selected after two presses of the
down key. -/
def tinySession : State :=
  Input.processKey world40x10
    (Input.processKey world40x10
      (loadDirectory (setupWindows { initial with screen_width := 80, screen_height := 4 })
        "/data"
        ([dirEntry "/data/sub", fileEntry "/data/a.txt", fileEntry "/data/b.txt"],
          "Loaded 3 entries"))
      ITerminal.KEY_DOWN_ARROW)
    ITerminal.KEY_DOWN_ARROW

/-! ## Renderers

A renderer is embedded by the sequence of drawing calls it makes on its
window. -/

/-- `ITerminal::ColorPair`. -/
inductive ColorPair where
  | DEFAULT
  | STATUS_BAR
  | SELECTED
  | ERROR
  | DIRECTORY
  deriving DecidableEq, Repr

/-- A call of one of the drawing operations of `ITerminal` on a window. -/
inductive DrawCall where
  | clearWindow
  | drawBorder
  | drawText (y x : Int) (text : String)
  | drawHorizontalLine (y x length : Int)
  | setTextAttribute (color : ColorPair) (bold reverse : Bool)
  | clearTextAttribute (color : ColorPair) (bold reverse : Bool)
  deriving DecidableEq, Repr

/-- `std::string::substr(0, count)`: the first `count` characters, or the whole
string when it is shorter. -/
def substrPrefix (s : String) (count : Int) : String :=
  String.mk (s.data.take count.toNat)

/-- The values of `i` for which the body of the loop
`for (int i = 0; i < display_height - 1 && (i + scroll_offset) < entries.size(); i++)`
of `Display::drawFileBrowser` runs, from `i` on.  `fuel` bounds the number of
iterations; `(display_height - 1 - i).toNat` is always enough. -/
def Display.visibleRows (display_height scroll_offset : Int) (size : Nat) :
    Nat → Int → List Int
  | 0, _ => []
  | fuel + 1, i =>
    if i < display_height - 1 ∧ toSizeT (i + scroll_offset) < (size : Int) then
      i :: Display.visibleRows display_height scroll_offset size fuel (i + 1)
    else []

/-- The body of the loop of `Display::drawFileBrowser` for one `i`. -/
def Display.fileBrowserRow (has_colors : Bool) (max_x : Int)
    (entries : List DirectoryEntry) (selected_index scroll_offset : Int) (i : Int) :
    List DrawCall :=
  let entry_index := i + scroll_offset
  match entries[entry_index.toNat]? with
  | none => []
  | some entry =>
    let highlight_on :=
      if entry_index = selected_index then
        [if has_colors then DrawCall.setTextAttribute ColorPair.SELECTED false false
         else DrawCall.setTextAttribute ColorPair.DEFAULT false true]
      else []
    let name0 := filename entry.path
    let name1 :=
      if (name0.length : Int) > toSizeT (max_x - 4) then
        substrPrefix name0 (toSizeT (max_x - 7)) ++ "..."
      else name0
    let name2 :=
      if entry.is_directory ∧ entry.status_error.isNone then "[" ++ name1 ++ "]" else name1
    let highlight_off :=
      if entry_index = selected_index then
        [if has_colors then DrawCall.clearTextAttribute ColorPair.SELECTED false false
         else DrawCall.clearTextAttribute ColorPair.DEFAULT false true]
      else []
    highlight_on ++ [DrawCall.drawText (3 + i) 1 name2] ++ highlight_off

/-- The indices of the entries that `Display::drawFileBrowser` draws in a
window `max_y` rows high. -/
def Display.drawnIndices (max_y : Int) (entries : List DirectoryEntry)
    (scroll_offset : Int) : List Int :=
  (Display.visibleRows (max_y - 4) scroll_offset entries.length
    (max_y - 4 - 1).toNat 0).map (fun i => i + scroll_offset)

/-- `Display::drawFileBrowser`: the drawing calls on the directory window, or
`none` when the title truncation throws. -/
def Display.drawFileBrowser (has_colors : Bool) (window : Option Window)
    (entries : List DirectoryEntry) (selected_index scroll_offset : Int)
    (current_directory : String) : Option (List DrawCall) :=
  let max_x := (getWindowSize window).1
  let max_y := (getWindowSize window).2
  let display_height := max_y - 4
  match Display.fileBrowserTitle max_x current_directory with
  | none => none
  | some dir_path =>
    some ([DrawCall.clearWindow, DrawCall.drawBorder,
        DrawCall.drawText 0 2 " Directory ",
        DrawCall.drawText 1 1 dir_path,
        DrawCall.drawHorizontalLine 2 1 (max_x - 2)] ++
      (Display.visibleRows display_height scroll_offset entries.length
        (display_height - 1).toNat 0).flatMap
        (Display.fileBrowserRow has_colors max_x entries selected_index scroll_offset))

/-- The text that `Display::drawStatusBar` draws at the left of the status
row. -/
def Display.statusBarText (w : World) (entries : List DirectoryEntry)
    (selected_index : Int) (current_directory status_message : String)
    (screen_width : Int) : String :=
  if ¬ entries.isEmpty ∧ toSizeT selected_index < (entries.length : Int) then
    match entries[selected_index.toNat]? with
    | none => ""
    | some selected_entry =>
      let name := filename selected_entry.path
      let status_info :=
        if selected_entry.is_directory ∧ selected_entry.status_error.isNone then
          "[DIR] " ++ name
        else if selected_entry.is_regular_file ∧ selected_entry.status_error.isNone then
          match (w.access selected_entry.path).file_size with
          | .ok file_size =>
            if file_size < 1024 then name ++ " (" ++ toString file_size ++ " bytes)"
            else if file_size < 1024 * 1024 then
              name ++ " (" ++ toString (file_size / 1024) ++ " KB)"
            else name ++ " (" ++ toString (file_size / (1024 * 1024)) ++ " MB)"
          | .error _ => name ++ " (size unknown)"
        else name ++ " (special file)"
      let dir_info0 := " | " ++ filename current_directory
      let dir_info := if dir_info0 = " | " then " | " ++ current_directory else dir_info0
      let available_space : Int := screen_width - 14 - 3
      let full_status := status_info ++ dir_info
      if (full_status.length : Int) > toSizeT available_space then
        if (status_info.length : Int) > toSizeT (available_space - 3) then
          substrPrefix status_info (toSizeT (available_space - 3)) ++ "..."
        else status_info ++ "..."
      else status_info ++ dir_info
  else status_message

/-- `Display::drawStatusBar`: the drawing calls on the status window
(`version_info.length()` is 14). -/
def Display.drawStatusBar (w : World) (entries : List DirectoryEntry)
    (selected_index : Int) (current_directory status_message : String)
    (screen_width : Int) : List DrawCall :=
  [DrawCall.clearWindow,
   DrawCall.drawText 0 1
     (Display.statusBarText w entries selected_index current_directory status_message
       screen_width),
   DrawCall.drawText 0 (screen_width - 14 - 1) "quickView v1.0"]

/-- The calls `Display::drawFileBrowser(...)` and `Display::drawStatusBar(...)`
of `QuickView::drawInterface`, with the members of the controller as
arguments. -/
def drawInterfaceFileBrowser (has_colors : Bool) (q : State) : Option (List DrawCall) :=
  Display.drawFileBrowser has_colors q.file_browser_window_ q.directory_entries
    q.selected_file_index q.file_scroll_offset q.current_directory

def drawInterfaceStatusBar (w : World) (q : State) : List DrawCall :=
  Display.drawStatusBar w q.directory_entries q.selected_file_index q.current_directory
    q.status_message q.screen_width

/-- Example world whose files are 11 MiB and 5 bytes long. -/
def worldHugeFiles : World where
  screen_size := (80, 24)
  load := fun _ => ([], "Loaded 0 entries")
  access := fun _ =>
    { is_open := true, file_size := Except.ok (11 * 1024 * 1024 + 5), lines := [] }

/-- The 30-entry session after 19 presses of the down key: selection 19, scroll
offset 0, viewport height 20. -/
def session30Row19 : State :=
  navigateAll (List.replicate 19 MoveKey.KEY_DOWN_ARROW) session30

/-- Example session on a 20 x 24 screen (directory window 5 columns wide) in
the directory `/home/u/projects`. -/
def narrowSession : State :=
  loadDirectory (setupWindows { initial with screen_width := 20, screen_height := 24 })
    "/home/u/projects" ([fileEntry "/home/u/projects/a.txt"], "Loaded 1 entries")

/-- Example session on a 20 x 24 screen in the directory `/home/u/projects`
with three entries, the last one selected after two presses of the down key. -/
def narrowSession3 : State :=
  navigateAll [MoveKey.KEY_DOWN_ARROW, MoveKey.KEY_DOWN_ARROW]
    (loadDirectory (setupWindows { initial with screen_width := 20, screen_height := 24 })
      "/home/u/projects"
      ([dirEntry "/home/u/projects/src", fileEntry "/home/u/projects/a.txt",
        fileEntry "/home/u/projects/b.txt"], "Loaded 3 entries"))

/-! ## Key translation of the backends -/

/-- The key codes of the curses header that `NCursesTerminal::mapKeyCode`
names (`KEY_DOWN` is octal 0402, `KEY_RESIZE` octal 0632). -/
def NCurses.KEY_DOWN : Int := 258
def NCurses.KEY_UP : Int := 259
def NCurses.KEY_LEFT : Int := 260
def NCurses.KEY_RIGHT : Int := 261
def NCurses.KEY_HOME : Int := 262
def NCurses.KEY_NPAGE : Int := 338
def NCurses.KEY_PPAGE : Int := 339
def NCurses.KEY_ENTER : Int := 343
def NCurses.KEY_END : Int := 360
def NCurses.KEY_RESIZE : Int := 410

/-- `NCursesTerminal::mapKeyCode` (newline is 10, carriage return 13). -/
def NCursesTerminal.mapKeyCode (ncurses_key : Int) : Int :=
  if ncurses_key = NCurses.KEY_UP then ITerminal.KEY_UP_ARROW
  else if ncurses_key = NCurses.KEY_DOWN then ITerminal.KEY_DOWN_ARROW
  else if ncurses_key = NCurses.KEY_LEFT then ITerminal.KEY_LEFT_ARROW
  else if ncurses_key = NCurses.KEY_RIGHT then ITerminal.KEY_RIGHT_ARROW
  else if ncurses_key = NCurses.KEY_PPAGE then ITerminal.KEY_PAGE_UP
  else if ncurses_key = NCurses.KEY_NPAGE then ITerminal.KEY_PAGE_DOWN
  else if ncurses_key = NCurses.KEY_HOME then ITerminal.KEY_HOME_KEY
  else if ncurses_key = NCurses.KEY_END then ITerminal.KEY_END_KEY
  else if ncurses_key = NCurses.KEY_ENTER ∨ ncurses_key = 10 ∨ ncurses_key = 13 then
    ITerminal.KEY_ENTER_KEY
  else if ncurses_key = 27 then ITerminal.KEY_ESCAPE_KEY
  else if ncurses_key = NCurses.KEY_RESIZE then ITerminal.KEY_RESIZE_EVENT
  else ncurses_key

/-- The virtual-key codes of the Windows header that
`WindowsTerminal::mapKeyCode` names (`VK_RETURN` is 0x0D, `VK_DOWN` 0x28). -/
def Windows.VK_RETURN : Int := 13
def Windows.VK_ESCAPE : Int := 27
def Windows.VK_PRIOR : Int := 33
def Windows.VK_NEXT : Int := 34
def Windows.VK_END : Int := 35
def Windows.VK_HOME : Int := 36
def Windows.VK_LEFT : Int := 37
def Windows.VK_UP : Int := 38
def Windows.VK_RIGHT : Int := 39
def Windows.VK_DOWN : Int := 40

/-- `WindowsTerminal::mapKeyCode`. -/
def WindowsTerminal.mapKeyCode (windows_key : Int) : Int :=
  if windows_key = Windows.VK_UP then ITerminal.KEY_UP_ARROW
  else if windows_key = Windows.VK_DOWN then ITerminal.KEY_DOWN_ARROW
  else if windows_key = Windows.VK_LEFT then ITerminal.KEY_LEFT_ARROW
  else if windows_key = Windows.VK_RIGHT then ITerminal.KEY_RIGHT_ARROW
  else if windows_key = Windows.VK_PRIOR then ITerminal.KEY_PAGE_UP
  else if windows_key = Windows.VK_NEXT then ITerminal.KEY_PAGE_DOWN
  else if windows_key = Windows.VK_HOME then ITerminal.KEY_HOME_KEY
  else if windows_key = Windows.VK_END then ITerminal.KEY_END_KEY
  else if windows_key = Windows.VK_RETURN then ITerminal.KEY_ENTER_KEY
  else if windows_key = Windows.VK_ESCAPE then ITerminal.KEY_ESCAPE_KEY
  else windows_key

/-- The normalized key set of the specification: `KEY_UNKNOWN`, a named code
1000..1010, or a printable character code 32..126. -/
def NormalizedKey (key : Int) : Prop :=
  key = -1 ∨ (1000 ≤ key ∧ key ≤ 1010) ∨ (32 ≤ key ∧ key ≤ 126)

instance (key : Int) : Decidable (NormalizedKey key) := by
  unfold NormalizedKey
  infer_instance

/-- The native keys that `NCursesTerminal::mapKeyCode` names. -/
def NCurses.namedKeys : List Int :=
  [NCurses.KEY_UP, NCurses.KEY_DOWN, NCurses.KEY_LEFT, NCurses.KEY_RIGHT, NCurses.KEY_PPAGE,
   NCurses.KEY_NPAGE, NCurses.KEY_HOME, NCurses.KEY_END, NCurses.KEY_ENTER, 10, 13, 27,
   NCurses.KEY_RESIZE]

/-- The native keys that `WindowsTerminal::mapKeyCode` names. -/
def Windows.namedKeys : List Int :=
  [Windows.VK_UP, Windows.VK_DOWN, Windows.VK_LEFT, Windows.VK_RIGHT, Windows.VK_PRIOR,
   Windows.VK_NEXT, Windows.VK_HOME, Windows.VK_END, Windows.VK_RETURN, Windows.VK_ESCAPE]

/-! ## Launching the image viewer -/

/-- The body of the escaping loop of `ImageHandler::launchImageViewer`: what one
character of the path appends to `escaped_path`.  The escaped characters are
space, single quote (39), double quote (34), backslash (92), `&`, `;` and
`|`. -/
def ImageHandler.escapeChar (c : Char) : List Char :=
  if c = ' ' ∨ c = Char.ofNat 39 ∨ c = Char.ofNat 34 ∨ c = Char.ofNat 92 ∨ c = '&'
      ∨ c = ';' ∨ c = '|' then
    [Char.ofNat 92, c]
  else [c]

/-- The characters of `escaped_path` after the loop over `file_path`. -/
def ImageHandler.escapeChars : List Char → List Char
  | [] => []
  | c :: rest => ImageHandler.escapeChar c ++ ImageHandler.escapeChars rest

/-- The `escaped_path` of `ImageHandler::launchImageViewer`. -/
def ImageHandler.escapedPath (file_path : String) : String :=
  String.mk (ImageHandler.escapeChars file_path.data)

/-- The platform selected by the preprocessor in
`ImageHandler::launchImageViewer`. -/
inductive Platform where
  | apple
  | linux
  | win32
  | generic
  deriving DecidableEq, Repr

/-- The command string that `ImageHandler::launchImageViewer` passes to
`system`. -/
def ImageHandler.launchCommand (platform : Platform) (image_path : String) : String :=
  let file_path := image_path
  let escaped_path := ImageHandler.escapedPath file_path
  let quote := String.singleton (Char.ofNat 34)
  match platform with
  | .apple => "open " ++ escaped_path ++ " >/dev/null 2>&1 &"
  | .linux =>
    "xdg-open " ++ escaped_path ++ " >/dev/null 2>&1 || " ++
    "eog " ++ escaped_path ++ " >/dev/null 2>&1 || " ++
    "feh " ++ escaped_path ++ " >/dev/null 2>&1 || " ++
    "display " ++ escaped_path ++ " >/dev/null 2>&1 || " ++
    "gwenview " ++ escaped_path ++ " >/dev/null 2>&1 || " ++
    "ristretto " ++ escaped_path ++ " >/dev/null 2>&1 &"
  | .win32 => "start " ++ quote ++ quote ++ " " ++ quote ++ file_path ++ quote ++ " >nul 2>&1"
  | .generic => "xdg-open " ++ escaped_path ++ " >/dev/null 2>&1 &"

/-- An entry whose status query fails. -/
def errorEntry (name : String) (message : String) : DirectoryEntry :=
  { path := name, is_directory := false, is_regular_file := false,
    status_error := some message }

/-! ## The ncurses backend

A window handle is a natural number, 0 for `nullptr`.  The curses library is
outside the program; the backend is embedded by the library calls it makes. -/

/-- A `WINDOW*` of the curses library: the standard screen or a window created
by `newwin`. -/
inductive Surface where
  | stdscr
  | window (id : Nat)
  deriving DecidableEq, Repr

/-- A call of the curses library made by the drawing operations. -/
inductive CursesCall where
  | werase (win : Surface)
  | box (win : Surface)
  | mvwprintw (win : Surface) (y x : Int) (text : String)
  | mvwhline (win : Surface) (y x length : Int)
  | wattron (win : Surface) (attrs : Nat)
  | wattroff (win : Surface) (attrs : Nat)
  | wrefresh (win : Surface)
  | delwin (win : Surface)
  deriving DecidableEq, Repr

/-- The members of `NCursesTerminal` that the window operations use, the answer
of `has_colors()`, and the library calls made so far. -/
structure NCursesTerminal where
  /-- `std::map<WindowHandle, WINDOW*> windows_`. -/
  windows_ : List (Nat × Surface)
  has_colors : Bool
  calls : List CursesCall
  deriving DecidableEq, Repr

/-- `NCursesTerminal::getNCursesWindow`: the null handle is the standard
screen; `none` is the null `WINDOW*`. -/
def NCursesTerminal.getNCursesWindow (t : NCursesTerminal) (handle : Nat) : Option Surface :=
  if handle = 0 then some Surface.stdscr
  else t.windows_.lookup handle

/-- `NCursesTerminal::createWindow`, for the `WINDOW*` that `newwin` returns
(0 when it fails); the handle is the pointer. -/
def NCursesTerminal.createWindow (t : NCursesTerminal) (newwin_result : Nat) :
    NCursesTerminal × Nat :=
  if newwin_result = 0 then (t, 0)
  else
    ({ t with windows_ :=
        (newwin_result, Surface.window newwin_result) ::
          t.windows_.filter (fun p => p.1 != newwin_result) },
      newwin_result)

/-- `NCursesTerminal::destroyWindow`. -/
def NCursesTerminal.destroyWindow (t : NCursesTerminal) (window : Nat) : NCursesTerminal :=
  match t.getNCursesWindow window with
  | some win =>
    if win ≠ Surface.stdscr then
      { t with
        calls := t.calls ++ [CursesCall.delwin win]
        windows_ := t.windows_.filter (fun p => p.1 != window) }
    else t
  | none => t

/-- `NCursesTerminal::clearWindow`. -/
def NCursesTerminal.clearWindow (t : NCursesTerminal) (window : Nat) : NCursesTerminal :=
  match t.getNCursesWindow window with
  | some win => { t with calls := t.calls ++ [CursesCall.werase win] }
  | none => t

/-- `NCursesTerminal::drawBorder`. -/
def NCursesTerminal.drawBorder (t : NCursesTerminal) (window : Nat) : NCursesTerminal :=
  match t.getNCursesWindow window with
  | some win => { t with calls := t.calls ++ [CursesCall.box win] }
  | none => t

/-- `NCursesTerminal::drawText`. -/
def NCursesTerminal.drawText (t : NCursesTerminal) (window : Nat) (y x : Int)
    (text : String) : NCursesTerminal :=
  match t.getNCursesWindow window with
  | some win => { t with calls := t.calls ++ [CursesCall.mvwprintw win y x text] }
  | none => t

/-- `NCursesTerminal::drawHorizontalLine`. -/
def NCursesTerminal.drawHorizontalLine (t : NCursesTerminal) (window : Nat)
    (y x length : Int) : NCursesTerminal :=
  match t.getNCursesWindow window with
  | some win => { t with calls := t.calls ++ [CursesCall.mvwhline win y x length] }
  | none => t

/-- `NCursesTerminal::mapColorPair`. -/
def NCursesTerminal.mapColorPair : ColorPair → Nat
  | .STATUS_BAR => 1
  | .SELECTED => 2
  | .ERROR => 3
  | .DIRECTORY => 4
  | .DEFAULT => 0

/-- The attribute word built by `setTextAttribute` and `clearTextAttribute`:
`COLOR_PAIR(n)` is `n << 8`, `A_BOLD` is bit 21 and `A_REVERSE` bit 18. -/
def NCursesTerminal.attributes (t : NCursesTerminal) (color : ColorPair)
    (bold reverse : Bool) : Nat :=
  let attrs0 := if t.has_colors then (NCursesTerminal.mapColorPair color) <<< 8 else 0
  let attrs1 := if bold then attrs0 ||| 2097152 else attrs0
  if reverse then attrs1 ||| 262144 else attrs1

/-- `NCursesTerminal::setTextAttribute`. -/
def NCursesTerminal.setTextAttribute (t : NCursesTerminal) (window : Nat)
    (color : ColorPair) (bold reverse : Bool) : NCursesTerminal :=
  match t.getNCursesWindow window with
  | some win =>
    if t.attributes color bold reverse ≠ 0 then
      { t with calls := t.calls ++ [CursesCall.wattron win (t.attributes color bold reverse)] }
    else t
  | none => t

/-- `NCursesTerminal::clearTextAttribute`. -/
def NCursesTerminal.clearTextAttribute (t : NCursesTerminal) (window : Nat)
    (color : ColorPair) (bold reverse : Bool) : NCursesTerminal :=
  match t.getNCursesWindow window with
  | some win =>
    if t.attributes color bold reverse ≠ 0 then
      { t with calls := t.calls ++ [CursesCall.wattroff win (t.attributes color bold reverse)] }
    else t
  | none => t

/-- `NCursesTerminal::refreshWindow`. -/
def NCursesTerminal.refreshWindow (t : NCursesTerminal) (window : Nat) : NCursesTerminal :=
  match t.getNCursesWindow window with
  | some win => { t with calls := t.calls ++ [CursesCall.wrefresh win] }
  | none => t

/-! ## The Windows console backend -/

/-- A cell of a window buffer (`CHAR_INFO`): character and attribute word. -/
structure CharInfo where
  AsciiChar : Char
  Attributes : Nat
  deriving DecidableEq, Repr

/-- `WindowsTerminal::WindowInfo`. -/
structure WindowInfo where
  x : Int
  y : Int
  width : Int
  height : Int
  default_attributes : Nat
  buffer : List (List CharInfo)
  deriving DecidableEq, Repr

/-- A `WriteConsoleOutput` call: the write region (left, top, right, bottom)
and the flattened buffer. -/
structure ConsoleWrite where
  left : Int
  top : Int
  right : Int
  bottom : Int
  cells : List CharInfo
  deriving DecidableEq, Repr

/-- The members of `WindowsTerminal` that the window operations use
(`original_attributes` is `original_info_.wAttributes`) and the console writes
made so far. -/
structure WindowsTerminal where
  /-- `std::map<WindowHandle, WindowInfo> windows_`. -/
  windows_ : List (Nat × WindowInfo)
  next_window_id_ : Nat
  original_attributes : Nat
  console : List ConsoleWrite
  deriving DecidableEq, Repr

/-- `WindowsTerminal::getWindowInfo`: `none` is the null pointer. -/
def WindowsTerminal.getWindowInfo (t : WindowsTerminal) (handle : Nat) : Option WindowInfo :=
  t.windows_.lookup handle

/-- Assignment through the pointer that `getWindowInfo` returned for
`handle`. -/
def WindowsTerminal.setWindowInfo (t : WindowsTerminal) (handle : Nat) (info : WindowInfo) :
    WindowsTerminal :=
  { t with windows_ :=
      t.windows_.map (fun p => if p.1 = handle then (p.1, info) else p) }

/-- `WindowsTerminal::createWindow` (for a height and width that are not
negative): the new terminal and the handle. -/
def WindowsTerminal.createWindow (t : WindowsTerminal) (height width start_y start_x : Int) :
    WindowsTerminal × Nat :=
  let handle := t.next_window_id_
  let info : WindowInfo :=
    { x := start_x, y := start_y, width := width, height := height
      default_attributes := t.original_attributes
      buffer := List.replicate height.toNat
        (List.replicate width.toNat
          { AsciiChar := ' ', Attributes := t.original_attributes }) }
  ({ t with
      next_window_id_ := t.next_window_id_ + 1
      windows_ := (handle, info) :: t.windows_.filter (fun p => p.1 != handle) },
    handle)

/-- `WindowsTerminal::destroyWindow`. -/
def WindowsTerminal.destroyWindow (t : WindowsTerminal) (window : Nat) : WindowsTerminal :=
  { t with windows_ := t.windows_.filter (fun p => p.1 != window) }

/-- `WindowsTerminal::getWindowSize`, as `(width, height)`. -/
def WindowsTerminal.getWindowSize (t : WindowsTerminal) (window : Nat) : Int × Int :=
  match t.getWindowInfo window with
  | some info => (info.width, info.height)
  | none => (0, 0)

/-- `WindowsTerminal::clearWindow`. -/
def WindowsTerminal.clearWindow (t : WindowsTerminal) (window : Nat) : WindowsTerminal :=
  match t.getWindowInfo window with
  | none => t
  | some info =>
    let blank : CharInfo := { AsciiChar := ' ', Attributes := info.default_attributes }
    t.setWindowInfo window
      { info with buffer := info.buffer.map (fun row => row.map (fun _ => blank)) }

/-- `WindowsTerminal::drawCharacter`. -/
def WindowsTerminal.drawCharacter (t : WindowsTerminal) (window : Nat) (y x : Int)
    (ch : Char) (attributes : Nat) : WindowsTerminal :=
  match t.getWindowInfo window with
  | none => t
  | some info =>
    if y < 0 ∨ y ≥ info.height ∨ x < 0 ∨ x ≥ info.width then t
    else
      let row := (info.buffer.getD y.toNat []).set x.toNat
        { AsciiChar := ch, Attributes := attributes }
      t.setWindowInfo window { info with buffer := info.buffer.set y.toNat row }

/-- `WindowsTerminal::drawBorder`. -/
def WindowsTerminal.drawBorder (t : WindowsTerminal) (window : Nat) : WindowsTerminal :=
  match t.getWindowInfo window with
  | none => t
  | some info =>
    let t1 := (List.range info.width.toNat).foldl (fun s x =>
      (s.drawCharacter window 0 x '-' info.default_attributes).drawCharacter window
        (info.height - 1) x '-' info.default_attributes) t
    let t2 := (List.range info.height.toNat).foldl (fun s y =>
      (s.drawCharacter window y 0 '|' info.default_attributes).drawCharacter window
        y (info.width - 1) '|' info.default_attributes) t1
    let t3 := t2.drawCharacter window 0 0 '+' info.default_attributes
    let t4 := t3.drawCharacter window 0 (info.width - 1) '+' info.default_attributes
    let t5 := t4.drawCharacter window (info.height - 1) 0 '+' info.default_attributes
    t5.drawCharacter window (info.height - 1) (info.width - 1) '+' info.default_attributes

/-- The loop of `WindowsTerminal::drawText` from character `i` on:
`(x + i) < info->width` compares `size_t` values, and the test `(x + i) >= 0`
on a `size_t` always holds. -/
def WindowsTerminal.drawTextLoop (window : Nat) (y x : Int) (info : WindowInfo) :
    List Char → Nat → WindowsTerminal → WindowsTerminal
  | [], _, t => t
  | c :: rest, i, t =>
    if (x + (i : Int)) % 2 ^ 64 < toSizeT info.width then
      WindowsTerminal.drawTextLoop window y x info rest (i + 1)
        (t.drawCharacter window y ((x + (i : Int)) % 2 ^ 64) c info.default_attributes)
    else t

/-- `WindowsTerminal::drawText`. -/
def WindowsTerminal.drawText (t : WindowsTerminal) (window : Nat) (y x : Int)
    (text : String) : WindowsTerminal :=
  match t.getWindowInfo window with
  | none => t
  | some info =>
    if y < 0 ∨ y ≥ info.height then t
    else WindowsTerminal.drawTextLoop window y x info text.data 0 t

/-- The loop of `WindowsTerminal::drawHorizontalLine` over the remaining values
of `i`.  Each iteration dereferences `getWindowInfo(window)`; `none` is the
null-pointer dereference. -/
def WindowsTerminal.drawHorizontalLineLoop (window : Nat) (y x : Int) :
    List Nat → WindowsTerminal → Option WindowsTerminal
  | [], t => some t
  | i :: rest, t =>
    match t.getWindowInfo window with
    | none => none
    | some info =>
      WindowsTerminal.drawHorizontalLineLoop window y x rest
        (t.drawCharacter window y (x + (i : Int)) '-' info.default_attributes)

/-- `WindowsTerminal::drawHorizontalLine`; `none` when it dereferences a null
pointer. -/
def WindowsTerminal.drawHorizontalLine (t : WindowsTerminal) (window : Nat)
    (y x length : Int) : Option WindowsTerminal :=
  WindowsTerminal.drawHorizontalLineLoop window y x (List.range length.toNat) t

/-- `WindowsTerminal::mapColorPair`, with the console colour bits
(`FOREGROUND_WHITE` 7, `BACKGROUND_BLUE` 0x10, `BACKGROUND_YELLOW` 0x60,
`BACKGROUND_RED` 0x40, `FOREGROUND_GREEN` 2). -/
def WindowsTerminal.mapColorPair : ColorPair → Nat
  | .STATUS_BAR => 7 ||| 16
  | .SELECTED => 0 ||| 96
  | .ERROR => 7 ||| 64
  | .DIRECTORY => 2
  | .DEFAULT => 7

/-- `WindowsTerminal::setTextAttribute` (`FOREGROUND_INTENSITY` is 8). -/
def WindowsTerminal.setTextAttribute (t : WindowsTerminal) (window : Nat)
    (color : ColorPair) (bold reverse : Bool) : WindowsTerminal :=
  match t.getWindowInfo window with
  | none => t
  | some info =>
    let attributes0 := WindowsTerminal.mapColorPair color
    let attributes1 := if bold then attributes0 ||| 8 else attributes0
    let attributes2 :=
      if reverse then
        let fg := attributes1 &&& 15
        let bg := (attributes1 &&& 240) >>> 4
        (fg <<< 4) ||| bg
      else attributes1
    t.setWindowInfo window { info with default_attributes := attributes2 }

/-- `WindowsTerminal::clearTextAttribute`. -/
def WindowsTerminal.clearTextAttribute (t : WindowsTerminal) (window : Nat)
    (_color : ColorPair) (_bold _reverse : Bool) : WindowsTerminal :=
  match t.getWindowInfo window with
  | none => t
  | some info =>
    t.setWindowInfo window { info with default_attributes := t.original_attributes }

/-- `WindowsTerminal::updateWindowBuffer`. -/
def WindowsTerminal.updateWindowBuffer (t : WindowsTerminal) (window : Nat) :
    WindowsTerminal :=
  match t.getWindowInfo window with
  | none => t
  | some info =>
    { t with console := t.console ++
        [{ left := info.x, top := info.y, right := info.x + info.width - 1,
           bottom := info.y + info.height - 1, cells := info.buffer.flatten }] }

/-- `WindowsTerminal::refreshWindow`. -/
def WindowsTerminal.refreshWindow (t : WindowsTerminal) (window : Nat) : WindowsTerminal :=
  t.updateWindowBuffer window

/-- Example ncurses terminal with one live window, handle 4096. -/
def cursesTerminal : NCursesTerminal :=
  (NCursesTerminal.createWindow { windows_ := [], has_colors := true, calls := [] } 4096).1

/-- Example Windows terminal with one live 2 x 3 window, handle 1. -/
def consoleTerminal : WindowsTerminal :=
  (WindowsTerminal.createWindow
    { windows_ := [], next_window_id_ := 1, original_attributes := 7, console := [] }
    2 3 0 0).1

/-! ## The `std::sort` of libstdc++

`FileOperations::loadDirectory` sorts with `std::sort`.  The C++ standard fixes
its contract (`StdSortResult`); the order of equivalent elements is decided by
the implementation.  This section embeds the implementation of GCC's libstdc++
(`bits/stl_algo.h`, `bits/stl_heap.h`): introsort, that is quicksort with a
median-of-three pivot down to ranges of 16 elements, heap sort once the depth
limit is used up, and a final insertion sort.  The sequence is a list, an
iterator is a position in it, and `none` is an access outside the sequence. -/

/-- Assignment `*(first + i) = value`. -/
def StdSort.assign {α : Type} (l : List α) (i : Nat) (value : α) : Option (List α) :=
  if i < l.length then some (l.set i value) else none

/-- `std::iter_swap(a, b)`. -/
def StdSort.iter_swap {α : Type} (l : List α) (a b : Nat) : Option (List α) :=
  match l[a]?, l[b]? with
  | some va, some vb => some ((l.set a vb).set b va)
  | _, _ => none

/-- `std::__lg(n)`: the position of the highest set bit, `floor(log2 n)`. -/
def StdSort.lg : Nat → Nat → Nat
  | 0, _ => 0
  | fuel + 1, n => if n < 2 then 0 else StdSort.lg fuel (n / 2) + 1

/-- `std::__move_median_to_first(result, a, b, c, comp)`. -/
def StdSort.move_median_to_first {α : Type} (comp : α → α → Bool) (l : List α)
    (result a b c : Nat) : Option (List α) :=
  match l[a]?, l[b]?, l[c]? with
  | some va, some vb, some vc =>
    if comp va vb then
      if comp vb vc then StdSort.iter_swap l result b
      else if comp va vc then StdSort.iter_swap l result c
      else StdSort.iter_swap l result a
    else if comp va vc then StdSort.iter_swap l result a
    else if comp vb vc then StdSort.iter_swap l result c
    else StdSort.iter_swap l result b
  | _, _, _ => none

/-- The loop `while (comp(first, pivot)) ++first;` of
`std::__unguarded_partition`: the position where it stops. -/
def StdSort.advance_first {α : Type} (comp : α → α → Bool) (l : List α) (pivot : Nat) :
    Nat → Nat → Option Nat
  | 0, _ => none
  | fuel + 1, first =>
    match l[first]?, l[pivot]? with
    | some x, some p =>
      if comp x p then StdSort.advance_first comp l pivot fuel (first + 1) else some first
    | _, _ => none

/-- The loop `while (comp(pivot, last)) --last;` of
`std::__unguarded_partition`: the position where it stops. -/
def StdSort.retreat_last {α : Type} (comp : α → α → Bool) (l : List α) (pivot : Nat) :
    Nat → Nat → Option Nat
  | 0, _ => none
  | fuel + 1, last =>
    match l[last]?, l[pivot]? with
    | some x, some p =>
      if comp p x then
        if last = 0 then none else StdSort.retreat_last comp l pivot fuel (last - 1)
      else some last
    | _, _ => none

/-- `std::__unguarded_partition(first, last, pivot, comp)`: the sequence
afterwards and the returned position.  Each inner loop moves its position by one
per step, so `l.length + 1` steps of fuel are always enough for it, and the
outer loop advances `first` in every round. -/
def StdSort.unguarded_partition {α : Type} (comp : α → α → Bool) (pivot : Nat) :
    Nat → List α → Nat → Nat → Option (List α × Nat)
  | 0, _, _, _ => none
  | fuel + 1, l, first, last =>
    match StdSort.advance_first comp l pivot (l.length + 1) first with
    | none => none
    | some first1 =>
      if last = 0 then none
      else
        match StdSort.retreat_last comp l pivot (l.length + 1) (last - 1) with
        | none => none
        | some last1 =>
          if ¬ first1 < last1 then some (l, first1)
          else
            match StdSort.iter_swap l first1 last1 with
            | none => none
            | some l1 => StdSort.unguarded_partition comp pivot fuel l1 (first1 + 1) last1

/-- `std::__unguarded_partition_pivot(first, last, comp)`. -/
def StdSort.unguarded_partition_pivot {α : Type} (comp : α → α → Bool) (l : List α)
    (first last : Nat) : Option (List α × Nat) :=
  let mid := first + (last - first) / 2
  match StdSort.move_median_to_first comp l first (first + 1) mid (last - 1) with
  | none => none
  | some l1 => StdSort.unguarded_partition comp first (l1.length + 1) l1 (first + 1) last

/-- The loop of `std::__push_heap(first, holeIndex, topIndex, value, comp)`. -/
def StdSort.push_heap {α : Type} (comp : α → α → Bool) (first : Nat) (value : α)
    (topIndex : Nat) : Nat → List α → Nat → Option (List α)
  | 0, _, _ => none
  | fuel + 1, l, holeIndex =>
    let parent := (Int.tdiv ((holeIndex : Int) - 1) 2).toNat
    if holeIndex > topIndex then
      match l[first + parent]? with
      | none => none
      | some p =>
        if comp p value then
          (StdSort.assign l (first + holeIndex) p).bind
            (fun l1 => StdSort.push_heap comp first value topIndex fuel l1 parent)
        else StdSort.assign l (first + holeIndex) value
    else StdSort.assign l (first + holeIndex) value

/-- The `while` loop of `std::__adjust_heap`: the sequence, `holeIndex` and
`secondChild` afterwards. -/
def StdSort.adjust_heap_loop {α : Type} (comp : α → α → Bool) (first len : Nat) :
    Nat → List α → Nat → Nat → Option (List α × Nat × Nat)
  | 0, _, _, _ => none
  | fuel + 1, l, holeIndex, secondChild =>
    if (secondChild : Int) < Int.tdiv ((len : Int) - 1) 2 then
      let secondChild1 := 2 * (secondChild + 1)
      match l[first + secondChild1]?, l[first + (secondChild1 - 1)]? with
      | some x, some y =>
        let secondChild2 := if comp x y then secondChild1 - 1 else secondChild1
        match l[first + secondChild2]? with
        | none => none
        | some z =>
          (StdSort.assign l (first + holeIndex) z).bind
            (fun l1 => StdSort.adjust_heap_loop comp first len fuel l1 secondChild2 secondChild2)
      | _, _ => none
    else some (l, holeIndex, secondChild)

/-- `std::__adjust_heap(first, holeIndex, len, value, comp)`. -/
def StdSort.adjust_heap {α : Type} (comp : α → α → Bool) (l : List α)
    (first holeIndex len : Nat) (value : α) : Option (List α) :=
  let topIndex := holeIndex
  match StdSort.adjust_heap_loop comp first len (len + 1) l holeIndex holeIndex with
  | none => none
  | some (l1, holeIndex1, secondChild) =>
    if len % 2 = 0 ∧ (secondChild : Int) = Int.tdiv ((len : Int) - 2) 2 then
      let secondChild1 := 2 * (secondChild + 1)
      match l1[first + (secondChild1 - 1)]? with
      | none => none
      | some z =>
        (StdSort.assign l1 (first + holeIndex1) z).bind
          (fun l2 => StdSort.push_heap comp first value topIndex (len + 1) l2 (secondChild1 - 1))
    else StdSort.push_heap comp first value topIndex (len + 1) l1 holeIndex1

/-- `std::__pop_heap(first, last, result, comp)`. -/
def StdSort.pop_heap {α : Type} (comp : α → α → Bool) (l : List α)
    (first last result : Nat) : Option (List α) :=
  match l[result]?, l[first]? with
  | some value, some top =>
    (StdSort.assign l result top).bind
      (fun l1 => StdSort.adjust_heap comp l1 first 0 (last - first) value)
  | _, _ => none

/-- The loop of `std::__make_heap` from `parent` down to 0. -/
def StdSort.make_heap_loop {α : Type} (comp : α → α → Bool) (first len : Nat) :
    Nat → List α → Option (List α)
  | 0, l =>
    match l[first]? with
    | none => none
    | some value => StdSort.adjust_heap comp l first 0 len value
  | parent + 1, l =>
    match l[first + (parent + 1)]? with
    | none => none
    | some value =>
      (StdSort.adjust_heap comp l first (parent + 1) len value).bind
        (fun l1 => StdSort.make_heap_loop comp first len parent l1)

/-- `std::__make_heap(first, last, comp)`. -/
def StdSort.make_heap {α : Type} (comp : α → α → Bool) (l : List α) (first last : Nat) :
    Option (List α) :=
  if last - first < 2 then some l
  else StdSort.make_heap_loop comp first (last - first) ((last - first - 2) / 2) l

/-- The loop of `std::__heap_select` over the positions `i`, `i + 1`, ... below
`last`. -/
def StdSort.heap_select_loop {α : Type} (comp : α → α → Bool) (first middle : Nat) :
    Nat → Nat → List α → Option (List α)
  | 0, _, l => some l
  | count + 1, i, l =>
    match l[i]?, l[first]? with
    | some x, some top =>
      if comp x top then
        (StdSort.pop_heap comp l first middle i).bind
          (fun l1 => StdSort.heap_select_loop comp first middle count (i + 1) l1)
      else StdSort.heap_select_loop comp first middle count (i + 1) l
    | _, _ => none

/-- `std::__heap_select(first, middle, last, comp)`. -/
def StdSort.heap_select {α : Type} (comp : α → α → Bool) (l : List α)
    (first middle last : Nat) : Option (List α) :=
  (StdSort.make_heap comp l first middle).bind
    (fun l1 => StdSort.heap_select_loop comp first middle (last - middle) middle l1)

/-- `std::__sort_heap(first, last, comp)`, by the number of elements still in
the heap. -/
def StdSort.sort_heap {α : Type} (comp : α → α → Bool) (first : Nat) :
    Nat → List α → Option (List α)
  | 0, l => some l
  | size + 1, l =>
    if size + 1 > 1 then
      (StdSort.pop_heap comp l first (first + size) (first + size)).bind
        (fun l1 => StdSort.sort_heap comp first size l1)
    else some l

/-- `std::__partial_sort(first, middle, last, comp)`. -/
def StdSort.partial_sort {α : Type} (comp : α → α → Bool) (l : List α)
    (first middle last : Nat) : Option (List α) :=
  (StdSort.heap_select comp l first middle last).bind
    (fun l1 => StdSort.sort_heap comp first (middle - first) l1)

/-- `_S_threshold`. -/
def StdSort.S_threshold : Nat := 16

/-- `std::__introsort_loop(first, last, depth_limit, comp)`: each round of its
loop is one unfolding, with the depth limit as the measure. -/
def StdSort.introsort_loop {α : Type} (comp : α → α → Bool) :
    Nat → List α → Nat → Nat → Option (List α)
  | 0, l, first, last =>
    if last - first > StdSort.S_threshold then StdSort.partial_sort comp l first last last
    else some l
  | depth_limit + 1, l, first, last =>
    if last - first > StdSort.S_threshold then
      match StdSort.unguarded_partition_pivot comp l first last with
      | none => none
      | some (l1, cut) =>
        (StdSort.introsort_loop comp depth_limit l1 cut last).bind
          (fun l2 => StdSort.introsort_loop comp depth_limit l2 first cut)
    else some l

/-- The loop of `std::__unguarded_linear_insert(last, comp)` for the value
`val` taken from the position `last`. -/
def StdSort.unguarded_linear_insert_loop {α : Type} (comp : α → α → Bool) (val : α) :
    Nat → List α → Nat → Option (List α)
  | 0, _, _ => none
  | fuel + 1, l, last =>
    if last = 0 then none
    else
      match l[last - 1]? with
      | none => none
      | some x =>
        if comp val x then
          (StdSort.assign l last x).bind
            (fun l1 => StdSort.unguarded_linear_insert_loop comp val fuel l1 (last - 1))
        else StdSort.assign l last val

/-- `std::__unguarded_linear_insert(last, comp)`. -/
def StdSort.unguarded_linear_insert {α : Type} (comp : α → α → Bool) (l : List α)
    (last : Nat) : Option (List α) :=
  match l[last]? with
  | none => none
  | some val => StdSort.unguarded_linear_insert_loop comp val (l.length + 1) l last

/-- The loop of `std::__insertion_sort(first, last, comp)` over `count`
positions from `i` on. -/
def StdSort.insertion_sort_loop {α : Type} (comp : α → α → Bool) (first : Nat) :
    Nat → Nat → List α → Option (List α)
  | 0, _, l => some l
  | count + 1, i, l =>
    match l[i]?, l[first]? with
    | some val, some front =>
      if comp val front then
        StdSort.insertion_sort_loop comp first count (i + 1)
          (l.take first ++ val :: (l.drop first).take (i - first) ++ l.drop (i + 1))
      else
        (StdSort.unguarded_linear_insert comp l i).bind
          (fun l1 => StdSort.insertion_sort_loop comp first count (i + 1) l1)
    | _, _ => none

/-- `std::__insertion_sort(first, last, comp)`. -/
def StdSort.insertion_sort {α : Type} (comp : α → α → Bool) (l : List α)
    (first last : Nat) : Option (List α) :=
  if first = last then some l
  else StdSort.insertion_sort_loop comp first (last - (first + 1)) (first + 1) l

/-- `std::__unguarded_insertion_sort(first, last, comp)`, over `count`
positions from `i` on. -/
def StdSort.unguarded_insertion_sort {α : Type} (comp : α → α → Bool) :
    Nat → Nat → List α → Option (List α)
  | 0, _, l => some l
  | count + 1, i, l =>
    (StdSort.unguarded_linear_insert comp l i).bind
      (fun l1 => StdSort.unguarded_insertion_sort comp count (i + 1) l1)

/-- `std::__final_insertion_sort(first, last, comp)`. -/
def StdSort.final_insertion_sort {α : Type} (comp : α → α → Bool) (l : List α)
    (first last : Nat) : Option (List α) :=
  if last - first > StdSort.S_threshold then
    (StdSort.insertion_sort comp l first (first + StdSort.S_threshold)).bind
      (fun l1 => StdSort.unguarded_insertion_sort comp
        (last - (first + StdSort.S_threshold)) (first + StdSort.S_threshold) l1)
  else StdSort.insertion_sort comp l first last

/-- `std::sort(first, last, comp)` on the whole sequence. -/
def StdSort.sort {α : Type} (comp : α → α → Bool) (l : List α) : Option (List α) :=
  if l.length = 0 then some l
  else
    (StdSort.introsort_loop comp (StdSort.lg l.length l.length * 2) l 0 l.length).bind
      (fun l1 => StdSort.final_insertion_sort comp l1 0 l.length)

/-- Example listing for the sort: seventeen regular files already in the order
of the comparator; the first two, `A` and `a`, differ only in letter case. -/
def listing17 : List DirectoryEntry :=
  [fileEntry "/d/A", fileEntry "/d/a", fileEntry "/d/b", fileEntry "/d/c",
   fileEntry "/d/d", fileEntry "/d/e", fileEntry "/d/f", fileEntry "/d/g",
   fileEntry "/d/h", fileEntry "/d/i", fileEntry "/d/j", fileEntry "/d/k",
   fileEntry "/d/l", fileEntry "/d/m", fileEntry "/d/n", fileEntry "/d/o",
   fileEntry "/d/p"]

/-! ## Frame and step lemmas for list navigation -/

theorem navigate_entries (k : MoveKey) (q : State) :
    (navigate k q).directory_entries = q.directory_entries := by
  cases k <;>
    simp only [navigate, navigateUp, navigateDown, navigatePageUp, navigatePageDown,
      navigateHome, navigateEnd, setStatusMessage] <;>
    split_ifs <;> rfl

theorem navigate_window (k : MoveKey) (q : State) :
    (navigate k q).file_browser_window_ = q.file_browser_window_ := by
  cases k <;>
    simp only [navigate, navigateUp, navigateDown, navigatePageUp, navigatePageDown,
      navigateHome, navigateEnd, setStatusMessage] <;>
    split_ifs <;> rfl

/-- On the range of 64-bit words the conversion is reduction modulo 2^64. -/
theorem toSizeT_eq_emod (x : Int) (hlo : -(2 ^ 64) ≤ x) (hhi : x < 2 ^ 64) :
    toSizeT x = x % 2 ^ 64 := by
  unfold toSizeT
  split_ifs <;> omega

theorem length_pos_of_ne_nil {α : Type} {l : List α} (h : l ≠ []) :
    (1 : Int) ≤ (l.length : Int) := by
  have := List.length_pos.mpr h
  omega

theorem isEmpty_false_of_ne_nil {α : Type} {l : List α} (h : l ≠ []) :
    l.isEmpty = false := by
  cases l with
  | nil => exact absurd rfl h
  | cons a t => rfl

theorem navigateUp_sel (q : State) :
    (navigateUp q).selected_file_index =
      if q.directory_entries.isEmpty then q.selected_file_index
      else if q.selected_file_index > 0 then q.selected_file_index - 1
      else q.selected_file_index := by
  unfold navigateUp
  dsimp only
  split_ifs <;> rfl

theorem navigateUp_off (q : State) :
    (navigateUp q).file_scroll_offset =
      if q.directory_entries.isEmpty then q.file_scroll_offset
      else if q.selected_file_index > 0 then
        (if q.selected_file_index - 1 < q.file_scroll_offset then q.selected_file_index - 1
         else q.file_scroll_offset)
      else q.file_scroll_offset := by
  unfold navigateUp
  dsimp only
  split_ifs <;> rfl

theorem navigateDown_sel (q : State) :
    (navigateDown q).selected_file_index =
      if q.directory_entries.isEmpty then q.selected_file_index
      else if toSizeT q.selected_file_index < (q.directory_entries.length : Int) - 1 then
        q.selected_file_index + 1
      else q.selected_file_index := by
  unfold navigateDown
  dsimp only
  split_ifs <;> rfl

theorem navigateDown_off (q : State) :
    (navigateDown q).file_scroll_offset =
      if q.directory_entries.isEmpty then q.file_scroll_offset
      else if toSizeT q.selected_file_index < (q.directory_entries.length : Int) - 1 then
        (if q.selected_file_index + 1 ≥ q.file_scroll_offset + listViewportHeight q then
           q.selected_file_index + 1 - listViewportHeight q + 1
         else q.file_scroll_offset)
      else q.file_scroll_offset := by
  unfold navigateDown listViewportHeight
  dsimp only
  split_ifs <;> rfl


theorem navigatePageUp_sel (q : State) (hne : q.directory_entries.isEmpty = false) :
    (navigatePageUp q).selected_file_index =
      max (q.selected_file_index - listViewportHeight q) 0 := by
  unfold navigatePageUp listViewportHeight setStatusMessage
  simp only [hne, Bool.false_eq_true, if_false]
  split_ifs <;> (try dsimp only at *) <;> omega

theorem navigatePageUp_off (q : State) (hne : q.directory_entries.isEmpty = false) :
    (navigatePageUp q).file_scroll_offset =
      max (q.selected_file_index - listViewportHeight q) 0 := by
  unfold navigatePageUp listViewportHeight setStatusMessage
  simp only [hne, Bool.false_eq_true, if_false]
  split_ifs <;> (try dsimp only at *) <;> omega

theorem navigatePageDown_sel (q : State) (hne : q.directory_entries.isEmpty = false) :
    (navigatePageDown q).selected_file_index =
      if toSizeT (q.selected_file_index + listViewportHeight q)
          ≥ (q.directory_entries.length : Int) then
        (q.directory_entries.length : Int) - 1
      else q.selected_file_index + listViewportHeight q := by
  unfold navigatePageDown listViewportHeight setStatusMessage
  simp only [hne, Bool.false_eq_true, if_false]
  split_ifs <;> rfl

theorem navigatePageDown_off (q : State) (hne : q.directory_entries.isEmpty = false) :
    (navigatePageDown q).file_scroll_offset =
      min (max ((navigatePageDown q).selected_file_index - listViewportHeight q + 1) 0)
        (max 0 ((q.directory_entries.length : Int) - listViewportHeight q)) := by
  unfold navigatePageDown listViewportHeight setStatusMessage
  simp only [hne, Bool.false_eq_true, if_false]
  split_ifs <;> (try dsimp only at *) <;> omega

theorem navigateHome_sel_off (q : State) (hne : q.directory_entries.isEmpty = false) :
    (navigateHome q).selected_file_index = 0 ∧ (navigateHome q).file_scroll_offset = 0 := by
  unfold navigateHome setStatusMessage
  simp only [hne, Bool.false_eq_true, if_false, and_self]

theorem navigateEnd_sel (q : State) (hne : q.directory_entries.isEmpty = false) :
    (navigateEnd q).selected_file_index = (q.directory_entries.length : Int) - 1 := by
  unfold navigateEnd setStatusMessage
  simp only [hne, Bool.false_eq_true, if_false]
  split_ifs <;> rfl

theorem navigateEnd_off (q : State) (hne : q.directory_entries.isEmpty = false) :
    (navigateEnd q).file_scroll_offset =
      max 0 ((q.directory_entries.length : Int) - listViewportHeight q) := by
  unfold navigateEnd listViewportHeight setStatusMessage
  simp only [hne, Bool.false_eq_true, if_false]
  split_ifs <;> (try dsimp only at *) <;> omega

theorem navigate_viewport (k : MoveKey) (q : State) :
    listViewportHeight (navigate k q) = listViewportHeight q := by
  unfold listViewportHeight
  rw [navigate_window]

theorem navigate_preserves_inv (k : MoveKey) (q : State) (hq : NavInv q) :
    NavInv (navigate k q) := by
  obtain ⟨hne, hh, h0, h1, h2, h3, h4⟩ := hq
  have hlen := length_pos_of_ne_nil hne
  have hemp := isEmpty_false_of_ne_nil hne
  have core :
      0 ≤ (navigate k q).file_scroll_offset ∧
      (navigate k q).file_scroll_offset ≤ (navigate k q).selected_file_index ∧
      (navigate k q).selected_file_index
        < (navigate k q).file_scroll_offset + listViewportHeight q ∧
      (navigate k q).selected_file_index < (q.directory_entries.length : Int) ∧
      (navigate k q).file_scroll_offset
        ≤ max 0 ((q.directory_entries.length : Int) - listViewportHeight q) := by
    cases k
    · simp only [navigate, navigateUp_sel, navigateUp_off, hemp, Bool.false_eq_true, if_false]
      split_ifs <;> omega
    · simp only [navigate, navigateDown_sel, navigateDown_off, hemp, Bool.false_eq_true,
        if_false, toSizeT]
      split_ifs <;> omega
    · simp only [navigate, navigatePageUp_sel q hemp, navigatePageUp_off q hemp]
      omega
    · simp only [navigate, navigatePageDown_off q hemp, navigatePageDown_sel q hemp, toSizeT]
      split_ifs <;> omega
    · simp only [navigate, navigateHome_sel_off q hemp]
      omega
    · simp only [navigate, navigateEnd_sel q hemp, navigateEnd_off q hemp]
      omega
  obtain ⟨c0, c1, c2, c3, c4⟩ := core
  refine ⟨?_, ?_, c0, c1, ?_, ?_, ?_⟩
  · rw [navigate_entries]; exact hne
  · rw [navigate_viewport]; exact hh
  · rw [navigate_viewport]; exact c2
  · rw [navigate_entries]; exact c3
  · rw [navigate_entries, navigate_viewport]; exact c4

theorem navigateAll_preserves_inv (keys : List MoveKey) (q : State) (hq : NavInv q) :
    NavInv (navigateAll keys q) ∧
      (navigateAll keys q).directory_entries = q.directory_entries ∧
      listViewportHeight (navigateAll keys q) = listViewportHeight q := by
  induction keys generalizing q with
  | nil => exact ⟨hq, rfl, rfl⟩
  | cons k ks ih =>
    obtain ⟨i1, i2, i3⟩ := ih (navigate k q) (navigate_preserves_inv k q hq)
    refine ⟨i1, ?_, ?_⟩
    · exact i2.trans (navigate_entries k q)
    · exact i3.trans (navigate_viewport k q)

/-! ## Frame and step lemmas for the file view -/

theorem scrollFileView_lines (k : MoveKey) (q : State) :
    (scrollFileView k q).file_content_lines = q.file_content_lines := by
  cases k <;>
    simp only [scrollFileView, scrollFileViewUp, scrollFileViewDown, scrollFileViewPageUp,
      scrollFileViewPageDown, scrollFileViewHome, scrollFileViewEnd, setStatusMessage] <;>
    split_ifs <;> rfl

theorem scrollFileView_window (k : MoveKey) (q : State) :
    (scrollFileView k q).content_window_ = q.content_window_ := by
  cases k <;>
    simp only [scrollFileView, scrollFileViewUp, scrollFileViewDown, scrollFileViewPageUp,
      scrollFileViewPageDown, scrollFileViewHome, scrollFileViewEnd, setStatusMessage] <;>
    split_ifs <;> rfl

theorem scrollFileView_viewport (k : MoveKey) (q : State) :
    fileViewportHeight (scrollFileView k q) = fileViewportHeight q := by
  unfold fileViewportHeight
  rw [scrollFileView_window]

theorem scrollFileViewUp_off (q : State) :
    (scrollFileViewUp q).file_view_scroll_offset =
      if q.file_view_scroll_offset > 0 then q.file_view_scroll_offset - 1
      else q.file_view_scroll_offset := by
  unfold scrollFileViewUp setStatusMessage
  split_ifs <;> rfl

theorem scrollFileViewDown_off (q : State) :
    (scrollFileViewDown q).file_view_scroll_offset =
      if q.file_view_scroll_offset
          < max 0 ((q.file_content_lines.length : Int) - fileViewportHeight q) then
        q.file_view_scroll_offset + 1
      else q.file_view_scroll_offset := by
  unfold scrollFileViewDown fileViewportHeight setStatusMessage
  dsimp only
  split_ifs <;> (try dsimp only at *) <;> omega

theorem scrollFileViewPageUp_off (q : State) :
    (scrollFileViewPageUp q).file_view_scroll_offset =
      max (q.file_view_scroll_offset - fileViewportHeight q) 0 := by
  unfold scrollFileViewPageUp fileViewportHeight setStatusMessage
  dsimp only
  split_ifs <;> (try dsimp only at *) <;> omega

theorem scrollFileViewPageDown_off (q : State) :
    (scrollFileViewPageDown q).file_view_scroll_offset =
      min (q.file_view_scroll_offset + fileViewportHeight q)
        (max 0 ((q.file_content_lines.length : Int) - fileViewportHeight q)) := by
  unfold scrollFileViewPageDown fileViewportHeight setStatusMessage
  dsimp only
  split_ifs <;> (try dsimp only at *) <;> omega

theorem scrollFileViewHome_off (q : State) :
    (scrollFileViewHome q).file_view_scroll_offset = 0 := rfl

theorem scrollFileViewEnd_off (q : State) :
    (scrollFileViewEnd q).file_view_scroll_offset =
      max 0 ((q.file_content_lines.length : Int) - fileViewportHeight q) := by
  unfold scrollFileViewEnd fileViewportHeight setStatusMessage
  dsimp only
  split_ifs <;> omega

theorem scrollFileView_preserves_bounds (k : MoveKey) (q : State)
    (hh : 1 ≤ fileViewportHeight q)
    (h0 : 0 ≤ q.file_view_scroll_offset)
    (h1 : q.file_view_scroll_offset
      ≤ max 0 ((q.file_content_lines.length : Int) - fileViewportHeight q)) :
    0 ≤ (scrollFileView k q).file_view_scroll_offset ∧
      (scrollFileView k q).file_view_scroll_offset
        ≤ max 0 ((q.file_content_lines.length : Int) - fileViewportHeight q) := by
  cases k
  · simp only [scrollFileView, scrollFileViewUp_off]
    split_ifs <;> omega
  · simp only [scrollFileView, scrollFileViewDown_off]
    split_ifs <;> omega
  · simp only [scrollFileView, scrollFileViewPageUp_off]
    omega
  · simp only [scrollFileView, scrollFileViewPageDown_off]
    omega
  · simp only [scrollFileView, scrollFileViewHome_off]
    omega
  · simp only [scrollFileView, scrollFileViewEnd_off]
    omega

theorem scrollFileViewAll_preserves_bounds (keys : List MoveKey) (q : State)
    (hh : 1 ≤ fileViewportHeight q)
    (h0 : 0 ≤ q.file_view_scroll_offset)
    (h1 : q.file_view_scroll_offset
      ≤ max 0 ((q.file_content_lines.length : Int) - fileViewportHeight q)) :
    0 ≤ (scrollFileViewAll keys q).file_view_scroll_offset ∧
      (scrollFileViewAll keys q).file_view_scroll_offset
        ≤ max 0 ((q.file_content_lines.length : Int) - fileViewportHeight q) := by
  induction keys generalizing q with
  | nil => exact ⟨h0, h1⟩
  | cons k ks ih =>
    have step := scrollFileView_preserves_bounds k q hh h0 h1
    have hv := scrollFileView_viewport k q
    have hl := scrollFileView_lines k q
    have := ih (scrollFileView k q) (by rw [hv]; exact hh) step.1
      (by rw [hv, hl]; exact step.2)
    rw [hv, hl] at this
    exact this

/-! ## Claims -/

/-- C1: for a non-empty entry list of length N and a fixed viewport height
h >= 1, starting from selection 0 and scroll offset 0, the state after any
finite sequence of navigateUp, navigateDown, navigatePageUp, navigatePageDown,
navigateHome and navigateEnd satisfies
0 <= scroll_offset <= selected_index < scroll_offset + h and
scroll_offset <= max(0, N - h). -/
theorem C1_navigation_invariant (q : State) (keys : List MoveKey)
    (hne : q.directory_entries ≠ [])
    (hh : 1 ≤ listViewportHeight q)
    (hsel : q.selected_file_index = 0)
    (hoff : q.file_scroll_offset = 0) :
    0 ≤ (navigateAll keys q).file_scroll_offset ∧
      (navigateAll keys q).file_scroll_offset ≤ (navigateAll keys q).selected_file_index ∧
      (navigateAll keys q).selected_file_index
        < (navigateAll keys q).file_scroll_offset + listViewportHeight q ∧
      (navigateAll keys q).file_scroll_offset
        ≤ max 0 ((q.directory_entries.length : Int) - listViewportHeight q) := by
  have hlen := length_pos_of_ne_nil hne
  have hq : NavInv q :=
    ⟨hne, hh, by omega, by omega, by omega, by omega, by omega⟩
  obtain ⟨hinv, hE, hV⟩ := navigateAll_preserves_inv keys q hq
  have h2 := hinv.sel_lt_bottom
  have h4 := hinv.off_le_max
  rw [hV] at h2
  rw [hE, hV] at h4
  exact ⟨hinv.off_nonneg, hinv.off_le_sel, h2, h4⟩

/-- Witness of C1: the 30-entry session, viewport height 20, after the keys
End, Up, PageUp, Down, PageDown, Home, Down. -/
theorem C1_navigation_invariant_witness :
    session30.directory_entries ≠ [] ∧
      1 ≤ listViewportHeight session30 ∧
      session30.selected_file_index = 0 ∧
      session30.file_scroll_offset = 0 ∧
      (0 ≤ (navigateAll [.KEY_END_KEY, .KEY_UP_ARROW, .KEY_PAGE_UP, .KEY_DOWN_ARROW,
            .KEY_PAGE_DOWN, .KEY_HOME_KEY, .KEY_DOWN_ARROW] session30).file_scroll_offset ∧
        (navigateAll [.KEY_END_KEY, .KEY_UP_ARROW, .KEY_PAGE_UP, .KEY_DOWN_ARROW,
            .KEY_PAGE_DOWN, .KEY_HOME_KEY, .KEY_DOWN_ARROW] session30).file_scroll_offset
          ≤ (navigateAll [.KEY_END_KEY, .KEY_UP_ARROW, .KEY_PAGE_UP, .KEY_DOWN_ARROW,
            .KEY_PAGE_DOWN, .KEY_HOME_KEY, .KEY_DOWN_ARROW] session30).selected_file_index ∧
        (navigateAll [.KEY_END_KEY, .KEY_UP_ARROW, .KEY_PAGE_UP, .KEY_DOWN_ARROW,
            .KEY_PAGE_DOWN, .KEY_HOME_KEY, .KEY_DOWN_ARROW] session30).selected_file_index
          < (navigateAll [.KEY_END_KEY, .KEY_UP_ARROW, .KEY_PAGE_UP, .KEY_DOWN_ARROW,
            .KEY_PAGE_DOWN, .KEY_HOME_KEY, .KEY_DOWN_ARROW] session30).file_scroll_offset
            + listViewportHeight session30 ∧
        (navigateAll [.KEY_END_KEY, .KEY_UP_ARROW, .KEY_PAGE_UP, .KEY_DOWN_ARROW,
            .KEY_PAGE_DOWN, .KEY_HOME_KEY, .KEY_DOWN_ARROW] session30).file_scroll_offset
          ≤ max 0 ((session30.directory_entries.length : Int)
              - listViewportHeight session30)) :=
  ⟨by decide, by decide, by decide, by decide,
    C1_navigation_invariant session30 _ (by decide) (by decide) (by decide) (by decide)⟩

/-- C2 (evaluation of the code at the failing input): in the 30-entry session
the selection is moved to index 10, the terminal is resized to 80 x 8 (viewport
height 3) and navigateUp is applied.  The selection becomes 9 and the scroll
offset stays 0, so selected_index < scroll_offset + viewport_height is violated
after the operation, although the viewport has at least one row and the
selection was a valid index. -/
theorem C2_navigateUp_after_shrink_leaves_selection_hidden :
    session30Shrunk.directory_entries ≠ [] ∧
      0 ≤ session30Shrunk.selected_file_index ∧
      session30Shrunk.selected_file_index < (session30Shrunk.directory_entries.length : Int) ∧
      listViewportHeight (navigateUp session30Shrunk) = 3 ∧
      (navigateUp session30Shrunk).selected_file_index = 9 ∧
      (navigateUp session30Shrunk).file_scroll_offset = 0 ∧
      ¬ ((navigateUp session30Shrunk).selected_file_index
          < (navigateUp session30Shrunk).file_scroll_offset
            + listViewportHeight (navigateUp session30Shrunk)) := by
  decide

/-- C3: for a non-empty entry list of length N, every prior state and every
viewport height h, navigateHome yields selection 0 and scroll offset 0, and
navigateEnd yields selection N - 1 and scroll offset max(0, N - h). -/
theorem C3_home_and_end (q : State) (hne : q.directory_entries ≠ []) :
    (navigateHome q).selected_file_index = 0 ∧
      (navigateHome q).file_scroll_offset = 0 ∧
      (navigateEnd q).selected_file_index = (q.directory_entries.length : Int) - 1 ∧
      (navigateEnd q).file_scroll_offset
        = max 0 ((q.directory_entries.length : Int) - listViewportHeight q) := by
  have hemp := isEmpty_false_of_ne_nil hne
  exact ⟨(navigateHome_sel_off q hemp).1, (navigateHome_sel_off q hemp).2,
    navigateEnd_sel q hemp, navigateEnd_off q hemp⟩

/-- Witness of C3: the shrunk 30-entry session (selection 10, viewport 3). -/
theorem C3_home_and_end_witness :
    session30Shrunk.directory_entries ≠ [] ∧
      ((navigateHome session30Shrunk).selected_file_index = 0 ∧
        (navigateHome session30Shrunk).file_scroll_offset = 0 ∧
        (navigateEnd session30Shrunk).selected_file_index
          = (session30Shrunk.directory_entries.length : Int) - 1 ∧
        (navigateEnd session30Shrunk).file_scroll_offset
          = max 0 ((session30Shrunk.directory_entries.length : Int)
              - listViewportHeight session30Shrunk)) :=
  ⟨by decide, C3_home_and_end session30Shrunk (by decide)⟩

/-- C4 (evaluation of the code at the failing input): in the 30-entry session
after ten presses of the down key and a resize to 80 x 8 (N = 30, h = 3,
selection 10, scroll offset 0) navigateUp moves the selection to
max(10 - 1, 0) = 9, which is at or past scroll_offset + h = 3, yet the scroll
offset stays 0 where the scroll rule demands 9 - 3 + 1 = 7. -/
theorem C4_navigateUp_after_shrink_breaks_scroll_rule :
    session30Shrunk.directory_entries ≠ [] ∧
      session30Shrunk.directory_entries.length = 30 ∧
      listViewportHeight session30Shrunk = 3 ∧
      session30Shrunk.selected_file_index = 10 ∧
      session30Shrunk.file_scroll_offset = 0 ∧
      (navigateUp session30Shrunk).selected_file_index = 9 ∧
      (navigateUp session30Shrunk).file_scroll_offset = 0 ∧
      ¬ StepScrollRule session30Shrunk (navigateUp session30Shrunk)
          (listViewportHeight session30Shrunk) := by
  decide

/-- The step rule from states whose selection is visible (a sufficient
condition): for a non-empty list of length N, viewport height h >= 1 and a
state with 0 <= selected_index < N and
scroll_offset <= selected_index < scroll_offset + h: navigateDown sets
selected_index' = min(selected_index + 1, N - 1), navigateUp sets
selected_index' = max(selected_index - 1, 0), and afterwards scroll_offset' is
selected_index' if selected_index' < scroll_offset, selected_index' - h + 1 if
selected_index' >= scroll_offset + h, and scroll_offset otherwise. -/
theorem step_rule_from_visible_selection (q : State)
    (hne : q.directory_entries ≠ [])
    (hh : 1 ≤ listViewportHeight q)
    (hsel0 : 0 ≤ q.selected_file_index)
    (hselN : q.selected_file_index < (q.directory_entries.length : Int))
    (hvis0 : q.file_scroll_offset ≤ q.selected_file_index)
    (hvis1 : q.selected_file_index < q.file_scroll_offset + listViewportHeight q) :
    (navigateDown q).selected_file_index
        = min (q.selected_file_index + 1) ((q.directory_entries.length : Int) - 1) ∧
      (navigateUp q).selected_file_index = max (q.selected_file_index - 1) 0 ∧
      StepScrollRule q (navigateDown q) (listViewportHeight q) ∧
      StepScrollRule q (navigateUp q) (listViewportHeight q) := by
  have hemp := isEmpty_false_of_ne_nil hne
  unfold StepScrollRule
  simp only [navigateUp_sel, navigateUp_off, navigateDown_sel, navigateDown_off, hemp,
    Bool.false_eq_true, if_false, toSizeT]
  refine ⟨?_, ?_, ?_, ?_⟩ <;> split_ifs <;> omega

/-- Example of the step rule from a visible selection: the 30-entry session
after End (selection 29, scroll offset 10, viewport 20). -/
theorem step_rule_from_visible_selection_example :
    (navigateEnd session30).directory_entries ≠ [] ∧
      1 ≤ listViewportHeight (navigateEnd session30) ∧
      0 ≤ (navigateEnd session30).selected_file_index ∧
      (navigateEnd session30).selected_file_index
        < ((navigateEnd session30).directory_entries.length : Int) ∧
      (navigateEnd session30).file_scroll_offset
        ≤ (navigateEnd session30).selected_file_index ∧
      (navigateEnd session30).selected_file_index
        < (navigateEnd session30).file_scroll_offset
          + listViewportHeight (navigateEnd session30) ∧
      ((navigateDown (navigateEnd session30)).selected_file_index
          = min ((navigateEnd session30).selected_file_index + 1)
              (((navigateEnd session30).directory_entries.length : Int) - 1) ∧
        (navigateUp (navigateEnd session30)).selected_file_index
          = max ((navigateEnd session30).selected_file_index - 1) 0 ∧
        StepScrollRule (navigateEnd session30) (navigateDown (navigateEnd session30))
          (listViewportHeight (navigateEnd session30)) ∧
        StepScrollRule (navigateEnd session30) (navigateUp (navigateEnd session30))
          (listViewportHeight (navigateEnd session30))) :=
  ⟨by decide, by decide, by decide, by decide, by decide, by decide,
    step_rule_from_visible_selection (navigateEnd session30)
      (by decide) (by decide) (by decide) (by decide) (by decide) (by decide)⟩

/-- C5: for a non-empty list of length N, viewport height h >= 1 and a state
with 0 <= selected_index (in particular every state with
0 <= selected_index < N), navigatePageUp yields
selected_index' = max(selected_index - h, 0) and scroll_offset' = selected_index';
navigatePageDown yields selected_index' = min(selected_index + h, N - 1) and
scroll_offset' = selected_index' - h + 1 clamped to [0, max(0, N - h)], the
offset being derived from the already clamped selection. -/
theorem C5_page_up_and_page_down (q : State)
    (hne : q.directory_entries ≠ [])
    (hh : 1 ≤ listViewportHeight q)
    (hsel0 : 0 ≤ q.selected_file_index) :
    (navigatePageUp q).selected_file_index
        = max (q.selected_file_index - listViewportHeight q) 0 ∧
      (navigatePageUp q).file_scroll_offset = (navigatePageUp q).selected_file_index ∧
      (navigatePageDown q).selected_file_index
        = min (q.selected_file_index + listViewportHeight q)
            ((q.directory_entries.length : Int) - 1) ∧
      (navigatePageDown q).file_scroll_offset
        = min (max ((navigatePageDown q).selected_file_index - listViewportHeight q + 1) 0)
            (max 0 ((q.directory_entries.length : Int) - listViewportHeight q)) := by
  have hemp := isEmpty_false_of_ne_nil hne
  refine ⟨navigatePageUp_sel q hemp, ?_, ?_, navigatePageDown_off q hemp⟩
  · rw [navigatePageUp_off q hemp, navigatePageUp_sel q hemp]
  · rw [navigatePageDown_sel q hemp]
    unfold toSizeT
    split_ifs <;> omega

/-- Witness of C5: the shrunk 30-entry session (selection 10, viewport 3). -/
theorem C5_page_up_and_page_down_witness :
    session30Shrunk.directory_entries ≠ [] ∧
      1 ≤ listViewportHeight session30Shrunk ∧
      0 ≤ session30Shrunk.selected_file_index ∧
      ((navigatePageUp session30Shrunk).selected_file_index
          = max (session30Shrunk.selected_file_index - listViewportHeight session30Shrunk) 0 ∧
        (navigatePageUp session30Shrunk).file_scroll_offset
          = (navigatePageUp session30Shrunk).selected_file_index ∧
        (navigatePageDown session30Shrunk).selected_file_index
          = min (session30Shrunk.selected_file_index + listViewportHeight session30Shrunk)
              ((session30Shrunk.directory_entries.length : Int) - 1) ∧
        (navigatePageDown session30Shrunk).file_scroll_offset
          = min (max ((navigatePageDown session30Shrunk).selected_file_index
                  - listViewportHeight session30Shrunk + 1) 0)
              (max 0 ((session30Shrunk.directory_entries.length : Int)
                  - listViewportHeight session30Shrunk))) :=
  ⟨by decide, by decide, by decide,
    C5_page_up_and_page_down session30Shrunk (by decide) (by decide) (by decide)⟩

/-- `Display::drawFileBrowser` throws exactly when its title truncation does. -/
theorem drawFileBrowser_eq_none_iff (has_colors : Bool) (window : Option Window)
    (entries : List DirectoryEntry) (selected_index scroll_offset : Int)
    (current_directory : String) :
    Display.drawFileBrowser has_colors window entries selected_index scroll_offset
        current_directory = none ↔
      Display.fileBrowserTitle (getWindowSize window).1 current_directory = none := by
  unfold Display.drawFileBrowser
  dsimp only
  cases Display.fileBrowserTitle (getWindowSize window).1 current_directory <;> simp

/-- When the redraw that `loadDirectory` starts with completes, the method
returns with the loaded list, selection and list scroll offset 0 and the status
string of the load. -/
theorem loadDirectory_of_redraw (q : State) (path : String)
    (loaded : List DirectoryEntry × String)
    (hdraw : drawInterface (setStatusMessage q "Loading directory...") = some ()) :
    loadDirectory q path loaded =
      { q with
        directory_entries := loaded.1
        current_directory := path
        selected_file_index := 0
        file_scroll_offset := 0
        needs_redraw := true
        status_message := loaded.2 } := by
  have h2 : drawInterface
      { setStatusMessage q "Loading directory..." with needs_redraw := true } = some () :=
    hdraw
  unfold loadDirectory
  simp only [h2]
  rfl

/-- When the redraw that `loadDirectory` starts with is left by an exception,
so is the method: nothing is loaded or reset, only the status message
"Loading directory..." and the dirty flag have been set. -/
theorem loadDirectory_of_redraw_failure (q : State) (path : String)
    (loaded : List DirectoryEntry × String)
    (hdraw : drawInterface (setStatusMessage q "Loading directory...") = none) :
    loadDirectory q path loaded = setStatusMessage q "Loading directory..." := by
  have h2 : drawInterface
      { setStatusMessage q "Loading directory..." with needs_redraw := true } = none :=
    hdraw
  unfold loadDirectory
  simp only [h2]
  rfl

/-- On a 20 x 24 screen the directory window is 5 columns wide and the title
truncation of `projects` throws: `loadDirectory` is left with the selection
still at 2 and the old list in place. -/
theorem loadDirectory_on_narrow_window :
    narrowSession3.selected_file_index = 2 ∧
      drawInterface (setStatusMessage narrowSession3 "Loading directory...") = none ∧
      (loadDirectory narrowSession3 "/home/u"
          ([dirEntry "/home/u/projects"], "Loaded 1 entries")).selected_file_index = 2 ∧
      (loadDirectory narrowSession3 "/home/u"
          ([dirEntry "/home/u/projects"], "Loaded 1 entries")).directory_entries
        = narrowSession3.directory_entries ∧
      (loadDirectory narrowSession3 "/home/u"
          ([dirEntry "/home/u/projects"], "Loaded 1 entries")).status_message
        = "Loading directory..." := by
  decide

/-- C6 (counterexample): loading a directory into a state whose file-view
scroll offset is 7 leaves that offset at 7, not 0; the redraw at the start of
the method completes and the method returns. -/
theorem C6_loadDirectory_counterexample :
    drawInterface (setStatusMessage { initial with file_view_scroll_offset := 7 }
        "Loading directory...") = some () ∧
      (loadDirectory { initial with file_view_scroll_offset := 7 } "/data"
        ([fileEntry "a.txt"], "Loaded 1 entries")).file_view_scroll_offset = 7 ∧
      ¬ ((loadDirectory { initial with file_view_scroll_offset := 7 } "/data"
        ([fileEntry "a.txt"], "Loaded 1 entries")).file_view_scroll_offset = 0) := by
  decide

/-- C6 (amended): when the redraw that QuickView::loadDirectory makes before it
loads (drawInterface, after the status message "Loading directory..." is set)
completes, loading a directory resets selected_file_index and the list scroll
offset file_scroll_offset to 0 for every prior value, and leaves the file-view
scroll offset file_view_scroll_offset unchanged. -/
theorem C6_loadDirectory_resets_list_view (q : State) (path : String)
    (loaded : List DirectoryEntry × String)
    (hdraw : drawInterface (setStatusMessage q "Loading directory...") = some ()) :
    (loadDirectory q path loaded).selected_file_index = 0 ∧
      (loadDirectory q path loaded).file_scroll_offset = 0 ∧
      (loadDirectory q path loaded).file_view_scroll_offset = q.file_view_scroll_offset := by
  rw [loadDirectory_of_redraw q path loaded hdraw]
  exact ⟨rfl, rfl, rfl⟩

/-- C6 (witness): the 30-entry session after End (selection 29, scroll offset
10) on an 80 x 25 screen, where the redraw completes. -/
theorem C6_loadDirectory_resets_list_view_witness :
    (navigateEnd session30).selected_file_index = 29 ∧
      (navigateEnd session30).file_scroll_offset = 10 ∧
      drawInterface (setStatusMessage (navigateEnd session30) "Loading directory...")
        = some () ∧
      ((loadDirectory (navigateEnd session30) "/data/sub"
            ([fileEntry "/data/sub/x"], "Loaded 1 entries")).selected_file_index = 0 ∧
        (loadDirectory (navigateEnd session30) "/data/sub"
            ([fileEntry "/data/sub/x"], "Loaded 1 entries")).file_scroll_offset = 0 ∧
        (loadDirectory (navigateEnd session30) "/data/sub"
            ([fileEntry "/data/sub/x"], "Loaded 1 entries")).file_view_scroll_offset
          = (navigateEnd session30).file_view_scroll_offset) :=
  ⟨by decide, by decide, by decide,
    C6_loadDirectory_resets_list_view (navigateEnd session30) "/data/sub"
      ([fileEntry "/data/sub/x"], "Loaded 1 entries") (by decide)⟩

/-- C7: when the entry list is empty, each of navigateUp, navigateDown,
navigatePageUp, navigatePageDown, navigateHome and navigateEnd returns the state
unchanged (selection, scroll offset, status message, dirty flag, display mode,
running flag and every other member), whatever the viewport height. -/
theorem C7_navigation_noop_on_empty_list (q : State) (hempty : q.directory_entries = []) :
    navigateUp q = q ∧ navigateDown q = q ∧ navigatePageUp q = q ∧
      navigatePageDown q = q ∧ navigateHome q = q ∧ navigateEnd q = q := by
  have hemp : q.directory_entries.isEmpty = true := by rw [hempty]; rfl
  unfold navigateUp navigateDown navigatePageUp navigatePageDown navigateHome navigateEnd
  simp only [hemp, if_true, and_self]

/-- Witness of C7: the freshly constructed state, whose entry list is empty. -/
theorem C7_navigation_noop_on_empty_list_witness :
    initial.directory_entries = [] ∧
      (navigateUp initial = initial ∧ navigateDown initial = initial ∧
        navigatePageUp initial = initial ∧ navigatePageDown initial = initial ∧
        navigateHome initial = initial ∧ navigateEnd initial = initial) :=
  ⟨rfl, C7_navigation_noop_on_empty_list initial rfl⟩

/-- C8: for a text buffer of total_lines lines and a fixed content viewport
height h >= 1 (content-window height minus 5), starting from
file_view_scroll_offset = 0, the offset after any finite sequence of
scrollFileViewUp, scrollFileViewDown, scrollFileViewPageUp,
scrollFileViewPageDown, scrollFileViewHome and scrollFileViewEnd satisfies
0 <= file_view_scroll_offset <= max(0, total_lines - h). -/
theorem C8_file_view_offset_bounds (q : State) (keys : List MoveKey)
    (hh : 1 ≤ fileViewportHeight q)
    (hoff : q.file_view_scroll_offset = 0) :
    0 ≤ (scrollFileViewAll keys q).file_view_scroll_offset ∧
      (scrollFileViewAll keys q).file_view_scroll_offset
        ≤ max 0 ((q.file_content_lines.length : Int) - fileViewportHeight q) :=
  scrollFileViewAll_preserves_bounds keys q hh (by omega) (by omega)

/-- Witness of C8: the 200-line file view, viewport 20, after the keys
PageDown, End, Down, PageUp, Up, Home, Up. -/
theorem C8_file_view_offset_bounds_witness :
    1 ≤ fileViewportHeight fileView200 ∧
      fileView200.file_view_scroll_offset = 0 ∧
      (0 ≤ (scrollFileViewAll [.KEY_PAGE_DOWN, .KEY_END_KEY, .KEY_DOWN_ARROW, .KEY_PAGE_UP,
            .KEY_UP_ARROW, .KEY_HOME_KEY, .KEY_UP_ARROW] fileView200).file_view_scroll_offset ∧
        (scrollFileViewAll [.KEY_PAGE_DOWN, .KEY_END_KEY, .KEY_DOWN_ARROW, .KEY_PAGE_UP,
            .KEY_UP_ARROW, .KEY_HOME_KEY, .KEY_UP_ARROW] fileView200).file_view_scroll_offset
          ≤ max 0 ((fileView200.file_content_lines.length : Int)
              - fileViewportHeight fileView200)) :=
  ⟨by decide, by decide, C8_file_view_offset_bounds fileView200 _ (by decide) (by decide)⟩

/-- C9: for a text buffer of total_lines lines and viewport height h >= 1,
scrollFileViewEnd sets the file-view scroll offset to max(0, total_lines - h),
and a subsequent scrollFileViewPageDown leaves the offset at
max(0, total_lines - h). -/
theorem C9_end_then_page_down (q : State) (hh : 1 ≤ fileViewportHeight q) :
    (scrollFileViewEnd q).file_view_scroll_offset
        = max 0 ((q.file_content_lines.length : Int) - fileViewportHeight q) ∧
      (scrollFileViewPageDown (scrollFileViewEnd q)).file_view_scroll_offset
        = max 0 ((q.file_content_lines.length : Int) - fileViewportHeight q) := by
  have hv : fileViewportHeight (scrollFileViewEnd q) = fileViewportHeight q :=
    scrollFileView_viewport .KEY_END_KEY q
  have hl : (scrollFileViewEnd q).file_content_lines = q.file_content_lines :=
    scrollFileView_lines .KEY_END_KEY q
  refine ⟨scrollFileViewEnd_off q, ?_⟩
  rw [scrollFileViewPageDown_off, hv, hl, scrollFileViewEnd_off]
  omega

/-- Witness of C9: 200 lines and viewport height 20 give offset 180 after End,
and 180 again after a following PageDown. -/
theorem C9_end_then_page_down_witness :
    1 ≤ fileViewportHeight fileView200 ∧
      (fileView200.file_content_lines.length : Int) = 200 ∧
      fileViewportHeight fileView200 = 20 ∧
      (scrollFileViewEnd fileView200).file_view_scroll_offset = 180 ∧
      (scrollFileViewPageDown (scrollFileViewEnd fileView200)).file_view_scroll_offset
        = 180 := by
  have hlen : (fileView200.file_content_lines.length : Int) = 200 := by
    rw [show fileView200.file_content_lines = List.replicate 200 "line" from rfl,
      List.length_replicate]
    rfl
  have hh : fileViewportHeight fileView200 = 20 := by decide
  have key := C9_end_then_page_down fileView200 (by decide)
  rw [hlen, hh] at key
  exact ⟨by decide, hlen, hh, key.1, key.2⟩

/-- C10 (counterexample): on an 80 x 6 screen the content region is 5 rows
high, whereas 90% of H - 1 = 5 rounded down is 4. -/
theorem C10_content_height_counterexample :
    (setupWindows { initial with screen_width := 80, screen_height := 6 }).content_window_
        = some { height := 5, width := 60, start_y := 0, start_x := 20 } ∧
      ⌊(9 / 10 : ℚ) * (((6 : Int) : ℚ) - 1)⌋ = 4 ∧
      (5 : Int) ≠ ⌊(9 / 10 : ℚ) * (((6 : Int) : ℚ) - 1)⌋ := by
  have hfloor : ⌊(9 / 10 : ℚ) * (((6 : Int) : ℚ) - 1)⌋ = 4 := by
    rw [Int.floor_eq_iff]
    norm_num
  refine ⟨by decide, hfloor, ?_⟩
  rw [hfloor]
  decide

/-- C10 (amended): for every screen size W >= 1, H >= 1, the content region
computed by setupWindows has height (H - 1) - floor((H - 1) / 10), which is 90%
of H - 1 rounded up, width W - floor(W/4) and origin (row 0, column
floor(W/4)). -/
theorem C10_content_region (q : State)
    (hW : 1 ≤ q.screen_width) (hH : 1 ≤ q.screen_height) :
    (setupWindows q).content_window_
        = some { height := (q.screen_height - 1) - (q.screen_height - 1) / 10
                 width := q.screen_width - q.screen_width / 4
                 start_y := 0
                 start_x := q.screen_width / 4 } ∧
      (q.screen_height - 1) - (q.screen_height - 1) / 10
        = ⌈(9 / 10 : ℚ) * ((q.screen_height : ℚ) - 1)⌉ := by
  constructor
  · unfold setupWindows createWindow
    have h1 : Int.tdiv q.screen_width 4 = q.screen_width / 4 :=
      Int.tdiv_eq_ediv (by omega) (by decide)
    have h2 : Int.tdiv ((q.screen_height - 1) * 10) 100 = (q.screen_height - 1) / 10 := by
      rw [Int.tdiv_eq_ediv (by omega) (by decide)]
      omega
    simp only [h1, h2]
  · symm
    rw [Int.ceil_eq_iff]
    have hdiv := Int.emod_add_ediv (q.screen_height - 1) 10
    have hlo := Int.emod_nonneg (q.screen_height - 1) (by decide : (10 : Int) ≠ 0)
    have hhi := Int.emod_lt_of_pos (q.screen_height - 1) (by decide : (0 : Int) < 10)
    have hq : ((q.screen_height - 1 : Int) : ℚ)
        = (((q.screen_height - 1) % 10 : Int) : ℚ)
          + 10 * (((q.screen_height - 1) / 10 : Int) : ℚ) := by
      exact_mod_cast hdiv.symm
    have hlo' : (0 : ℚ) ≤ (((q.screen_height - 1) % 10 : Int) : ℚ) := by exact_mod_cast hlo
    have hhi' : (((q.screen_height - 1) % 10 : Int) : ℚ) < 10 := by exact_mod_cast hhi
    push_cast at hq ⊢
    constructor <;> linarith

/-- Witness of C10 (amended): an 80 x 24 screen gives a content region of
21 x 60 at (0, 20). -/
theorem C10_content_region_witness :
    (1 : Int) ≤ 80 ∧ (1 : Int) ≤ 24 ∧
      (setupWindows { initial with screen_width := 80, screen_height := 24 }).content_window_
        = some { height := 21, width := 60, start_y := 0, start_x := 20 } := by
  have key := C10_content_region { initial with screen_width := 80, screen_height := 24 }
    (by decide) (by decide)
  exact ⟨by decide, by decide, key.1⟩

/-! ## Claims on the layout and the display-mode machine -/

/-- C11: for every screen size W >= 1, H >= 1, setupWindows computes four
rectangles: the directory list is (H-1) x floor(W/4) at (0,0), the info region
has the content width and column and starts on the row directly below the
content region with content height + info height = H - 1, and the status region
is 1 x W on row H - 1.  A cell lies in the W x H screen exactly when it lies in
one of the four rectangles (they lie inside the screen and cover it), and no
cell lies in two of them (they are pairwise non-overlapping). -/
theorem C11_layout_partitions_screen (q : State)
    (hW : 1 ≤ q.screen_width) (hH : 1 ≤ q.screen_height) :
    ∃ dir content info status : Window,
      (setupWindows q).file_browser_window_ = some dir ∧
      (setupWindows q).content_window_ = some content ∧
      (setupWindows q).info_window_ = some info ∧
      (setupWindows q).status_window_ = some status ∧
      dir = { height := q.screen_height - 1, width := q.screen_width / 4,
              start_y := 0, start_x := 0 } ∧
      info.width = content.width ∧ info.start_x = content.start_x ∧
      info.start_y = content.start_y + content.height ∧
      content.height + info.height = q.screen_height - 1 ∧
      status = { height := 1, width := q.screen_width,
                 start_y := q.screen_height - 1, start_x := 0 } ∧
      (∀ r c : Int,
        (0 ≤ r ∧ r < q.screen_height ∧ 0 ≤ c ∧ c < q.screen_width) ↔
          (dir.contains r c ∨ content.contains r c ∨ info.contains r c
            ∨ status.contains r c)) ∧
      (∀ r c : Int,
        ¬ (dir.contains r c ∧ content.contains r c) ∧
        ¬ (dir.contains r c ∧ info.contains r c) ∧
        ¬ (dir.contains r c ∧ status.contains r c) ∧
        ¬ (content.contains r c ∧ info.contains r c) ∧
        ¬ (content.contains r c ∧ status.contains r c) ∧
        ¬ (info.contains r c ∧ status.contains r c)) := by
  have h1 : Int.tdiv q.screen_width 4 = q.screen_width / 4 :=
    Int.tdiv_eq_ediv (by omega) (by decide)
  have h2 : Int.tdiv ((q.screen_height - 1) * 10) 100 = (q.screen_height - 1) / 10 := by
    rw [Int.tdiv_eq_ediv (by omega) (by decide)]
    omega
  simp only [setupWindows, createWindow, h1, h2]
  refine ⟨_, _, _, _, rfl, rfl, rfl, rfl, rfl, rfl, rfl, ?_, ?_, rfl, ?_, ?_⟩
  · simp only [zero_add]
  · dsimp only
    omega
  · intro r c
    simp only [Window.contains]
    omega
  · intro r c
    simp only [Window.contains]
    omega

/-- Witness of C11: an 80 x 24 screen. -/
theorem C11_layout_partitions_screen_witness :
    (1 : Int) ≤ 80 ∧ (1 : Int) ≤ 24 ∧
      (setupWindows { initial with screen_width := 80, screen_height := 24 }).file_browser_window_
        = some { height := 23, width := 20, start_y := 0, start_x := 0 } ∧
      (setupWindows { initial with screen_width := 80, screen_height := 24 }).info_window_
        = some { height := 2, width := 60, start_y := 21, start_x := 20 } ∧
      (setupWindows { initial with screen_width := 80, screen_height := 24 }).status_window_
        = some { height := 1, width := 80, start_y := 23, start_x := 0 } := by
  obtain ⟨dir, content, info, status, hd, _, _, hs, hdir, _, _, _, _, hstatus, _, _⟩ :=
    C11_layout_partitions_screen { initial with screen_width := 80, screen_height := 24 }
      (by decide) (by decide)
  refine ⟨by decide, by decide, ?_, by decide, ?_⟩
  · rw [hd, hdir]
    decide
  · rw [hs, hstatus]
    decide

/-- In FileView mode a key that the scroll engine handles leaves every member
other than the file-view scroll offset, the status message and the dirty flag
as it was. -/
theorem scrollFileView_frame (k : MoveKey) (q : State) :
    (scrollFileView k q).current_display_mode = q.current_display_mode ∧
      (scrollFileView k q).selected_file_index = q.selected_file_index ∧
      (scrollFileView k q).file_scroll_offset = q.file_scroll_offset ∧
      (scrollFileView k q).directory_entries = q.directory_entries ∧
      (scrollFileView k q).file_content_lines = q.file_content_lines ∧
      (scrollFileView k q).running = q.running := by
  cases k
  · simp only [scrollFileView]
    unfold scrollFileViewUp setStatusMessage
    split_ifs <;> exact ⟨rfl, rfl, rfl, rfl, rfl, rfl⟩
  · simp only [scrollFileView]
    unfold scrollFileViewDown setStatusMessage
    dsimp only
    split_ifs <;> exact ⟨rfl, rfl, rfl, rfl, rfl, rfl⟩
  · simp only [scrollFileView]
    unfold scrollFileViewPageUp setStatusMessage
    dsimp only
    split_ifs <;> exact ⟨rfl, rfl, rfl, rfl, rfl, rfl⟩
  · simp only [scrollFileView]
    unfold scrollFileViewPageDown setStatusMessage
    dsimp only
    split_ifs <;> exact ⟨rfl, rfl, rfl, rfl, rfl, rfl⟩
  · exact ⟨rfl, rfl, rfl, rfl, rfl, rfl⟩
  · exact ⟨rfl, rfl, rfl, rfl, rfl, rfl⟩

theorem processFileViewKey_code (k : MoveKey) (q : State) :
    Input.processFileViewKey q k.code = (scrollFileView k q, true) := by
  cases k <;> rfl

theorem processFileViewKey_other (q : State) (key : Int)
    (hkey : ∀ k : MoveKey, key ≠ k.code) :
    Input.processFileViewKey q key = (q, false) := by
  have h1 := hkey .KEY_UP_ARROW
  have h2 := hkey .KEY_DOWN_ARROW
  have h3 := hkey .KEY_PAGE_UP
  have h4 := hkey .KEY_PAGE_DOWN
  have h5 := hkey .KEY_HOME_KEY
  have h6 := hkey .KEY_END_KEY
  simp only [MoveKey.code] at h1 h2 h3 h4 h5 h6
  unfold Input.processFileViewKey
  simp only [h1, h2, h3, h4, h5, h6, if_false]

/-- C12: in display mode Help or About, processKey with any key code (the
quit keys, the view key and the resize event included) sets the display mode to
Normal and leaves the running flag, the selected index, both scroll offsets and
the entry list unchanged. -/
theorem C12_help_and_about_return_on_any_key (w : World) (q : State) (key : Int)
    (hmode : q.current_display_mode = DisplayMode.HELP
      ∨ q.current_display_mode = DisplayMode.ABOUT) :
    (Input.processKey w q key).current_display_mode = DisplayMode.NORMAL ∧
      (Input.processKey w q key).running = q.running ∧
      (Input.processKey w q key).selected_file_index = q.selected_file_index ∧
      (Input.processKey w q key).file_scroll_offset = q.file_scroll_offset ∧
      (Input.processKey w q key).file_view_scroll_offset = q.file_view_scroll_offset ∧
      (Input.processKey w q key).directory_entries = q.directory_entries := by
  have hfv : q.current_display_mode ≠ DisplayMode.FILE_VIEW := by
    rcases hmode with h | h <;> rw [h] <;> decide
  unfold Input.processKey
  rw [if_neg hfv, if_pos hmode]
  exact ⟨rfl, rfl, rfl, rfl, rfl, rfl⟩

/-- Witness of C12: the Help session with the quit key `q`, the view key `v` and
the resize event. -/
theorem C12_help_and_about_return_on_any_key_witness :
    (helpSession.current_display_mode = DisplayMode.HELP
        ∨ helpSession.current_display_mode = DisplayMode.ABOUT) ∧
      (Input.processKey world40x10 helpSession 113).current_display_mode
        = DisplayMode.NORMAL ∧
      (Input.processKey world40x10 helpSession 113).running = true ∧
      (Input.processKey world40x10 helpSession 118).current_display_mode
        = DisplayMode.NORMAL ∧
      (Input.processKey world40x10 helpSession ITerminal.KEY_RESIZE_EVENT).current_display_mode
        = DisplayMode.NORMAL :=
  ⟨by decide,
    (C12_help_and_about_return_on_any_key world40x10 helpSession 113 (by decide)).1,
    (C12_help_and_about_return_on_any_key world40x10 helpSession 113 (by decide)).2.1,
    (C12_help_and_about_return_on_any_key world40x10 helpSession 118 (by decide)).1,
    (C12_help_and_about_return_on_any_key world40x10 helpSession
      ITerminal.KEY_RESIZE_EVENT (by decide)).1⟩

/-- C13: in display mode FileView, processKey with one of the keys of the
scroll engine (up, down, page-up, page-down, home, end) keeps the mode at
FileView and leaves the list selection, the list scroll offset, the entry list,
the TextBuffer and the running flag unchanged (it writes the file-view scroll
offset, and with it the status message and the dirty flag); with every other
key code the mode becomes Normal. -/
theorem C13_file_view_keys (w : World) (q : State) (key : Int)
    (hmode : q.current_display_mode = DisplayMode.FILE_VIEW) :
    ((key = ITerminal.KEY_UP_ARROW ∨ key = ITerminal.KEY_DOWN_ARROW ∨
        key = ITerminal.KEY_PAGE_UP ∨ key = ITerminal.KEY_PAGE_DOWN ∨
        key = ITerminal.KEY_HOME_KEY ∨ key = ITerminal.KEY_END_KEY) →
      (Input.processKey w q key).current_display_mode = DisplayMode.FILE_VIEW ∧
        (Input.processKey w q key).selected_file_index = q.selected_file_index ∧
        (Input.processKey w q key).file_scroll_offset = q.file_scroll_offset ∧
        (Input.processKey w q key).directory_entries = q.directory_entries ∧
        (Input.processKey w q key).file_content_lines = q.file_content_lines ∧
        (Input.processKey w q key).running = q.running) ∧
    (¬ (key = ITerminal.KEY_UP_ARROW ∨ key = ITerminal.KEY_DOWN_ARROW ∨
        key = ITerminal.KEY_PAGE_UP ∨ key = ITerminal.KEY_PAGE_DOWN ∨
        key = ITerminal.KEY_HOME_KEY ∨ key = ITerminal.KEY_END_KEY) →
      (Input.processKey w q key).current_display_mode = DisplayMode.NORMAL) := by
  constructor
  · intro hk
    have hex : ∃ k : MoveKey, key = k.code := by
      rcases hk with h | h | h | h | h | h
      · exact ⟨.KEY_UP_ARROW, h⟩
      · exact ⟨.KEY_DOWN_ARROW, h⟩
      · exact ⟨.KEY_PAGE_UP, h⟩
      · exact ⟨.KEY_PAGE_DOWN, h⟩
      · exact ⟨.KEY_HOME_KEY, h⟩
      · exact ⟨.KEY_END_KEY, h⟩
    obtain ⟨k, rfl⟩ := hex
    unfold Input.processKey
    rw [if_pos hmode, processFileViewKey_code]
    simp only [if_true]
    obtain ⟨f1, f2, f3, f4, f5, f6⟩ := scrollFileView_frame k q
    exact ⟨f1.trans hmode, f2, f3, f4, f5, f6⟩
  · intro hk
    have hother : ∀ k : MoveKey, key ≠ k.code := by
      intro k hkk
      apply hk
      cases k
      · exact Or.inl hkk
      · exact Or.inr (Or.inl hkk)
      · exact Or.inr (Or.inr (Or.inl hkk))
      · exact Or.inr (Or.inr (Or.inr (Or.inl hkk)))
      · exact Or.inr (Or.inr (Or.inr (Or.inr (Or.inl hkk))))
      · exact Or.inr (Or.inr (Or.inr (Or.inr (Or.inr hkk))))
    unfold Input.processKey
    rw [if_pos hmode, processFileViewKey_other q key hother]
    simp only [Bool.false_eq_true, if_false, setStatusMessage]

/-- Witness of C13: the FileView session with the down key (stays in FileView,
offset 1 kept within the buffer) and with the key `q` (returns to Normal). -/
theorem C13_file_view_keys_witness :
    fileViewSession.current_display_mode = DisplayMode.FILE_VIEW ∧
      (Input.processKey world40x10 fileViewSession ITerminal.KEY_DOWN_ARROW).current_display_mode
        = DisplayMode.FILE_VIEW ∧
      (Input.processKey world40x10 fileViewSession ITerminal.KEY_DOWN_ARROW).file_content_lines
        = fileViewSession.file_content_lines ∧
      (Input.processKey world40x10 fileViewSession 113).current_display_mode
        = DisplayMode.NORMAL := by
  have hdown := (C13_file_view_keys world40x10 fileViewSession ITerminal.KEY_DOWN_ARROW
    (by decide)).1 (by decide)
  have hq := (C13_file_view_keys world40x10 fileViewSession 113 (by decide)).2 (by decide)
  exact ⟨by decide, hdown.1, hdown.2.2.2.2.1, hq⟩

/-- C14 (evaluation of the code at the failing input): in the example session
on an 80 x 24 screen the view key opens the selected text file (display mode
FileView); then the resize event arrives while the terminal reports 40 x 10.
processKey treats the event as a key the scroll engine does not handle: the
display mode becomes Normal, resizeHandler does not run (the stored screen size
stays 80 x 24 and the four regions keep their 80 x 24 geometry), and the dirty
flag is set.  The same event in Normal mode does recreate the regions from the
40 x 10 screen. -/
theorem C14_resize_in_file_view_leaves_mode_and_keeps_regions :
    viewSession.current_display_mode = DisplayMode.NORMAL ∧
      viewedSession.current_display_mode = DisplayMode.FILE_VIEW ∧
      (viewedSession.screen_width, viewedSession.screen_height) = (80, 24) ∧
      world40x10.screen_size = (40, 10) ∧
      (Input.processKey world40x10 viewedSession
          ITerminal.KEY_RESIZE_EVENT).current_display_mode = DisplayMode.NORMAL ∧
      ((Input.processKey world40x10 viewedSession ITerminal.KEY_RESIZE_EVENT).screen_width,
        (Input.processKey world40x10 viewedSession ITerminal.KEY_RESIZE_EVENT).screen_height)
        = (80, 24) ∧
      (Input.processKey world40x10 viewedSession ITerminal.KEY_RESIZE_EVENT).content_window_
        = some { height := 21, width := 60, start_y := 0, start_x := 20 } ∧
      (Input.processKey world40x10 viewedSession ITerminal.KEY_RESIZE_EVENT).status_window_
        = some { height := 1, width := 80, start_y := 23, start_x := 0 } ∧
      (Input.processKey world40x10 viewedSession ITerminal.KEY_RESIZE_EVENT).needs_redraw
        = true ∧
      (Input.processKey world40x10 viewSession ITerminal.KEY_RESIZE_EVENT).content_window_
        = some { height := 9, width := 30, start_y := 0, start_x := 10 } ∧
      (Input.processKey world40x10 viewSession
          ITerminal.KEY_RESIZE_EVENT).current_display_mode = DisplayMode.NORMAL := by
  decide

/-! ## Claims on viewing a file -/

/-- Members that `viewFile` never writes, whatever the outcome: the list
selection, the list scroll offset, the entry list, the running flag and the
current directory; the dirty flag is always set. -/
theorem viewFile_frame (w : World) (q : State) :
    (viewFile w q).selected_file_index = q.selected_file_index ∧
      (viewFile w q).file_scroll_offset = q.file_scroll_offset ∧
      (viewFile w q).directory_entries = q.directory_entries ∧
      (viewFile w q).running = q.running ∧
      (viewFile w q).current_directory = q.current_directory ∧
      (viewFile w q).needs_redraw = true := by
  unfold viewFile
  repeat' first
    | exact ⟨rfl, rfl, rfl, rfl, rfl, rfl⟩
    | split
    | dsimp only

theorem viewFile_of_success (w : World) (q : State) (h : ViewFileSucceeds w q) :
    (viewFile w q).current_display_mode = DisplayMode.FILE_VIEW ∧
      (viewFile w q).file_view_scroll_offset = 0 := by
  obtain ⟨hg, e, hsel, hreg, hok, himg, hopen, ⟨size, hsize, hle⟩, hread⟩ := h
  have hle' : ¬ size > MAX_FILE_SIZE := by
    unfold MAX_FILE_SIZE
    omega
  unfold viewFile
  rw [if_neg hg]
  simp only [hsel, hreg, hok, himg, hopen, hsize, hread, hle', Bool.not_true,
    Bool.false_eq_true, Option.isSome_none, or_self, if_false]
  split_ifs <;> exact ⟨rfl, rfl⟩

theorem viewFile_of_failure (w : World) (q : State) (h : ¬ ViewFileSucceeds w q) :
    (viewFile w q).current_display_mode = q.current_display_mode ∧
      ((viewFile w q).status_message = "No file selected" ∨
        (viewFile w q).status_message = "Cannot view: not a regular file" ∨
        (viewFile w q).status_message = "Image opened in default viewer" ∨
        (viewFile w q).status_message = "Error: Cannot open file" ∨
        (viewFile w q).status_message = "Error: File too large to view (>10MB)" ∨
        ∃ what, (viewFile w q).status_message = "Error reading file: " ++ what) := by
  unfold viewFile
  split
  · exact ⟨rfl, Or.inl rfl⟩
  · rename_i hg
    split
    · exact ⟨rfl, Or.inl rfl⟩
    · rename_i e hsel
      split
      · exact ⟨rfl, Or.inr (Or.inl rfl)⟩
      · rename_i hreg
        split
        · exact ⟨rfl, Or.inr (Or.inr (Or.inl rfl))⟩
        · rename_i himg
          dsimp only
          split
          · exact ⟨rfl, Or.inr (Or.inr (Or.inr (Or.inl rfl)))⟩
          · rename_i hopen
            split
            · rename_i what hsize
              exact ⟨rfl, Or.inr (Or.inr (Or.inr (Or.inr (Or.inr ⟨what, rfl⟩))))⟩
            · rename_i size hsize
              split
              · exact ⟨rfl, Or.inr (Or.inr (Or.inr (Or.inr (Or.inl rfl))))⟩
              · rename_i hle
                split
                · rename_i what hread
                  exact ⟨rfl, Or.inr (Or.inr (Or.inr (Or.inr (Or.inr ⟨what, rfl⟩))))⟩
                · rename_i hread
                  exfalso
                  apply h
                  refine ⟨hg, e, hsel, ?_, ?_, ?_, ?_, ⟨size, hsize, ?_⟩, hread⟩
                  · cases hr : e.is_regular_file with
                    | true => rfl
                    | false => exact absurd (Or.inl (by rw [hr]; rfl)) hreg
                  · cases hs : e.status_error with
                    | none => rfl
                    | some m => exact absurd (Or.inr (by rw [hs]; rfl)) hreg
                  · cases hi : ImageHandler.isImageFile e.path with
                    | false => rfl
                    | true => exact absurd hi himg
                  · cases ho : (w.access e.path).is_open with
                    | true => rfl
                    | false => exact absurd (by rw [ho]; rfl) hopen
                  · unfold MAX_FILE_SIZE at hle
                    omega


theorem guard_false_of_selected (q : State) (e : DirectoryEntry)
    (h0 : 0 ≤ q.selected_file_index) (hsel : selectedEntry q = some e) :
    ¬ (q.directory_entries.isEmpty
      ∨ toSizeT q.selected_file_index ≥ (q.directory_entries.length : Int)) := by
  unfold selectedEntry at hsel
  obtain ⟨hlt, _⟩ := List.getElem?_eq_some.mp hsel
  have hne : q.directory_entries ≠ [] := by
    intro hnil
    rw [hnil] at hlt
    exact absurd hlt (Nat.not_lt_zero _)
  have hemp := isEmpty_false_of_ne_nil hne
  unfold toSizeT
  rw [hemp]
  simp only [Bool.false_eq_true, false_or]
  split_ifs <;> omega

/-- C15 (counterexample): the example session is back in Normal mode after a
text file was viewed, its one line still in the TextBuffer; the selected file
can then no longer be opened.  viewFile leaves the display mode at Normal and
sets the status message, but it also empties the TextBuffer.  In the session
that still holds two lines and file-view scroll offset 5, the same failure
empties the buffer and resets the offset to 0: more than the status message is
updated. -/
theorem C15_viewFile_failure_counterexample :
    afterViewSession.current_display_mode = DisplayMode.NORMAL ∧
      afterViewSession.file_content_lines = ["hello    world"] ∧
      selectedEntry afterViewSession = some (fileEntry "/data/a.txt") ∧
      (worldUnreadable.access "/data/a.txt").is_open = false ∧
      (viewFile worldUnreadable afterViewSession).current_display_mode
        = DisplayMode.NORMAL ∧
      (viewFile worldUnreadable afterViewSession).status_message
        = "Error: Cannot open file" ∧
      (viewFile worldUnreadable afterViewSession).file_content_lines = [] ∧
      ¬ ((viewFile worldUnreadable afterViewSession).file_content_lines
          = afterViewSession.file_content_lines) ∧
      viewSession.file_content_lines = ["old line 1", "old line 2"] ∧
      (viewFile worldUnreadable viewSession).file_content_lines = [] ∧
      viewSession.file_view_scroll_offset = 5 ∧
      (viewFile worldUnreadable viewSession).file_view_scroll_offset = 0 ∧
      (viewFile worldUnreadable viewSession).current_display_mode
        = viewSession.current_display_mode := by
  decide

/-- C15 (amended): viewFile changes the display mode to FileView if and only if
the selected entry is a regular file, is not classified as an image, can be
opened, has size at most 10 MiB (the bound itself accepted) and is read without
error; in that case the file-view scroll offset is 0 afterwards.  In every other
case the display mode is unchanged and the status message is set to one of the
failure messages.  In all cases the list selection, the list scroll offset, the
entry list and the running flag are unchanged; the TextBuffer and the file-view
scroll offset are not among the members that a failed attempt preserves. -/
theorem C15_viewFile_outcomes (w : World) (q : State) :
    (ViewFileSucceeds w q →
        (viewFile w q).current_display_mode = DisplayMode.FILE_VIEW ∧
        (viewFile w q).file_view_scroll_offset = 0) ∧
      (¬ ViewFileSucceeds w q →
        (viewFile w q).current_display_mode = q.current_display_mode ∧
        ((viewFile w q).status_message = "No file selected" ∨
          (viewFile w q).status_message = "Cannot view: not a regular file" ∨
          (viewFile w q).status_message = "Image opened in default viewer" ∨
          (viewFile w q).status_message = "Error: Cannot open file" ∨
          (viewFile w q).status_message = "Error: File too large to view (>10MB)" ∨
          ∃ what, (viewFile w q).status_message = "Error reading file: " ++ what)) ∧
      (q.current_display_mode ≠ DisplayMode.FILE_VIEW →
        ((viewFile w q).current_display_mode = DisplayMode.FILE_VIEW ↔ ViewFileSucceeds w q)) ∧
      (viewFile w q).selected_file_index = q.selected_file_index ∧
      (viewFile w q).file_scroll_offset = q.file_scroll_offset ∧
      (viewFile w q).directory_entries = q.directory_entries ∧
      (viewFile w q).running = q.running := by
  obtain ⟨f1, f2, f3, f4, _, _⟩ := viewFile_frame w q
  refine ⟨viewFile_of_success w q, viewFile_of_failure w q, ?_, f1, f2, f3, f4⟩
  intro hmode
  constructor
  · intro hfv
    by_contra hno
    rw [(viewFile_of_failure w q hno).1] at hfv
    exact hmode hfv
  · intro hs
    exact (viewFile_of_success w q hs).1

/-- Witness of C15 (amended): in the example session the selected text file
loads in the world where files open (the mode becomes FileView with offset 0)
and fails in the world where they do not (the mode stays Normal). -/
theorem C15_viewFile_outcomes_witness :
    ViewFileSucceeds world40x10 viewSession ∧
      ¬ ViewFileSucceeds worldUnreadable viewSession ∧
      (viewFile world40x10 viewSession).current_display_mode = DisplayMode.FILE_VIEW ∧
      (viewFile world40x10 viewSession).file_view_scroll_offset = 0 ∧
      (viewFile worldUnreadable viewSession).current_display_mode = DisplayMode.NORMAL := by
  have hyes : ViewFileSucceeds world40x10 viewSession :=
    ⟨by decide, fileEntry "/data/a.txt", by decide, by decide, by decide, by decide,
      by decide, ⟨12, rfl, by decide⟩, rfl⟩
  have hno : ¬ ViewFileSucceeds worldUnreadable viewSession := by
    rintro ⟨_, e, _, _, _, _, hopen, _⟩
    exact Bool.noConfusion hopen
  have h1 := (C15_viewFile_outcomes world40x10 viewSession).1 hyes
  have h2 := (C15_viewFile_outcomes worldUnreadable viewSession).2.1 hno
  exact ⟨hyes, hno, h1.1, h1.2, h2.1⟩

/-- C16: for every selected regular file whose path isImageFile classifies as
an image, viewFile leaves the display mode unchanged and the status message
afterwards is "Image opened in default viewer". -/
theorem C16_viewFile_image (w : World) (q : State) (e : DirectoryEntry)
    (h0 : 0 ≤ q.selected_file_index)
    (hsel : selectedEntry q = some e)
    (hreg : e.is_regular_file = true)
    (hok : e.status_error = none)
    (himg : ImageHandler.isImageFile e.path = true) :
    (viewFile w q).current_display_mode = q.current_display_mode ∧
      (viewFile w q).status_message = "Image opened in default viewer" := by
  have hg := guard_false_of_selected q e h0 hsel
  unfold viewFile
  rw [if_neg hg]
  simp only [hsel, hreg, hok, himg, Bool.not_true, Bool.false_eq_true, Option.isSome_none,
    or_self, if_false, if_true]
  exact ⟨rfl, rfl⟩

/-- Witness of C16: the example session with the image `pic.PNG` selected. -/
theorem C16_viewFile_image_witness :
    0 ≤ ({ viewSession with selected_file_index := 1 } : State).selected_file_index ∧
      selectedEntry { viewSession with selected_file_index := 1 }
        = some (fileEntry "/data/pic.PNG") ∧
      ImageHandler.isImageFile (fileEntry "/data/pic.PNG").path = true ∧
      (viewFile world40x10 { viewSession with selected_file_index := 1 }).current_display_mode
        = DisplayMode.NORMAL ∧
      (viewFile world40x10 { viewSession with selected_file_index := 1 }).status_message
        = "Image opened in default viewer" := by
  have key := C16_viewFile_image world40x10 { viewSession with selected_file_index := 1 }
    (fileEntry "/data/pic.PNG") (by decide) (by decide) (by decide) (by decide) (by decide)
  exact ⟨by decide, by decide, by decide, key.1, key.2⟩

/-! ## Claims on the sort of the entry list -/

theorem stringLess_iff (a b : String) : stringLess a b = true ↔ a < b := by
  unfold stringLess
  rw [decide_eq_true_iff]
  exact String.lt_iff_toList_lt.symm

theorem stringLess_false_iff (a b : String) : stringLess a b = false ↔ b ≤ a := by
  rw [← not_lt, ← stringLess_iff, Bool.not_eq_true]

/-- For entries whose status queries succeed, `b` is not ordered before `a`
exactly when `a` is a directory if `b` is one and, for entries of the same kind,
the case-folded name of `a` is at most that of `b`. -/
theorem comparator_false_iff (a b : DirectoryEntry)
    (ha : a.status_error = none) (hb : b.status_error = none) :
    FileOperations.loadDirectoryComparator b a = false ↔
      ((b.is_directory = true → a.is_directory = true) ∧
        (a.is_directory = b.is_directory →
          toLowerStr (filename a.path) ≤ toLowerStr (filename b.path))) := by
  unfold FileOperations.loadDirectoryComparator
  cases hda : a.is_directory <;> cases hdb : b.is_directory <;>
    simp [ha, hb, stringLess_false_iff]

theorem comparator_total (a b : DirectoryEntry)
    (ha : a.status_error = none) (hb : b.status_error = none) :
    FileOperations.loadDirectoryComparator b a = false
      ∨ FileOperations.loadDirectoryComparator a b = false := by
  rw [comparator_false_iff a b ha hb, comparator_false_iff b a hb ha]
  cases hda : a.is_directory <;> cases hdb : b.is_directory <;>
    simp [le_total]

theorem comparator_trans (a b c : DirectoryEntry)
    (ha : a.status_error = none) (hb : b.status_error = none) (hc : c.status_error = none)
    (hab : FileOperations.loadDirectoryComparator b a = false)
    (hbc : FileOperations.loadDirectoryComparator c b = false) :
    FileOperations.loadDirectoryComparator c a = false := by
  rw [comparator_false_iff a b ha hb] at hab
  rw [comparator_false_iff b c hb hc] at hbc
  rw [comparator_false_iff a c ha hc]
  obtain ⟨hab1, hab2⟩ := hab
  obtain ⟨hbc1, hbc2⟩ := hbc
  refine ⟨fun h => hab1 (hbc1 h), fun hk => ?_⟩
  cases hda : a.is_directory <;> cases hdb : b.is_directory <;> cases hdc : c.is_directory <;>
    simp_all
  · exact le_trans hab2 hbc2
  · exact le_trans hab2 hbc2


/-- Two sorted permutations of each other coincide when the relation is
antisymmetric on their elements. -/
theorem sorted_perm_unique {α : Type} (r : α → α → Prop) (l₁ l₂ : List α)
    (hanti : ∀ x ∈ l₁, ∀ y ∈ l₁, r x y → r y x → x = y)
    (hp : l₁.Perm l₂) (h₁ : l₁.Pairwise r) (h₂ : l₂.Pairwise r) : l₁ = l₂ := by
  induction l₁ generalizing l₂ with
  | nil => exact (List.Perm.nil_eq hp)
  | cons a t₁ ih =>
    cases l₂ with
    | nil => exact absurd hp.symm.nil_eq (by simp)
    | cons b t₂ =>
      obtain ⟨ha₁, hs₁⟩ := List.pairwise_cons.mp h₁
      obtain ⟨hb₂, hs₂⟩ := List.pairwise_cons.mp h₂
      have hab : a = b := by
        by_contra hne
        have ha_mem : a ∈ b :: t₂ := hp.mem_iff.mp (List.mem_cons_self a t₁)
        have hb_mem : b ∈ a :: t₁ := hp.mem_iff.mpr (List.mem_cons_self b t₂)
        have hba : r b a := by
          rcases List.mem_cons.mp ha_mem with h | h
          · exact absurd h hne
          · exact hb₂ a h
        have hab' : r a b := by
          rcases List.mem_cons.mp hb_mem with h | h
          · exact absurd h.symm hne
          · exact ha₁ b h
        exact hne (hanti a (List.mem_cons_self a t₁) b hb_mem hab' hba)
      subst hab
      have hp' : t₁.Perm t₂ := List.Perm.cons_inv hp
      have hanti' : ∀ x ∈ t₁, ∀ y ∈ t₁, r x y → r y x → x = y := fun x hx y hy =>
        hanti x (List.mem_cons_of_mem a hx) y (List.mem_cons_of_mem a hy)
      rw [ih t₂ hanti' hp' hs₁ hs₂]


/-- The contract of `std::sort` leaves the order of a tie open: `README` and
`readme` compare equal for ordering, the list `[README, readme]` is already
sorted, and the reversed list is an admissible result for it. -/
theorem sort_contract_admits_reversed_tie :
    FileOperations.loadDirectoryComparator (fileEntry "/d/README") (fileEntry "/d/readme")
        = false ∧
      FileOperations.loadDirectoryComparator (fileEntry "/d/readme") (fileEntry "/d/README")
        = false ∧
      [fileEntry "/d/README", fileEntry "/d/readme"].Pairwise
        (fun x y => FileOperations.loadDirectoryComparator y x = false) ∧
      StdSortResult FileOperations.loadDirectoryComparator
        [fileEntry "/d/README", fileEntry "/d/readme"]
        [fileEntry "/d/readme", fileEntry "/d/README"] ∧
      [fileEntry "/d/readme", fileEntry "/d/README"]
        ≠ [fileEntry "/d/README", fileEntry "/d/readme"] := by
  decide

/-- On up to 16 entries the `std::sort` of libstdc++ is its insertion sort; it
keeps the two tied files `README` and `readme` in their order. -/
theorem stdSort_keeps_two_tied_entries :
    StdSort.sort FileOperations.loadDirectoryComparator
        [fileEntry "/d/README", fileEntry "/d/readme"]
      = some [fileEntry "/d/README", fileEntry "/d/readme"] := by
  decide

/-- C18 (counterexample): seventeen regular files `A`, `a`, `b`, ..., `p` in
this order are already sorted (no entry is ordered before an earlier one), and
`A` and `a` differ only in letter case and compare equal for ordering.  Applied
to this list, the `std::sort` of libstdc++ with the comparator of loadDirectory
returns `a`, `A`, `b`, ..., `p`: the median-of-three step of its quicksort round
swaps the two tied files.  So sorting the already-sorted list does not return
the same order, and the tied files do not keep their relative order.  The
result is admissible under the contract of `std::sort`. -/
theorem C18_sort_not_stable_counterexample :
    listing17.length = 17 ∧
      listing17.Pairwise (fun x y => FileOperations.loadDirectoryComparator y x = false) ∧
      FileOperations.loadDirectoryComparator (fileEntry "/d/A") (fileEntry "/d/a") = false ∧
      FileOperations.loadDirectoryComparator (fileEntry "/d/a") (fileEntry "/d/A") = false ∧
      listing17.take 2 = [fileEntry "/d/A", fileEntry "/d/a"] ∧
      StdSort.sort FileOperations.loadDirectoryComparator listing17
        = some (fileEntry "/d/a" :: fileEntry "/d/A" :: listing17.drop 2) ∧
      StdSort.sort FileOperations.loadDirectoryComparator listing17 ≠ some listing17 ∧
      StdSortResult FileOperations.loadDirectoryComparator listing17
        (fileEntry "/d/a" :: fileEntry "/d/A" :: listing17.drop 2) := by
  decide

/-- C18 (amended): the sort used by FileOperations::loadDirectory is idempotent
on lists without ties: if no two distinct entries of an already-sorted list
compare equal for ordering, every result of sorting it is the list itself.  Two
entries of the same kind whose names differ only in letter case compare equal
for ordering (neither is ordered before the other); their relative order in the
result is not fixed by the sort. -/
theorem C18_sort_idempotent_without_ties (l out : List DirectoryEntry)
    (a b : DirectoryEntry)
    (hnoties : ∀ x ∈ l, ∀ y ∈ l,
      FileOperations.loadDirectoryComparator x y = false →
      FileOperations.loadDirectoryComparator y x = false → x = y)
    (hsorted : l.Pairwise (fun x y => FileOperations.loadDirectoryComparator y x = false))
    (hres : StdSortResult FileOperations.loadDirectoryComparator l out)
    (ha : a.status_error = none) (hb : b.status_error = none)
    (hkind : a.is_directory = b.is_directory)
    (hname : toLowerStr (filename a.path) = toLowerStr (filename b.path)) :
    out = l ∧
      FileOperations.loadDirectoryComparator a b = false ∧
      FileOperations.loadDirectoryComparator b a = false := by
  refine ⟨?_, ?_, ?_⟩
  · symm
    refine sorted_perm_unique
      (fun x y => FileOperations.loadDirectoryComparator y x = false) l out ?_
      hres.1.symm hsorted hres.2
    intro x hx y hy hxy hyx
    exact hnoties x hx y hy hyx hxy
  · rw [comparator_false_iff b a hb ha]
    exact ⟨fun h => by rw [← hkind]; exact h, fun _ => le_of_eq hname.symm⟩
  · rw [comparator_false_iff a b ha hb]
    exact ⟨fun h => by rw [hkind]; exact h, fun _ => le_of_eq hname⟩

/-- Witness of C18 (amended): a sorted listing without ties is returned as it
is, and `README` and `readme` compare equal. -/
theorem C18_sort_idempotent_without_ties_witness :
    StdSortResult FileOperations.loadDirectoryComparator
        [dirEntry "/d/Docs", fileEntry "/d/a.txt", fileEntry "/d/B.txt"]
        (FileOperations.sortEntries
          [dirEntry "/d/Docs", fileEntry "/d/a.txt", fileEntry "/d/B.txt"]) ∧
      FileOperations.sortEntries [dirEntry "/d/Docs", fileEntry "/d/a.txt", fileEntry "/d/B.txt"]
        = [dirEntry "/d/Docs", fileEntry "/d/a.txt", fileEntry "/d/B.txt"] ∧
      FileOperations.loadDirectoryComparator (fileEntry "/d/README") (fileEntry "/d/readme")
        = false ∧
      FileOperations.loadDirectoryComparator (fileEntry "/d/readme") (fileEntry "/d/README")
        = false := by
  have hres : StdSortResult FileOperations.loadDirectoryComparator
      [dirEntry "/d/Docs", fileEntry "/d/a.txt", fileEntry "/d/B.txt"]
      (FileOperations.sortEntries
        [dirEntry "/d/Docs", fileEntry "/d/a.txt", fileEntry "/d/B.txt"]) := by decide
  have key := C18_sort_idempotent_without_ties
    [dirEntry "/d/Docs", fileEntry "/d/a.txt", fileEntry "/d/B.txt"]
    (FileOperations.sortEntries [dirEntry "/d/Docs", fileEntry "/d/a.txt", fileEntry "/d/B.txt"])
    (fileEntry "/d/README") (fileEntry "/d/readme")
    (by decide) (by decide) hres rfl rfl rfl (by decide)
  exact ⟨hres, key.1, key.2.1, key.2.2⟩

/-! ## Claims on image detection and line sanitisation -/

/-- C19: for every path, ImageHandler::isImageFile returns true if and only if
the extension of the path, folded to lower case, is one of .jpg .jpeg .png .gif
.bmp .tiff .tif .webp .svg .ico .ppm .pgm .pbm .xpm .pcx .tga; the result is
the same for any two paths whose extensions agree after case folding, so it
does not depend on the letter case of the extension. -/
theorem C19_isImageFile_by_extension (path : String) :
    (ImageHandler.isImageFile path = true ↔
        toLowerStr (extension path) ∈ imageExtensions) ∧
      ∀ other : String, toLowerStr (extension other) = toLowerStr (extension path) →
        ImageHandler.isImageFile other = ImageHandler.isImageFile path := by
  constructor
  · unfold ImageHandler.isImageFile imageExtensions
    simp only [Bool.or_eq_true, beq_iff_eq, List.mem_cons, List.mem_singleton, or_assoc,
      List.not_mem_nil, or_false]
  · intro other h
    unfold ImageHandler.isImageFile
    simp only [h]

/-- Witness of C19: `Photo.JPG` and `photo.jpg` are both images, `notes.txt` is
not. -/
theorem C19_isImageFile_by_extension_witness :
    toLowerStr (extension "/pics/Photo.JPG") = toLowerStr (extension "/pics/photo.jpg") ∧
      toLowerStr (extension "/pics/photo.jpg") ∈ imageExtensions ∧
      ImageHandler.isImageFile "/pics/photo.jpg" = true ∧
      ImageHandler.isImageFile "/pics/Photo.JPG" = true ∧
      ImageHandler.isImageFile "/docs/notes.txt" = false := by
  have hmem : toLowerStr (extension "/pics/photo.jpg") ∈ imageExtensions := by decide
  have key := C19_isImageFile_by_extension "/pics/photo.jpg"
  have h1 := key.1.mpr hmem
  have h2 := key.2 "/pics/Photo.JPG" (by decide)
  exact ⟨by decide, hmem, h1, h2.trans h1, by decide⟩

/-- What the sanitisation loop does guarantee: every character of the display
line is a newline or has a `char` value of at least 32; in particular no tab
and no control character below 32 other than a newline remains. -/
theorem displayChars_chars (line : List Char) :
    ∀ c ∈ displayChars line, c = '\n' ∨ charValue c ≥ 32 := by
  induction line with
  | nil => simp [displayChars]
  | cons a rest ih =>
    intro c hc
    unfold displayChars at hc
    rcases List.mem_append.mp hc with h | h
    · unfold displayChar at h
      split_ifs at h with h1 h2
      · have hsp : c = ' ' := by simpa using h
        rw [hsp]
        exact Or.inr (by decide)
      · have hca : c = a := by simpa using h
        rw [hca]
        rcases h2 with h2 | h2
        · exact Or.inr h2
        · exact Or.inl h2
      · have hdot : c = '.' := by simpa using h
        rw [hdot]
        exact Or.inr (by decide)
    · exact ih c h

/-- C20 (evaluation of the code at the failing input): a line that contains
the byte 127 (DEL) between printable characters, a tab and the control byte 1.
The tab becomes four spaces and the control byte a dot, but DEL passes the test
`c >= 32` and is stored in the display line unchanged. -/
theorem C20_displayLine_keeps_del :
    displayLine "a\tb\x01c\x7fd" = "a    b.c\x7fd" ∧
      ('\x7f' : Char).toNat = 127 ∧
      '\x7f' ∈ (displayLine "a\tb\x01c\x7fd").data := by
  decide

/-! ## Claims on the line ceiling, enumeration errors and degenerate viewports -/

/-- The read loop stores the display form of the lines up to the ceiling and
counts them. -/
theorem readLines_spec (lines : List String) (line_count : Nat) (content : List String) :
    readLines lines line_count content =
      (content ++ (lines.take (MAX_LINES - line_count)).map displayLine,
        line_count + min lines.length (MAX_LINES - line_count)) := by
  induction lines generalizing line_count content with
  | nil => simp [readLines]
  | cons line rest ih =>
    unfold readLines
    split_ifs with hlt
    · rw [ih]
      have h1 : MAX_LINES - line_count = (MAX_LINES - (line_count + 1)) + 1 := by omega
      rw [h1, List.take_succ_cons, List.map_cons, List.length_cons]
      refine Prod.ext ?_ ?_
      · simp
      · simp only
        omega
    · have h0 : MAX_LINES - line_count = 0 := by omega
      rw [h0]
      simp

/-- The TextBuffer after a successful `viewFile`: the display form of the first
`MAX_LINES` lines, followed by the truncation notice when the number of lines
read reached `MAX_LINES`. -/
theorem viewFile_content (w : World) (q : State) (e : DirectoryEntry)
    (h : ViewFileSucceeds w q) (hsel : selectedEntry q = some e) :
    (viewFile w q).file_content_lines =
      ((w.access e.path).lines.take MAX_LINES).map displayLine ++
        (if MAX_LINES ≤ (w.access e.path).lines.length then
          ["... (file truncated at " ++ toString MAX_LINES ++ " lines)"]
        else []) := by
  obtain ⟨hg, e', hsel', hreg, hok, himg, hopen, ⟨size, hsize, hle⟩, hread⟩ := h
  have hee : e' = e := Option.some.inj (hsel'.symm.trans hsel)
  subst hee
  have hle' : ¬ size > MAX_FILE_SIZE := by
    unfold MAX_FILE_SIZE
    omega
  unfold viewFile
  rw [if_neg hg]
  simp only [hsel, hreg, hok, himg, hopen, hsize, hread, hle', Bool.not_true,
    Bool.false_eq_true, Option.isSome_none, or_self, if_false, readLines_spec,
    Nat.sub_zero, Nat.zero_add, List.nil_append]
  split_ifs with h1 h2 h2
  · rfl
  · exact absurd h1 (by omega)
  · exact absurd h2 (by omega)
  · simp [setStatusMessage]

/-- C21 (evaluation of the code at the failing input): a file of exactly 10000
lines is loaded.  No line is cut off, yet the loop ends with
`line_count >= MAX_LINES`, so the truncation notice is appended: the TextBuffer
holds 10001 lines, the 10000 lines of the file followed by the notice. -/
theorem C21_notice_for_file_of_exactly_10000_lines :
    selectedEntry viewSession = some (fileEntry "/data/a.txt") ∧
      (world10000Lines.access "/data/a.txt").lines.length = 10000 ∧
      (viewFile world10000Lines viewSession).file_content_lines =
        List.replicate 10000 "x" ++ ["... (file truncated at 10000 lines)"] ∧
      (viewFile world10000Lines viewSession).file_content_lines.length = 10001 := by
  have hsel : selectedEntry viewSession = some (fileEntry "/data/a.txt") := by decide
  have hs : ViewFileSucceeds world10000Lines viewSession :=
    ⟨by decide, fileEntry "/data/a.txt", hsel, by decide, by decide, by decide,
      rfl, ⟨20000, rfl, by decide⟩, rfl⟩
  have hlines : (world10000Lines.access (fileEntry "/data/a.txt").path).lines
      = List.replicate 10000 "x" := rfl
  have hlen : (world10000Lines.access "/data/a.txt").lines.length = 10000 := by
    rw [show (world10000Lines.access "/data/a.txt").lines = List.replicate 10000 "x" from rfl,
      List.length_replicate]
  have hcontent := viewFile_content world10000Lines viewSession _ hs hsel
  rw [hlines] at hcontent
  have htake : (List.replicate 10000 "x").take MAX_LINES = List.replicate 10000 "x" := by
    rw [List.take_of_length_le]
    rw [List.length_replicate]
    exact Nat.le_refl _
  have hdisp : displayLine "x" = "x" := by decide
  have hnotice : "... (file truncated at " ++ toString MAX_LINES ++ " lines)"
      = "... (file truncated at 10000 lines)" := by decide
  rw [htake, List.map_replicate, hdisp, List.length_replicate, hnotice,
    if_pos (show MAX_LINES ≤ 10000 from Nat.le_refl _)] at hcontent
  refine ⟨hsel, hlen, hcontent, ?_⟩
  rw [hcontent, List.length_append, List.length_replicate]
  rfl

/-- When the directory cannot be opened, nothing is thrown and the returned
status is the success message with the number of entries left in the list. -/
theorem loadDirectory_of_open_error (sort : List DirectoryEntry → List DirectoryEntry)
    (fs : DirectoryRead) (path : String) (message : String)
    (hopen : fs.open_error = some message) :
    (FileOperations.loadDirectory sort fs path).2 =
      "Loaded " ++ toString (FileOperations.loadDirectory sort fs path).1.length
        ++ " entries" := by
  unfold FileOperations.loadDirectory
  simp only [hopen, Option.isSome_some, if_true]

/-- C22 (evaluation of the code at the failing input): the directory
`/home/u/missing` does not exist, so the directory iterator cannot be opened.
loadDirectory leaves the synthetic parent entry as the only entry and returns
the success message "Loaded 1 entries"; the controller publishes it as the
status message. -/
theorem C22_loadDirectory_reports_success_for_missing_directory :
    missingDirectory.open_error = some "No such file or directory" ∧
      FileOperations.loadDirectory FileOperations.sortEntries missingDirectory
          "/home/u/missing"
        = ([dirEntry "/home/u/.."], "Loaded 1 entries") ∧
      (loadDirectory viewSession "/home/u/missing"
          (FileOperations.loadDirectory FileOperations.sortEntries missingDirectory
            "/home/u/missing")).status_message = "Loaded 1 entries" := by
  decide

/-- C23 (evaluation of the code at the failing input): on an 80 x 4 screen the
directory window is 3 rows high and the viewport height is -1.  With three
entries and the last one selected, navigatePageUp subtracts the page size -1
from the selection and only clamps below 0: the selected index becomes 3, which
is not an index of the list. -/
theorem C23_pageUp_with_negative_viewport_leaves_the_list :
    tinySession.directory_entries.length = 3 ∧
      tinySession.selected_file_index = 2 ∧
      listViewportHeight tinySession = -1 ∧
      (navigatePageUp tinySession).selected_file_index = 3 ∧
      (Input.processKey world40x10 tinySession ITerminal.KEY_PAGE_UP).selected_file_index
        = 3 ∧
      ¬ ((navigatePageUp tinySession).selected_file_index
          < ((navigatePageUp tinySession).directory_entries.length : Int)) ∧
      selectedEntry (navigatePageUp tinySession) = none := by
  decide

/-! ## Claims on the renderers -/

/-- Without a valid selection the status bar does show the status message. -/
theorem statusBarText_of_no_selection (w : World) (entries : List DirectoryEntry)
    (selected_index : Int) (current_directory status_message : String) (screen_width : Int)
    (h : entries.isEmpty ∨ toSizeT selected_index ≥ (entries.length : Int)) :
    Display.statusBarText w entries selected_index current_directory status_message
      screen_width = status_message := by
  unfold Display.statusBarText
  rw [if_neg]
  rintro ⟨h1, h2⟩
  rcases h with h | h
  · exact h1 h
  · omega

/-- C24 (evaluation of the code at the failing input): in the example session
the selected file is larger than 10 MiB, so viewFile sets the status message
"Error: File too large to view (>10MB)".  With a non-empty list and a valid
selection drawStatusBar draws the description of the selected entry at the left
of the status row, `a.txt (11 MB) | data`, and the status message is not
drawn. -/
theorem C24_status_bar_draws_selection_not_status_message :
    (viewFile worldHugeFiles viewSession).status_message
        = "Error: File too large to view (>10MB)" ∧
      selectedEntry (viewFile worldHugeFiles viewSession) = some (fileEntry "/data/a.txt") ∧
      drawInterfaceStatusBar worldHugeFiles (viewFile worldHugeFiles viewSession) =
        [DrawCall.clearWindow,
         DrawCall.drawText 0 1 "a.txt (11 MB) | data",
         DrawCall.drawText 0 65 "quickView v1.0"] ∧
      DrawCall.drawText 0 1 "Error: File too large to view (>10MB)"
        ∉ drawInterfaceStatusBar worldHugeFiles (viewFile worldHugeFiles viewSession) := by
  decide

/-- Enough fuel: the loop of `Display::drawFileBrowser` has ended by itself once
`i` has reached `display_height - 1`, so more fuel does not change the rows. -/
theorem visibleRows_fuel (display_height scroll_offset : Int) (size : Nat)
    (fuel : Nat) (i : Int) (hfuel : (display_height - 1 - i).toNat ≤ fuel) :
    Display.visibleRows display_height scroll_offset size (fuel + 1) i =
      Display.visibleRows display_height scroll_offset size fuel i := by
  induction fuel generalizing i with
  | zero =>
    have h : ¬ (i < display_height - 1 ∧ toSizeT (i + scroll_offset) < (size : Int)) := by
      omega
    simp only [Display.visibleRows, h, if_false]
  | succ n ih =>
    rw [Display.visibleRows]
    conv_rhs => rw [Display.visibleRows]
    split_ifs with hc
    · rw [ih (i + 1) (by omega)]
    · rfl

/-- The rows drawn for a scroll offset that is not negative: `i` runs over
`0 .. display_height - 2` as long as `i + scroll_offset` is an index of the
list. -/
theorem mem_visibleRows (display_height scroll_offset : Int) (size : Nat)
    (hoff : 0 ≤ scroll_offset) (fuel : Nat) (i : Int) (hi : 0 ≤ i)
    (hfuel : (display_height - 1 - i).toNat ≤ fuel) (j : Int) :
    j ∈ Display.visibleRows display_height scroll_offset size fuel i ↔
      (i ≤ j ∧ j < display_height - 1 ∧ j + scroll_offset < (size : Int)) := by
  induction fuel generalizing i with
  | zero =>
    unfold Display.visibleRows
    simp only [List.not_mem_nil, false_iff]
    omega
  | succ n ih =>
    rw [Display.visibleRows]
    unfold toSizeT
    split_ifs with hneg hc hc
    · omega
    · omega
    · rw [List.mem_cons, ih (i + 1) (by omega) (by omega)]
      omega
    · simp only [List.not_mem_nil, false_iff]
      omega

/-- The indices drawn by `Display::drawFileBrowser` for a scroll offset that is
not negative are `scroll_offset .. min(scroll_offset + h - 1, N) - 1`, where
`h = max_y - 4` is the viewport height of the navigation methods: one row fewer
than the viewport. -/
theorem mem_drawnIndices (max_y : Int) (entries : List DirectoryEntry)
    (scroll_offset : Int) (hoff : 0 ≤ scroll_offset) (k : Int) :
    k ∈ Display.drawnIndices max_y entries scroll_offset ↔
      (scroll_offset ≤ k ∧ k < scroll_offset + (max_y - 4) - 1 ∧
        k < (entries.length : Int)) := by
  unfold Display.drawnIndices
  rw [List.mem_map]
  constructor
  · rintro ⟨j, hj, rfl⟩
    rw [mem_visibleRows _ _ _ hoff _ 0 (le_refl 0) (by omega)] at hj
    omega
  · intro hk
    refine ⟨k - scroll_offset, ?_, by omega⟩
    rw [mem_visibleRows _ _ _ hoff _ 0 (le_refl 0) (by omega)]
    omega

/-- C27 (evaluation of the code at the failing input): in the 30-entry session
with a directory window of 24 rows (viewport height h = 20) the down key is
pressed 19 times.  The navigation methods leave the scroll offset at 0 because
selection 19 satisfies scroll_offset <= selected_index < scroll_offset + h, but
drawFileBrowser draws only the h - 1 entries 0 .. 18: the selected entry is not
drawn and no highlight is set. -/
theorem C27_renderer_draws_one_row_less_than_viewport :
    session30Row19.selected_file_index = 19 ∧
      session30Row19.file_scroll_offset = 0 ∧
      listViewportHeight session30Row19 = 20 ∧
      (session30Row19.file_scroll_offset ≤ session30Row19.selected_file_index ∧
        session30Row19.selected_file_index
          < session30Row19.file_scroll_offset + listViewportHeight session30Row19) ∧
      Display.drawnIndices (getWindowSize session30Row19.file_browser_window_).2
          session30Row19.directory_entries session30Row19.file_scroll_offset
        = [0, 1, 2, 3, 4, 5, 6, 7, 8, 9, 10, 11, 12, 13, 14, 15, 16, 17, 18] ∧
      session30Row19.selected_file_index
        ∉ Display.drawnIndices (getWindowSize session30Row19.file_browser_window_).2
            session30Row19.directory_entries session30Row19.file_scroll_offset ∧
      (drawInterfaceFileBrowser true session30Row19).map
          (fun calls => calls.contains
            (DrawCall.setTextAttribute ColorPair.SELECTED false false))
        = some false := by
  decide

/-- A leading run of a list is no longer than the list. -/
theorem length_takeWhile_le_length (p : Char → Bool) (l : List Char) :
    (l.takeWhile p).length ≤ l.length := by
  induction l with
  | nil => exact Nat.le_refl _
  | cons c rest ih =>
    rw [List.takeWhile_cons]
    split_ifs
    · simp only [List.length_cons]
      omega
    · simp only [List.length_nil, List.length_cons]
      omega

/-- The title truncation succeeds for windows at least 7 columns wide. -/
theorem fileBrowserTitle_wide (max_x : Int) (current_directory : String)
    (hwide : 7 ≤ max_x)
    (hlen : (current_directory.length : Int) < 2 ^ 63) :
    (Display.fileBrowserTitle max_x current_directory).isSome = true := by
  have hfn : ((filename current_directory).length : Int)
      ≤ (current_directory.length : Int) := by
    unfold filename
    have h1 := length_takeWhile_le_length (fun c => c != '/') current_directory.data.reverse
    simp only [List.length_reverse] at h1
    simp only [String.length, List.length_reverse]
    exact_mod_cast h1
  have h4 : toSizeT (max_x - 4) = max_x - 4 := by
    unfold toSizeT
    rw [if_neg (by omega)]
  have h7 : toSizeT (max_x - 7) = max_x - 7 := by
    unfold toSizeT
    rw [if_neg (by omega)]
  have key : ∀ d : String, (d.length : Int) ≤ (current_directory.length : Int) →
      (d.length : Int) > max_x - 4 →
      (substrFrom d (sizeSub d.length (max_x - 7))).isSome = true := by
    intro d hd hgt
    unfold substrFrom sizeSub
    have hpos : ((d.length : Int) - (max_x - 7)) % 2 ^ 64
        = (d.length : Int) - (max_x - 7) := by
      apply Int.emod_eq_of_lt <;> omega
    rw [hpos, if_neg (by omega)]
    rfl
  unfold Display.fileBrowserTitle
  dsimp only
  rw [h4, h7]
  split_ifs with hempty hcond hcond
  · have hk := key _ (le_refl _) hcond
    rw [Option.isSome_iff_exists] at hk
    obtain ⟨t, ht⟩ := hk
    rw [ht]
    rfl
  · rfl
  · have hk := key _ hfn hcond
    rw [Option.isSome_iff_exists] at hk
    obtain ⟨t, ht⟩ := hk
    rw [ht]
    rfl
  · rfl

/-- C28 (evaluation of the code at the failing input): on a 20 x 24 screen the
directory window is floor(20/4) = 5 columns wide.  The name `projects` is
longer than max_x - 4 = 1, so the title is truncated with
`substr(length - (max_x - 7))`; max_x - 7 = -2 is converted to `size_t`, the
start position wraps to 8 + 2 = 10, past the end of the 8-character name, and
`substr` throws `std::out_of_range`: drawFileBrowser does not complete.  For
window widths 10 and 20 the same name is drawn. -/
theorem C28_title_truncation_throws_for_narrow_window :
    narrowSession.screen_width = 20 ∧
      (getWindowSize narrowSession.file_browser_window_).1 = 5 ∧
      filename narrowSession.current_directory = "projects" ∧
      sizeSub ("projects".length : Int) (toSizeT (5 - 7)) = 10 ∧
      substrFrom "projects" 10 = none ∧
      Display.fileBrowserTitle 5 narrowSession.current_directory = none ∧
      drawInterfaceFileBrowser true narrowSession = none ∧
      Display.fileBrowserTitle 10 narrowSession.current_directory = some "...cts" ∧
      Display.fileBrowserTitle 20 narrowSession.current_directory = some "projects" := by
  decide

/-! ## Claims on the key translation of the backends -/

/-- C25 (counterexample): the tab key (native value 9 on both backends) is not
named by either `mapKeyCode`, so the default branch returns 9, which is neither
`KEY_UNKNOWN`, a named code, nor a printable character code; the curses
function-key code `KEY_F(1)` = 265 is passed through in the same way. -/
theorem C25_counterexample_tab_is_passed_through :
    NCursesTerminal.mapKeyCode 9 = 9 ∧
      ¬ NormalizedKey (NCursesTerminal.mapKeyCode 9) ∧
      WindowsTerminal.mapKeyCode 9 = 9 ∧
      ¬ NormalizedKey (WindowsTerminal.mapKeyCode 9) ∧
      NCursesTerminal.mapKeyCode 265 = 265 ∧
      ¬ NormalizedKey (NCursesTerminal.mapKeyCode 265) := by
  decide

/-- The native keys that `NCursesTerminal::mapKeyCode` names become named
codes. -/
theorem ncursesMapKeyCode_named (key : Int) (h : key ∈ NCurses.namedKeys) :
    1000 ≤ NCursesTerminal.mapKeyCode key ∧ NCursesTerminal.mapKeyCode key ≤ 1010 := by
  simp only [NCurses.namedKeys, List.mem_cons, List.mem_singleton, List.not_mem_nil,
    or_false] at h
  rcases h with h | h | h | h | h | h | h | h | h | h | h | h | h <;> subst h <;> decide

/-- Every other native key leaves `NCursesTerminal::mapKeyCode` through the
default branch. -/
theorem ncursesMapKeyCode_unnamed (key : Int) (h : key ∉ NCurses.namedKeys) :
    NCursesTerminal.mapKeyCode key = key := by
  simp only [NCurses.namedKeys, List.mem_cons, List.mem_singleton, List.not_mem_nil,
    or_false, not_or] at h
  obtain ⟨h1, h2, h3, h4, h5, h6, h7, h8, h9, h10, h11, h12, h13⟩ := h
  unfold NCursesTerminal.mapKeyCode
  rw [if_neg h1, if_neg h2, if_neg h3, if_neg h4, if_neg h5, if_neg h6, if_neg h7, if_neg h8,
    if_neg (by rintro (h | h | h) <;> contradiction), if_neg h12, if_neg h13]

/-- The native keys that `WindowsTerminal::mapKeyCode` names become named
codes. -/
theorem windowsMapKeyCode_named (key : Int) (h : key ∈ Windows.namedKeys) :
    1000 ≤ WindowsTerminal.mapKeyCode key ∧ WindowsTerminal.mapKeyCode key ≤ 1009 := by
  simp only [Windows.namedKeys, List.mem_cons, List.mem_singleton, List.not_mem_nil,
    or_false] at h
  rcases h with h | h | h | h | h | h | h | h | h | h <;> subst h <;> decide

/-- Every other native key leaves `WindowsTerminal::mapKeyCode` through the
default branch. -/
theorem windowsMapKeyCode_unnamed (key : Int) (h : key ∉ Windows.namedKeys) :
    WindowsTerminal.mapKeyCode key = key := by
  simp only [Windows.namedKeys, List.mem_cons, List.mem_singleton, List.not_mem_nil,
    or_false, not_or] at h
  obtain ⟨h1, h2, h3, h4, h5, h6, h7, h8, h9, h10⟩ := h
  unfold WindowsTerminal.mapKeyCode
  rw [if_neg h1, if_neg h2, if_neg h3, if_neg h4, if_neg h5, if_neg h6, if_neg h7, if_neg h8,
    if_neg h9, if_neg h10]

/-- C25 (amended): each backend maps every native key it names to the named
code of the same key (up to up, down to down, left, right, page-up, page-down,
home, end; enter, newline and carriage return to enter; escape to escape; on
curses the resize key to the resize event) and returns every other native
value unchanged.  So the result is a member of the normalized key set exactly
when the native key is named or is itself a member of that set. -/
theorem C25_mapKeyCode_names_or_passes_through (key : Int) :
    (NCursesTerminal.mapKeyCode NCurses.KEY_UP = ITerminal.KEY_UP_ARROW ∧
        NCursesTerminal.mapKeyCode NCurses.KEY_DOWN = ITerminal.KEY_DOWN_ARROW ∧
        NCursesTerminal.mapKeyCode NCurses.KEY_LEFT = ITerminal.KEY_LEFT_ARROW ∧
        NCursesTerminal.mapKeyCode NCurses.KEY_RIGHT = ITerminal.KEY_RIGHT_ARROW ∧
        NCursesTerminal.mapKeyCode NCurses.KEY_PPAGE = ITerminal.KEY_PAGE_UP ∧
        NCursesTerminal.mapKeyCode NCurses.KEY_NPAGE = ITerminal.KEY_PAGE_DOWN ∧
        NCursesTerminal.mapKeyCode NCurses.KEY_HOME = ITerminal.KEY_HOME_KEY ∧
        NCursesTerminal.mapKeyCode NCurses.KEY_END = ITerminal.KEY_END_KEY ∧
        NCursesTerminal.mapKeyCode NCurses.KEY_ENTER = ITerminal.KEY_ENTER_KEY ∧
        NCursesTerminal.mapKeyCode 10 = ITerminal.KEY_ENTER_KEY ∧
        NCursesTerminal.mapKeyCode 13 = ITerminal.KEY_ENTER_KEY ∧
        NCursesTerminal.mapKeyCode 27 = ITerminal.KEY_ESCAPE_KEY ∧
        NCursesTerminal.mapKeyCode NCurses.KEY_RESIZE = ITerminal.KEY_RESIZE_EVENT) ∧
      (key ∉ NCurses.namedKeys → NCursesTerminal.mapKeyCode key = key) ∧
      (WindowsTerminal.mapKeyCode Windows.VK_UP = ITerminal.KEY_UP_ARROW ∧
        WindowsTerminal.mapKeyCode Windows.VK_DOWN = ITerminal.KEY_DOWN_ARROW ∧
        WindowsTerminal.mapKeyCode Windows.VK_LEFT = ITerminal.KEY_LEFT_ARROW ∧
        WindowsTerminal.mapKeyCode Windows.VK_RIGHT = ITerminal.KEY_RIGHT_ARROW ∧
        WindowsTerminal.mapKeyCode Windows.VK_PRIOR = ITerminal.KEY_PAGE_UP ∧
        WindowsTerminal.mapKeyCode Windows.VK_NEXT = ITerminal.KEY_PAGE_DOWN ∧
        WindowsTerminal.mapKeyCode Windows.VK_HOME = ITerminal.KEY_HOME_KEY ∧
        WindowsTerminal.mapKeyCode Windows.VK_END = ITerminal.KEY_END_KEY ∧
        WindowsTerminal.mapKeyCode Windows.VK_RETURN = ITerminal.KEY_ENTER_KEY ∧
        WindowsTerminal.mapKeyCode Windows.VK_ESCAPE = ITerminal.KEY_ESCAPE_KEY) ∧
      (key ∉ Windows.namedKeys → WindowsTerminal.mapKeyCode key = key) ∧
      (NormalizedKey (NCursesTerminal.mapKeyCode key) ↔
        (key ∈ NCurses.namedKeys ∨ NormalizedKey key)) ∧
      (NormalizedKey (WindowsTerminal.mapKeyCode key) ↔
        (key ∈ Windows.namedKeys ∨ NormalizedKey key)) := by
  refine ⟨by decide, ncursesMapKeyCode_unnamed key, by decide,
    windowsMapKeyCode_unnamed key, ?_, ?_⟩
  · by_cases hn : key ∈ NCurses.namedKeys
    · have h := ncursesMapKeyCode_named key hn
      exact ⟨fun _ => Or.inl hn, fun _ => Or.inr (Or.inl h)⟩
    · rw [ncursesMapKeyCode_unnamed key hn]
      exact ⟨Or.inr, fun h => h.resolve_left hn⟩
  · by_cases hn : key ∈ Windows.namedKeys
    · have h := windowsMapKeyCode_named key hn
      exact ⟨fun _ => Or.inl hn, fun _ => Or.inr (Or.inl ⟨h.1, by omega⟩)⟩
    · rw [windowsMapKeyCode_unnamed key hn]
      exact ⟨Or.inr, fun h => h.resolve_left hn⟩

/-- C25 (witness): at the letter `a` (97), which neither backend names: the
curses up-arrow 259 becomes `KEY_UP_ARROW` = 1000 and the down-arrow 258
becomes `KEY_DOWN_ARROW` = 1001, the Windows return key 13 becomes
`KEY_ENTER_KEY` = 1008, and 97 is returned unchanged by both. -/
theorem C25_mapKeyCode_names_or_passes_through_witness :
    NCursesTerminal.mapKeyCode NCurses.KEY_UP = ITerminal.KEY_UP_ARROW ∧
      NCursesTerminal.mapKeyCode 259 = 1000 ∧
      NCursesTerminal.mapKeyCode 258 = 1001 ∧
      WindowsTerminal.mapKeyCode 13 = 1008 ∧
      NCursesTerminal.mapKeyCode 97 = 97 ∧
      WindowsTerminal.mapKeyCode 97 = 97 :=
  ⟨(C25_mapKeyCode_names_or_passes_through 97).1.1,
   (C25_mapKeyCode_names_or_passes_through 97).1.1,
   (C25_mapKeyCode_names_or_passes_through 97).1.2.1,
   (C25_mapKeyCode_names_or_passes_through 97).2.2.1.2.2.2.2.2.2.2.2.1,
   (C25_mapKeyCode_names_or_passes_through 97).2.1 (by decide),
   (C25_mapKeyCode_names_or_passes_through 97).2.2.2.1 (by decide)⟩

/-! ## Claims on the sort comparator with failing status queries -/

/-- The comparator is irreflexive on all entries. -/
theorem comparator_irrefl (a : DirectoryEntry) :
    FileOperations.loadDirectoryComparator a a = false := by
  unfold FileOperations.loadDirectoryComparator
  have h : ∀ s : String, stringLess s s = false := fun s =>
    (stringLess_false_iff s s).2 (le_refl s)
  cases a.is_directory <;> cases a.status_error <;> simp [h]

/-- The comparator is asymmetric on all entries. -/
theorem comparator_asymm (a b : DirectoryEntry)
    (hab : FileOperations.loadDirectoryComparator a b = true) :
    FileOperations.loadDirectoryComparator b a = false := by
  unfold FileOperations.loadDirectoryComparator at *
  have h : ∀ s t : String, stringLess s t = true → stringLess t s = false := fun s t hst =>
    (stringLess_false_iff t s).2 (le_of_lt ((stringLess_iff s t).1 hst))
  revert hab
  cases a.is_directory <;> cases b.is_directory <;>
    cases a.status_error <;> cases b.status_error <;>
    simp <;> exact h _ _

/-- For entries whose status queries succeed, `a` is ordered before `b` exactly
when `b` is not ordered before-or-equal `a`: the comparator is the strict part
of a total preorder. -/
theorem comparator_true_iff (a b : DirectoryEntry) :
    FileOperations.loadDirectoryComparator a b = true ↔
      ¬ FileOperations.loadDirectoryComparator a b = false := by
  cases FileOperations.loadDirectoryComparator a b <;> simp

/-- C29 (counterexample): take a directory `c`, a regular file `a` and an entry
`b` whose is_directory query reports an error.  The comparator orders `c`
before `a` (directories first), `a` before `b` and `b` before `c` (name
comparison as soon as one of the two queries fails), but not `c` before `b`:
on this set it is not transitive, the three entries form a cycle, so it is not
a strict weak ordering there. -/
theorem C29_counterexample_cycle_with_error_entry :
    (errorEntry "/d/b" "Permission denied").status_error = some "Permission denied" ∧
      FileOperations.loadDirectoryComparator (dirEntry "/d/c") (fileEntry "/d/a") = true ∧
      FileOperations.loadDirectoryComparator (fileEntry "/d/a")
        (errorEntry "/d/b" "Permission denied") = true ∧
      FileOperations.loadDirectoryComparator (dirEntry "/d/c")
        (errorEntry "/d/b" "Permission denied") = false ∧
      FileOperations.loadDirectoryComparator (errorEntry "/d/b" "Permission denied")
        (dirEntry "/d/c") = true ∧
      ¬ (∀ a b c : DirectoryEntry,
          FileOperations.loadDirectoryComparator a b = true →
          FileOperations.loadDirectoryComparator b c = true →
          FileOperations.loadDirectoryComparator a c = true) := by
  refine ⟨by decide, by decide, by decide, by decide, by decide, fun h => ?_⟩
  have h1 := h (dirEntry "/d/c") (fileEntry "/d/a") (errorEntry "/d/b" "Permission denied")
    (by decide) (by decide)
  revert h1
  decide

/-- C29 (amended): on entries whose is_directory queries report no error the
comparator is a strict weak ordering: irreflexive, asymmetric, transitive, and
incomparability (neither entry ordered before the other) is transitive.
Irreflexivity and asymmetry hold for all entries `d`, `e`, with or without an
error. -/
theorem C29_comparator_strict_weak_ordering_without_errors (a b c d e : DirectoryEntry)
    (ha : a.status_error = none) (hb : b.status_error = none) (hc : c.status_error = none) :
    FileOperations.loadDirectoryComparator a a = false ∧
      (FileOperations.loadDirectoryComparator a b = true →
        FileOperations.loadDirectoryComparator b a = false) ∧
      (FileOperations.loadDirectoryComparator a b = true →
        FileOperations.loadDirectoryComparator b c = true →
        FileOperations.loadDirectoryComparator a c = true) ∧
      (FileOperations.loadDirectoryComparator a b = false ∧
          FileOperations.loadDirectoryComparator b a = false →
        FileOperations.loadDirectoryComparator b c = false ∧
          FileOperations.loadDirectoryComparator c b = false →
        FileOperations.loadDirectoryComparator a c = false ∧
          FileOperations.loadDirectoryComparator c a = false) ∧
      FileOperations.loadDirectoryComparator d d = false ∧
      (FileOperations.loadDirectoryComparator d e = true →
        FileOperations.loadDirectoryComparator e d = false) := by
  refine ⟨comparator_irrefl a, comparator_asymm a b, ?_, ?_, comparator_irrefl d,
    comparator_asymm d e⟩
  · intro hab hbc
    rw [comparator_true_iff] at hab hbc ⊢
    intro hac
    rcases comparator_total b c hb hc with h | h
    · exact hab (comparator_trans b c a hb hc ha h hac)
    · exact hbc h
  · rintro ⟨hab, hba⟩ ⟨hbc, hcb⟩
    exact ⟨comparator_trans c b a hc hb ha hbc hab, comparator_trans a b c ha hb hc hba hcb⟩

/-- C29 (witness): the directory `c`, the file `a` and the file `B`, none with
an error: `c` is ordered before `a` and `a` before `B`, hence `c` before `B`. -/
theorem C29_comparator_strict_weak_ordering_without_errors_witness :
    (dirEntry "/d/c").status_error = none ∧ (fileEntry "/d/a").status_error = none ∧
      (fileEntry "/d/B").status_error = none ∧
      FileOperations.loadDirectoryComparator (dirEntry "/d/c") (fileEntry "/d/a") = true ∧
      FileOperations.loadDirectoryComparator (fileEntry "/d/a") (fileEntry "/d/B") = true ∧
      FileOperations.loadDirectoryComparator (dirEntry "/d/c") (fileEntry "/d/B") = true :=
  ⟨rfl, rfl, rfl, by decide, by decide,
    (C29_comparator_strict_weak_ordering_without_errors (dirEntry "/d/c") (fileEntry "/d/a")
      (fileEntry "/d/B") (errorEntry "/d/b" "Permission denied") (dirEntry "/d/c")
      rfl rfl rfl).2.2.1 (by decide) (by decide)⟩

/-! ## Claims on the command line of the image viewer -/

/-- The seven characters that the escaping loop lists are preceded by a
backslash; every other character is copied unchanged. -/
theorem escapeChar_cases (c : Char) :
    (c ∈ [' ', Char.ofNat 39, Char.ofNat 34, Char.ofNat 92, '&', ';', '|'] →
        ImageHandler.escapeChar c = [Char.ofNat 92, c]) ∧
      (c ∉ [' ', Char.ofNat 39, Char.ofNat 34, Char.ofNat 92, '&', ';', '|'] →
        ImageHandler.escapeChar c = [c]) := by
  unfold ImageHandler.escapeChar
  simp only [List.mem_cons, List.mem_singleton, List.not_mem_nil, or_false]
  constructor
  · intro h
    rw [if_pos h]
  · intro h
    rw [if_neg h]

/-- C30 (evaluation of the code at the failing input): the file name
`x$(id).png` has an image extension; none of the characters `$`, `(` and `)`
is among the seven that the escaping loop handles, so the path is copied into
the command unchanged and without any backslash: the command handed to the
POSIX shell contains the command substitution `$(id)`. -/
theorem C30_command_substitution_reaches_the_shell :
    ImageHandler.isImageFile "/tmp/x$(id).png" = true ∧
      ImageHandler.escapedPath "/tmp/x$(id).png" = "/tmp/x$(id).png" ∧
      Char.ofNat 92 ∉ (ImageHandler.escapedPath "/tmp/x$(id).png").data ∧
      ImageHandler.launchCommand Platform.generic "/tmp/x$(id).png"
        = "xdg-open /tmp/x$(id).png >/dev/null 2>&1 &" ∧
      ImageHandler.launchCommand Platform.apple "/tmp/x$(id).png"
        = "open /tmp/x$(id).png >/dev/null 2>&1 &" ∧
      ImageHandler.launchCommand Platform.linux "/tmp/x$(id).png"
        = "xdg-open /tmp/x$(id).png >/dev/null 2>&1 || " ++
          "eog /tmp/x$(id).png >/dev/null 2>&1 || " ++
          "feh /tmp/x$(id).png >/dev/null 2>&1 || " ++
          "display /tmp/x$(id).png >/dev/null 2>&1 || " ++
          "gwenview /tmp/x$(id).png >/dev/null 2>&1 || " ++
          "ristretto /tmp/x$(id).png >/dev/null 2>&1 &" ∧
      ImageHandler.escapedPath "/tmp/a b.png"
        = String.mk ("/tmp/a".data ++ [Char.ofNat 92] ++ " b.png".data) :=
  ⟨by decide, by decide, by decide, rfl, rfl, rfl, by decide⟩

/-! ## Claims on invalid window handles -/

/-- Erasing a key that is not in the map leaves the map as it is. -/
theorem filter_ne_of_lookup_none {β : Type} (l : List (Nat × β)) (k : Nat)
    (h : l.lookup k = none) : l.filter (fun p => p.1 != k) = l := by
  induction l with
  | nil => rfl
  | cons p rest ih =>
    obtain ⟨a, b⟩ := p
    by_cases hka : k = a
    · subst hka
      simp [List.lookup] at h
    · have hne : (k == a) = false := by simpa using hka
      simp only [List.lookup, hne] at h
      have hak : (a != k) = true := by simpa using fun h' => hka h'.symm
      simp only [List.filter_cons, hak, if_true, ih h]

/-- After erasing a key the map has no value for it. -/
theorem lookup_filter_ne {β : Type} (l : List (Nat × β)) (k : Nat) :
    (l.filter (fun p => p.1 != k)).lookup k = none := by
  induction l with
  | nil => rfl
  | cons p rest ih =>
    obtain ⟨a, b⟩ := p
    by_cases hka : k = a
    · subst hka
      have hak : (k != k) = false := by simp
      simp only [List.filter_cons, hak, Bool.false_eq_true, if_false]
      exact ih
    · have hne : (k == a) = false := by simpa using hka
      have hak : (a != k) = true := by simpa using fun h' => hka h'.symm
      simp only [List.filter_cons, hak, if_true, List.lookup, hne]
      exact ih

/-- A destroyed handle of the Windows backend names no live window. -/
theorem WindowsTerminal.getWindowInfo_destroyWindow (t : WindowsTerminal) (window : Nat) :
    (t.destroyWindow window).getWindowInfo window = none := by
  unfold WindowsTerminal.destroyWindow WindowsTerminal.getWindowInfo
  exact lookup_filter_ne t.windows_ window

/-- A destroyed handle of the ncurses backend is no longer in the window map
(the map holds windows made by `newwin`, never the standard screen). -/
theorem NCursesTerminal.lookup_destroyWindow (t : NCursesTerminal) (window : Nat)
    (hnull : window ≠ 0) (hmap : t.windows_.lookup window ≠ some Surface.stdscr) :
    (t.destroyWindow window).windows_.lookup window = none := by
  unfold NCursesTerminal.destroyWindow NCursesTerminal.getNCursesWindow
  rw [if_neg hnull]
  cases hl : t.windows_.lookup window with
  | none => exact hl
  | some win =>
    dsimp only
    split_ifs with hwin
    · exact lookup_filter_ne t.windows_ window
    · rw [hl] at hmap
      exact absurd (congrArg some (not_not.1 hwin)) hmap

/-- `WindowsTerminal::drawHorizontalLine` does not test the pointer that
`getWindowInfo` returns: for a handle that names no live window and a positive
length the first iteration dereferences a null pointer. -/
theorem WindowsTerminal.drawHorizontalLine_invalid_handle (t : WindowsTerminal)
    (window : Nat) (y x length : Int) (hwin : t.getWindowInfo window = none)
    (hlen : 0 < length) : t.drawHorizontalLine window y x length = none := by
  unfold WindowsTerminal.drawHorizontalLine
  obtain ⟨n, hn⟩ : ∃ n, length.toNat = n + 1 := ⟨length.toNat - 1, by omega⟩
  rw [hn, List.range_succ_eq_map]
  unfold WindowsTerminal.drawHorizontalLineLoop
  rw [hwin]

/-- C26 (counterexample): handle 0, the null handle, names no window of the
ncurses terminal, yet `getNCursesWindow` resolves it to the standard screen:
clearWindow erases `stdscr` and drawText prints on it. -/
theorem C26_counterexample_null_handle_acts_on_stdscr :
    cursesTerminal.windows_.lookup 0 = none ∧
      cursesTerminal.getNCursesWindow 0 = some Surface.stdscr ∧
      (cursesTerminal.clearWindow 0).calls = [CursesCall.werase Surface.stdscr] ∧
      (cursesTerminal.drawText 0 1 2 "x").calls
        = [CursesCall.mvwprintw Surface.stdscr 1 2 "x"] ∧
      cursesTerminal.clearWindow 0 ≠ cursesTerminal := by
  decide

/-- C26 (amended): let `hw` be a handle that names no live window of the
Windows terminal, and `hn` a non-null handle that is not in the window map of
the ncurses terminal.  Then clearWindow, drawBorder, drawText,
setTextAttribute, clearTextAttribute, refreshWindow and destroyWindow of the
Windows backend, and all eight operations of the ncurses backend, return the
terminal unchanged (no buffer or attribute changes, no library call).  For the
null handle the ncurses backend leaves destroyWindow without effect and makes
the other operations act on the standard screen. -/
theorem C26_invalid_handle_is_ignored_null_handle_is_stdscr
    (tw : WindowsTerminal) (hw : Nat) (tn : NCursesTerminal) (hn : Nat)
    (y x length : Int) (text : String) (color : ColorPair) (bold reverse : Bool)
    (hwin : tw.getWindowInfo hw = none)
    (hnull : hn ≠ 0) (hcur : tn.windows_.lookup hn = none) :
    (tw.clearWindow hw = tw ∧ tw.drawBorder hw = tw ∧ tw.drawText hw y x text = tw ∧
        tw.setTextAttribute hw color bold reverse = tw ∧
        tw.clearTextAttribute hw color bold reverse = tw ∧
        tw.refreshWindow hw = tw ∧ tw.destroyWindow hw = tw) ∧
      (tn.clearWindow hn = tn ∧ tn.drawBorder hn = tn ∧ tn.drawText hn y x text = tn ∧
        tn.drawHorizontalLine hn y x length = tn ∧
        tn.setTextAttribute hn color bold reverse = tn ∧
        tn.clearTextAttribute hn color bold reverse = tn ∧
        tn.refreshWindow hn = tn ∧ tn.destroyWindow hn = tn) ∧
      (tn.destroyWindow 0 = tn ∧
        (tn.clearWindow 0).calls = tn.calls ++ [CursesCall.werase Surface.stdscr] ∧
        (tn.drawBorder 0).calls = tn.calls ++ [CursesCall.box Surface.stdscr] ∧
        (tn.drawText 0 y x text).calls
          = tn.calls ++ [CursesCall.mvwprintw Surface.stdscr y x text] ∧
        (tn.drawHorizontalLine 0 y x length).calls
          = tn.calls ++ [CursesCall.mvwhline Surface.stdscr y x length] ∧
        (tn.refreshWindow 0).calls = tn.calls ++ [CursesCall.wrefresh Surface.stdscr]) := by
  have hnone : tn.getNCursesWindow hn = none := by
    unfold NCursesTerminal.getNCursesWindow
    rw [if_neg hnull]
    exact hcur
  have hstd : tn.getNCursesWindow 0 = some Surface.stdscr := rfl
  refine ⟨⟨?_, ?_, ?_, ?_, ?_, ?_, ?_⟩, ⟨?_, ?_, ?_, ?_, ?_, ?_, ?_, ?_⟩,
    ⟨?_, ?_, ?_, ?_, ?_, ?_⟩⟩
  · unfold WindowsTerminal.clearWindow
    rw [hwin]
  · unfold WindowsTerminal.drawBorder
    rw [hwin]
  · unfold WindowsTerminal.drawText
    rw [hwin]
  · unfold WindowsTerminal.setTextAttribute
    rw [hwin]
  · unfold WindowsTerminal.clearTextAttribute
    rw [hwin]
  · unfold WindowsTerminal.refreshWindow WindowsTerminal.updateWindowBuffer
    rw [hwin]
  · unfold WindowsTerminal.destroyWindow
    rw [filter_ne_of_lookup_none tw.windows_ hw hwin]
  · unfold NCursesTerminal.clearWindow
    rw [hnone]
  · unfold NCursesTerminal.drawBorder
    rw [hnone]
  · unfold NCursesTerminal.drawText
    rw [hnone]
  · unfold NCursesTerminal.drawHorizontalLine
    rw [hnone]
  · unfold NCursesTerminal.setTextAttribute
    rw [hnone]
  · unfold NCursesTerminal.clearTextAttribute
    rw [hnone]
  · unfold NCursesTerminal.refreshWindow
    rw [hnone]
  · unfold NCursesTerminal.destroyWindow
    rw [hnone]
  · unfold NCursesTerminal.destroyWindow
    rw [hstd]
    rfl
  · unfold NCursesTerminal.clearWindow
    rw [hstd]
  · unfold NCursesTerminal.drawBorder
    rw [hstd]
  · unfold NCursesTerminal.drawText
    rw [hstd]
  · unfold NCursesTerminal.drawHorizontalLine
    rw [hstd]
  · unfold NCursesTerminal.refreshWindow
    rw [hstd]

/-- C26 (witness): the only window of each example terminal is destroyed and
its handle is used afterwards. -/
theorem C26_invalid_handle_is_ignored_null_handle_is_stdscr_witness :
    (consoleTerminal.destroyWindow 1).getWindowInfo 1 = none ∧
      (cursesTerminal.destroyWindow 4096).windows_.lookup 4096 = none ∧
      (consoleTerminal.destroyWindow 1).drawText 1 0 0 "abc"
        = consoleTerminal.destroyWindow 1 ∧
      (cursesTerminal.destroyWindow 4096).drawText 4096 0 0 "abc"
        = cursesTerminal.destroyWindow 4096 :=
  ⟨by decide, by decide,
   (C26_invalid_handle_is_ignored_null_handle_is_stdscr (consoleTerminal.destroyWindow 1) 1
      (cursesTerminal.destroyWindow 4096) 4096 0 0 2 "abc" ColorPair.DEFAULT false false
      (by decide) (by decide) (by decide)).1.2.2.1,
   (C26_invalid_handle_is_ignored_null_handle_is_stdscr (consoleTerminal.destroyWindow 1) 1
      (cursesTerminal.destroyWindow 4096) 4096 0 0 2 "abc" ColorPair.DEFAULT false false
      (by decide) (by decide) (by decide)).2.1.2.2.1⟩

end QuickView
